import Mathlib

/-!
# tems: result pipeline, query executors and session refresh

A shallow embedding of the Go packages `dataout` (result channel and its
consumer) and `datasource` (CloudWatch executor, Grafana-proxied probes,
Grafana login), followed by the properties proved about them.

Conventions of the embedding:
* Go `string` is `String`; scanning code works on its character list.
* Go `int64`/`int` values are `Int`; where the source multiplies into an
  `int64` the wrap-around is written out with `% 2^64`.
* a buffered channel is the list of its pending elements, oldest first.
* calls to the outside world (HTTP, CloudWatch, the clock, `%.2f` float
  formatting) are inputs of the embedded function; calls the code makes on its
  collaborators (`PushDatapoint`, the logger, `time.NewTimer`) are outputs.
-/

namespace Tems

/-! ## dataout/results.go -/

/-- Result is the datapoint record of `dataout/results.go`. -/
structure Result where
  Timestamp : Int
  Name : String
  Value : String
  Datatype : String
deriving DecidableEq, Repr

/-- Log calls, by logger function. -/
inductive LogEntry where
  | resultLog (msg : String)
  | trace (msg : String)
  | debug (msg : String)
  | warn (msg : String)
  | error (msg : String)
deriving DecidableEq, Repr

/-- One call `CirconusProxyInstance.PushDatapoint(timestamp, name, value, datatype)`. -/
structure PushCall where
  timestamp : Int
  name : String
  value : String
  datatype : String
deriving DecidableEq, Repr

/-- Capacity given to `make(chan Result, 10000)` in `InitResultChan`. -/
def resultChanCap : Nat := 10000

/-- The channel created by `InitResultChan`: empty, capacity `resultChanCap`. -/
def InitResultChan : List Result := []

/-- Non-blocking send used by every producer:
`select { case ResultChan <- r: default: log.Error(...) }`.
Returns the channel, whether the send case was taken, and the log calls. -/
def trySend (ch : List Result) (r : Result) : List Result × Bool × List LogEntry :=
  if ch.length < resultChanCap then (ch ++ [r], true, [])
  else (ch, false, [LogEntry.error "Channel full, discarding result"])

/-- Go's `(r *Result) ToString`: `fmt.Sprintf("[%d] %s=%s", ...)`. -/
def Result.ToString (r : Result) : String :=
  "[" ++ toString r.Timestamp ++ "] " ++ r.Name ++ "=" ++ r.Value

/-- Body of the `case result := <-ResultChan:` arm of `handleResult`, for one
received Result: the log calls and the `PushDatapoint` calls it makes. -/
def handleResult (result : Result) : List LogEntry × List PushCall :=
  let dt := if result.Datatype = "" then "n" else result.Datatype
  let val := result.Value
  if val = "nan" ∨ val = "" ∨ val = "null" then
    ([LogEntry.resultLog result.ToString,
      LogEntry.warn ("Skipping result " ++ val ++ " for " ++ result.Name ++ "\n")], [])
  else
    ([LogEntry.resultLog result.ToString,
      LogEntry.trace ("Got result: " ++ result.ToString)],
     [⟨result.Timestamp, result.Name, val, dt⟩])

/-- State of the pipeline: pending Results of `ResultChan` (oldest first), the
`PushDatapoint` calls made so far (oldest first), and the log. -/
structure Pipeline where
  chan : List Result
  sink : List PushCall
  log : List LogEntry
deriving DecidableEq, Repr

/-- Pipeline right after `InitResultChan`. -/
def Pipeline.init : Pipeline := ⟨InitResultChan, [], []⟩

/-- Atomic steps of the pipeline: a producer's non-blocking send, and one
iteration of the consumer loop of `handleResult`. -/
inductive Op where
  | offer (r : Result)
  | consume
deriving DecidableEq, Repr

/-- One step. A consumer iteration on an empty channel blocks: nothing changes. -/
def Pipeline.step (s : Pipeline) : Op → Pipeline
  | Op.offer r =>
    let (ch, _, lg) := trySend s.chan r
    { s with chan := ch, log := s.log ++ lg }
  | Op.consume =>
    match s.chan with
    | [] => s
    | r :: rest =>
      let (lg, pushes) := handleResult r
      { chan := rest, sink := s.sink ++ pushes, log := s.log ++ lg }

/-- Run a sequence of steps from a state. -/
def Pipeline.run (s : Pipeline) (ops : List Op) : Pipeline :=
  ops.foldl Pipeline.step s

/-- The Results whose send case was taken while running `ops` from `s`, in
the order of the sends. -/
def Pipeline.accepted (s : Pipeline) : List Op → List Result
  | [] => []
  | Op.offer r :: ops =>
    (if (trySend s.chan r).2.1 then [r] else []) ++ Pipeline.accepted (s.step (Op.offer r)) ops
  | Op.consume :: ops => Pipeline.accepted (s.step Op.consume) ops

/-- The `PushDatapoint` calls `handleResult` makes for a list of Results
received in that order. -/
def pushesOf (rs : List Result) : List PushCall :=
  rs.flatMap (fun r => (handleResult r).2)

/-! ## Go library functions used by `datasource`

The three patterns of `grafana.go` are concatenations of literal characters
and greedy starred character classes, so `regexp` is embedded for that
fragment: a pattern is a list of atoms, capture groups are ranges of atoms,
and matching is leftmost-first (the earliest start wins; at that start every
star takes the longest run that lets the rest of the pattern match), which is
the match Go's `regexp` package reports for these patterns. -/

/-- One item of a pattern: a literal character, or `c*` for a character class `c`. -/
inductive Atom where
  | lit (c : Char)
  | star (cls : Char → Bool)

/-- A compiled pattern: its atoms, and for each capture group the range
`[first, last)` of atoms inside its parentheses. -/
structure Regexp where
  atoms : List Atom
  groups : List (Nat × Nat)

/-- Match the atoms at the very start of `s`; the result lists, per atom, the
characters it consumed. A star tries its longest run first. -/
def matchHere : List Atom → List Char → Option (List (List Char))
  | [], _ => some []
  | Atom.lit c :: rest, s =>
    match s with
    | [] => none
    | x :: xs => if x = c then (matchHere rest xs).map (fun m => [x] :: m) else none
  | Atom.star cls :: rest, s =>
    (List.range ((s.takeWhile cls).length + 1)).reverse.findSome?
      (fun k => (matchHere rest (s.drop k)).map (fun m => s.take k :: m))

/-- Leftmost match: try every start position from the left, the end of the
text included. -/
def findLeftmost (atoms : List Atom) : List Char → Option (List (List Char))
  | [] => matchHere atoms []
  | x :: xs => (matchHere atoms (x :: xs)).orElse (fun _ => findLeftmost atoms xs)

/-- Go's `(*Regexp).FindStringSubmatch`: the whole match followed by the text
of each capture group; the empty list stands for the `nil` of no match. -/
def Regexp.FindStringSubmatch (re : Regexp) (s : String) : List String :=
  match findLeftmost re.atoms s.data with
  | none => []
  | some m =>
    String.mk m.flatten :: re.groups.map (fun g => String.mk ((m.drop g.1).take (g.2 - g.1)).flatten)

/-- Literal atoms for a literal piece of a pattern. -/
def lits (s : String) : List Atom := s.data.map Atom.lit

/-- Character class `[0-9]`. -/
def isDigit09 (c : Char) : Bool := decide ('0' ≤ c) && decide (c ≤ '9')

/-- Go's `strings.Split(s, sep)` for a one-character separator, on character
lists: the pieces between separators; the empty text gives one empty piece. -/
def splitChars (sep : Char) : List Char → List (List Char)
  | [] => [[]]
  | c :: cs =>
    if c = sep then [] :: splitChars sep cs
    else
      match splitChars sep cs with
      | [] => [[c]]
      | p :: ps => (c :: p) :: ps

/-- Go's `strings.Split(s, ",")`. -/
def stringsSplitComma (s : String) : List String :=
  (splitChars ',' s.data).map String.mk

/-- Go's `strconv.Atoi` on a 64-bit platform: an optional sign followed by one
or more ASCII digits, with value in the `int` range; `none` is a parse error. -/
def Atoi (s : String) : Option Int :=
  let (neg, ds) :=
    match s.data with
    | '-' :: t => (true, t)
    | '+' :: t => (false, t)
    | t => (false, t)
  if ds = [] ∨ ¬ ds.all isDigit09 = true then none
  else
    let n : Int := (ds.foldl (fun acc c => 10 * acc + (c.toNat - 48)) 0 : Nat)
    let v : Int := if neg then -n else n
    if -(2 : Int) ^ 63 ≤ v ∧ v < (2 : Int) ^ 63 then some v else none

/-- Result of an `int64` computation whose mathematical value is `x`. -/
def wrapInt64 (x : Int) : Int := (x + 2 ^ 63) % 2 ^ 64 - 2 ^ 63

/-- Nanoseconds in `time.Second`. -/
def timeSecond : Int := 1000000000

/-- Go's `(time.Time).Unix` for a time given in nanoseconds since the epoch. -/
def unixSeconds (nanos : Int) : Int := nanos / 1000000000

/-! ## datasource/grafana.go -/

/-- What the code reads of an `*http.Response`: the status code, the values of
the `Set-Cookie` header (empty when the header is absent) and the outcome of
`ioutil.ReadAll(response.Body)`. -/
structure Response where
  StatusCode : Int
  SetCookie : List String
  Body : Except String String

/-- Pattern `(grafana_session=[^;]*).*Max-Age=([0-9]*)`. -/
def cookieRegexp : Regexp where
  atoms := lits "grafana_session=" ++ [Atom.star (fun c => c != ';'), Atom.star (fun c => c != '\n')]
    ++ lits "Max-Age=" ++ [Atom.star isDigit09]
  groups := [(0, 17), (26, 27)]

/-- Pattern `data":\[\[([^\]]*)`. -/
def caqlResultRegex : Regexp where
  atoms := lits "data\":[[" ++ [Atom.star (fun c => c != ']')]
  groups := [(8, 9)]

/-- Pattern `.*,([0-9]*)]]`. -/
def influxLastResultRegex : Regexp where
  atoms := [Atom.star (fun c => c != '\n'), Atom.lit ',', Atom.star isDigit09, Atom.lit ']', Atom.lit ']']
  groups := [(2, 3)]

/-- Go's `doProxiedCAQLHTTPQuery`, from the outcome `http` of `netClient.Do(req)`
on: the returned string and the returned error (`none` for `nil`). -/
def doProxiedCAQLHTTPQuery (http : Except String Response) : String × Option String :=
  match http with
  | Except.error err =>
    ("nan", some ("net/client request error while querying the Grafana CAQL proxy:\n\t" ++ err))
  | Except.ok response =>
    if response.StatusCode ≥ 400 then
      ("nan", some ("unexpected HTTP status code error while querying the Grafana CAQL proxy. HTTP status: "
        ++ toString response.StatusCode))
    else
      match response.Body with
      | Except.error ioErr => ("nan", some ("io error while reading HTTP response body:\n" ++ ioErr))
      | Except.ok stringBody =>
        let m := caqlResultRegex.FindStringSubmatch stringBody
        if m.length < 2 then ("nan", none)
        else
          let datapoints := stringsSplitComma (m.getD 1 "")
          let lastCount := datapoints.getD (datapoints.length - 1) ""
          (lastCount, none)

/-- Go's `doProxiedInfluxDBHTTPQuery`, from the outcome `http` of
`netClient.Do(req)` on. -/
def doProxiedInfluxDBHTTPQuery (http : Except String Response) : String × Option String :=
  match http with
  | Except.error err =>
    ("nan", some ("net/client request error while querying the Grafana InfluxDB proxy:\n\t" ++ err))
  | Except.ok response =>
    if response.StatusCode ≥ 400 then
      ("nan", some ("unexpected HTTP status code error while querying the Grafana InfluxDB proxy. HTTP status: "
        ++ toString response.StatusCode))
    else
      match response.Body with
      | Except.error ioErr => ("nan", some ("io error while reading HTTP response body:\n" ++ ioErr))
      | Except.ok stringBody =>
        let m := influxLastResultRegex.FindStringSubmatch stringBody
        if m.length < 2 then ("nan", none)
        else
          let datapoints := stringsSplitComma (m.getD 1 "")
          let lastCount := datapoints.getD (datapoints.length - 1) ""
          (lastCount, none)

/-- What an executor did: the Results it offered to `ResultChan` (in order,
whether or not the send case was taken), the channel afterwards, its log calls. -/
structure ExecOut where
  offered : List Result
  chan : List Result
  log : List LogEntry
deriving DecidableEq, Repr

/-- Go's `SimpleCaqlQuery`. Inputs besides `queryMetricName`: `config.SandboxID`,
the two clock readings (nanoseconds since the epoch), the `%.2f` rendering
`fmtMillis` of a nanosecond difference as milliseconds, the outcome of the HTTP
request, and the channel. -/
def SimpleCaqlQuery (SandboxID : String) (queryStartTime endTime : Int) (fmtMillis : Int → String)
    (http : Except String Response) (queryMetricName : String) (ch : List Result) : ExecOut :=
  let queryTimestamp := unixSeconds queryStartTime
  let (result, err) := doProxiedCAQLHTTPQuery http
  let (result, queryDuration, lg0) :=
    match err with
    | some e => ("nan", "nan", [LogEntry.error ("Error while querying Grafana:\n" ++ e ++ "\n")])
    | none => (result, fmtMillis (endTime - queryStartTime), [])
  let r1 : Result := ⟨queryTimestamp, SandboxID ++ ".query." ++ queryMetricName ++ ".duration", queryDuration, ""⟩
  let (ch1, _, lg1) := trySend ch r1
  let r2 : Result := ⟨queryTimestamp, SandboxID ++ ".query." ++ queryMetricName ++ ".value", result, ""⟩
  let (ch2, _, lg2) := trySend ch1 r2
  ⟨[r1, r2], ch2, lg0 ++ lg1 ++ lg2⟩

/-- Go's `SimpleInfluxDBQuery`; inputs as for `SimpleCaqlQuery`. -/
def SimpleInfluxDBQuery (SandboxID : String) (queryStartTime endTime : Int) (fmtMillis : Int → String)
    (http : Except String Response) (queryMetricName : String) (ch : List Result) : ExecOut :=
  let queryTimestamp := unixSeconds queryStartTime
  let (result, err) := doProxiedInfluxDBHTTPQuery http
  let (result, queryDuration, lg0) :=
    match err with
    | some e => ("nan", "nan", [LogEntry.error ("Error while querying Grafana:\n" ++ e ++ "\n")])
    | none => (result, fmtMillis (endTime - queryStartTime), [])
  let r1 : Result := ⟨queryTimestamp, SandboxID ++ ".query." ++ queryMetricName ++ ".duration", queryDuration, ""⟩
  let (ch1, _, lg1) := trySend ch r1
  let r2 : Result := ⟨queryTimestamp, SandboxID ++ ".query." ++ queryMetricName ++ ".value", result, ""⟩
  let (ch2, _, lg2) := trySend ch1 r2
  ⟨[r1, r2], ch2, lg0 ++ lg1 ++ lg2⟩

/-- An initialization error: the `Description` and the `Cause` given to
`appError.NewInitializationError`. -/
structure InitializationError where
  Description : String
  Cause : Option String
deriving DecidableEq, Repr

/-- What a call of `login` did: the returned error (`none` for `nil`), the
package variable `grafanaCookie` after the call, the durations in nanoseconds
of the timers it armed with `time.NewTimer` (each one, when it fires, runs
`login` again), and its log calls. -/
structure LoginOut where
  err : Option InitializationError
  grafanaCookie : String
  timers : List Int
  log : List LogEntry
deriving DecidableEq, Repr

/-- Go's `(g *GrafanaProxy) login`. Inputs: `grafanaCookie` before the call,
the error of `http.NewRequest` (`none` for `nil`), and the outcome of
`g.httpAPIclient.Do(req)`. The deferred trace call closes the log. -/
def login (grafanaCookie : String) (newRequestErr : Option String)
    (http : Except String Response) : LoginOut :=
  let start := [LogEntry.trace "Grafana login() start"]
  let stop := [LogEntry.trace "Grafana login() end"]
  match newRequestErr with
  | some e => ⟨some ⟨"error creating the HTTP request", some e⟩, grafanaCookie, [], start ++ stop⟩
  | none =>
    match http with
    | Except.error e =>
      ⟨some ⟨"error while sending the login request", some e⟩, grafanaCookie, [], start ++ stop⟩
    | Except.ok response =>
      if response.StatusCode ≥ 400 then
        ⟨some ⟨"error while sending the login request. HTTP status: " ++ toString response.StatusCode, none⟩,
          grafanaCookie, [], start ++ stop⟩
      else
        match response.SetCookie with
        | [] => ⟨none, grafanaCookie, [], start ++ stop⟩
        | headerCookie :: others =>
          let m := cookieRegexp.FindStringSubmatch headerCookie
          if m.length < 3 then
            ⟨some ⟨"unexpected match length for login cookie. response.Header[\"Set-Cookie\"]=["
                ++ " ".intercalate (headerCookie :: others) ++ "]", none⟩,
              grafanaCookie, [], start ++ stop⟩
          else
            let (maxage, lg) : Int × List LogEntry :=
              match Atoi (m.getD 2 "") with
              | none =>
                (5, [LogEntry.warn "Grafana: Unexpected maxage value in the cookie response header. Defaulting to 5s."])
              | some v =>
                if v < 5 then
                  (5, [LogEntry.warn "Grafana: Unexpected maxage value in the cookie response header. Defaulting to 5s."])
                else (v, [])
            ⟨none, m.getD 1 "", [wrapInt64 (maxage * timeSecond)],
              start ++ lg
                ++ [LogEntry.debug ("Grafana: Successfully logged in. Cookie valid for "
                      ++ toString maxage ++ " seconds")]
                ++ stop⟩

/-! ## datasource/aws.go -/

/-- What the code reads of a `cloudwatch.MetricDataResult`: the value series
(values of a type `V` standing for `float64`) and the timestamps, in
nanoseconds since the epoch. -/
structure MetricDataResult (V : Type) where
  Values : List V
  Timestamps : List Int

/-- The `cloudwatch.GetMetricDataInput` built by `GrabAWSmetric`; times in
nanoseconds since the epoch, `Period` in seconds. -/
structure GetMetricDataInput where
  StartTime : Int
  EndTime : Int
  Id : String
  MetricName : String
  Namespace : String
  DimensionName : String
  DimensionValue : String
  Period : Int
  Stat : String
deriving DecidableEq, Repr

/-- What a call of `GrabAWSmetric` did: the request it sent, the Results it
offered to `ResultChan`, the channel afterwards, its log calls. -/
structure AwsOut where
  request : GetMetricDataInput
  offered : List Result
  chan : List Result
  log : List LogEntry
deriving DecidableEq, Repr

/-- Go's `(a *AWSProxy) GrabAWSmetric`. Inputs besides the six string
arguments: the `%.2f` rendering `fmt2f` of a value, the clock reading `now`
(nanoseconds), the outcome `resp` of `GetMetricData` (an error, or the list
`out.MetricDataResults`, empty when nil), and the channel. The result is
`none` when the code panics on `Timestamps[0]` of an empty timestamp list. -/
def GrabAWSmetric {V : Type} (fmt2f : V → String) (now : Int)
    (resp : Except String (List (MetricDataResult V)))
    (resultMetricName awsMetricName metricNamespace dimensionName dimensionValue stat : String)
    (ch : List Result) : Option AwsOut :=
  let queryTimestamp := now
  let startTime := queryTimestamp + (-61) * timeSecond
  let endTime := queryTimestamp
  let request : GetMetricDataInput :=
    ⟨startTime, endTime, "queryid", awsMetricName, metricNamespace, dimensionName, dimensionValue, 60, stat⟩
  match resp with
  | Except.error getErr =>
    some ⟨request, [], ch, [LogEntry.error ("Error while retrieving metric(s):\n" ++ getErr ++ "\n")]⟩
  | Except.ok [] =>
    some ⟨request, [], ch,
      [LogEntry.warn ("No data results retrieved from AWS for " ++ metricNamespace ++ " / " ++ awsMetricName
        ++ " • " ++ dimensionName ++ "=" ++ dimensionValue ++ ": " ++ stat)]⟩
  | Except.ok (metricDataResult :: _) =>
    match metricDataResult.Values with
    | v0 :: _ =>
      let val := fmt2f v0
      match metricDataResult.Timestamps with
      | [] => none
      | t0 :: _ =>
        let metricTimestamp := unixSeconds t0
        let r : Result := ⟨metricTimestamp, resultMetricName, val, ""⟩
        let (ch1, _, lg) := trySend ch r
        some ⟨request, [r], ch1, lg⟩
    | [] =>
      if awsMetricName ≠ "DiskReadBytes" ∧ awsMetricName ≠ "DiskWriteBytes"
          ∧ awsMetricName ≠ "EBSReadBytes" ∧ awsMetricName ≠ "EBSkWriteBytes" then
        some ⟨request, [], ch,
          [LogEntry.warn ("No data values retrieved from AWS for " ++ metricNamespace ++ " / " ++ awsMetricName
            ++ " • " ++ dimensionName ++ "=" ++ dimensionValue ++ ": " ++ stat)]⟩
      else some ⟨request, [], ch, []⟩

/-! ### Infrastructure discovery (`findSandboxIRONdbAutoscalingGroups`) -/

/-- Go's `strings.Contains(s, substr)`. -/
def stringsContains (s substr : String) : Bool := decide (substr.data <:+: s.data)

/-- What the code reads of an `autoscaling.Group`: its name and the
`InstanceId` of each of its instances, in listing order. -/
structure AutoScalingGroup where
  AutoScalingGroupName : String
  Instances : List String
deriving DecidableEq, Repr

/-- What the code reads of a `DescribeAutoScalingGroupsOutput`. -/
structure DescribeAutoScalingGroupsOutput where
  AutoScalingGroups : List AutoScalingGroup
  NextToken : Option String
deriving DecidableEq, Repr

/-- An error of `DescribeAutoScalingGroups`: `Code` is `aerr.Code()` when the
error is an `awserr.Error` and `none` otherwise, `Text` is the error's text, and
`CodeFuncText` is what `%s` prints for the method value `aerr.Code`, which the
default branch passes to `fmt.Sprintf` without calling it. -/
structure ProviderError where
  Code : Option String
  Text : String
  CodeFuncText : String
deriving DecidableEq, Repr

/-- The initialization error discovery returns for a provider error. -/
def discoveryError (e : ProviderError) : InitializationError :=
  match e.Code with
  | some code =>
    if code = "InvalidNextToken" then
      ⟨"usage error while looking up IRONdb autoscaling groups: InvalidNextToken", some e.Text⟩
    else if code = "ResourceContention" then
      ⟨"usage error while looking up IRONdb autoscaling groups: ResourceContention", some e.Text⟩
    else ⟨"error while looking up IRONdb autoscaling groups: " ++ e.CodeFuncText, some e.Text⟩
  | none => ⟨"unknown error while looking up IRONdb autoscaling groups", some e.Text⟩

/-- Loop variables of discovery: the two slices of the proxy,
`foundAsgCount`, and the log so far. -/
structure DiscoverState where
  AsgNames : List String
  InstanceIDs : List String
  foundAsgCount : Nat
  log : List LogEntry
deriving DecidableEq, Repr

/-- How a call ended: it returned (with an error or `nil`), or it panicked on
an index out of range. -/
inductive Outcome where
  | returned (err : Option InitializationError)
  | panicked
deriving DecidableEq, Repr

/-- What a call of discovery did: the two slices afterwards, the `NextToken`
of each page request it issued (in order), its log calls, and how it ended. -/
structure DiscoverOut where
  AsgNames : List String
  InstanceIDs : List String
  requests : List (Option String)
  log : List LogEntry
  outcome : Outcome
deriving DecidableEq, Repr

/-- The loop `for index, inst := range (*group).Instances`, from `index` on,
for expected instance count `I`; `none` is an index-out-of-range panic. -/
def recordInstances (I foundAsgCount : Nat) (groupName : String) :
    List String → Nat → List String → List LogEntry → Option (List String × List LogEntry)
  | [], _, ids, lg => some (ids, lg)
  | inst :: rest, index, ids, lg =>
    if index < I then
      let instanceNb := foundAsgCount * I + index
      if instanceNb < ids.length then
        recordInstances I foundAsgCount groupName rest (index + 1) (ids.set instanceNb inst) lg
      else none
    else
      recordInstances I foundAsgCount groupName rest (index + 1) ids
        (lg ++ [LogEntry.error ("found too many instances in ASG " ++ groupName ++ "*\n")])

/-- The loop `for _, group := range result.AutoScalingGroups` for expected
group count `A`. The flag tells that the loop left through the `break` that
follows `result.NextToken = nil`; `none` is an index-out-of-range panic. -/
def processGroups (sandboxASGPrefix : String) (A I : Nat) :
    List AutoScalingGroup → DiscoverState → Option (DiscoverState × Bool)
  | [], st => some (st, false)
  | group :: rest, st =>
    if stringsContains group.AutoScalingGroupName sandboxASGPrefix = true then
      if st.foundAsgCount < st.AsgNames.length then
        match recordInstances I st.foundAsgCount group.AutoScalingGroupName group.Instances 0
            st.InstanceIDs st.log with
        | none => none
        | some (ids, lg) =>
          if st.foundAsgCount + 1 ≥ A then
            some (⟨st.AsgNames.set st.foundAsgCount group.AutoScalingGroupName, ids,
              st.foundAsgCount + 1, lg⟩, true)
          else
            processGroups sandboxASGPrefix A I rest
              ⟨st.AsgNames.set st.foundAsgCount group.AutoScalingGroupName, ids,
                st.foundAsgCount + 1, lg⟩
      else none
    else processGroups sandboxASGPrefix A I rest st

/-- Go's `%s` rendering of a `[]string`. -/
def fmtStrings (l : List String) : String := "[" ++ " ".intercalate l ++ "]"

/-- The statements after the page loop, and the deferred trace call. -/
def discoverEnd (st : DiscoverState) (requests : List (Option String)) : DiscoverOut :=
  ⟨st.AsgNames, st.InstanceIDs, requests,
    st.log
      ++ [LogEntry.debug ("asgNames: " ++ fmtStrings st.AsgNames ++ "\n"),
          LogEntry.debug ("instanceIDs: " ++ fmtStrings st.InstanceIDs ++ "\n")]
      ++ (if st.AsgNames.length = 0 then [LogEntry.warn "No ASG found for the sandbox"] else [])
      ++ (if st.InstanceIDs.length = 0 then [LogEntry.warn "No instances found for the sandbox"]
          else [])
      ++ [LogEntry.trace "AWS findSandboxIRONdbAutoscalingGroups() end"],
    Outcome.returned none⟩

/-- The loop `for page := 0; page < 50; page++`, with `fuel = 50 - page`
iterations left. `provider page nextToken` is the provider's answer to the
request number `page`, sent with `NextToken: nextToken`. When a write panics,
the log kept is the one of the pages completed before; the log calls of the
interrupted page and the deferred trace are left out. -/
def discoverPages (sandboxASGPrefix : String) (A I : Nat)
    (provider : Nat → Option String → Except ProviderError DescribeAutoScalingGroupsOutput) :
    Nat → Nat → Option String → DiscoverState → List (Option String) → DiscoverOut
  | 0, _, _, st, requests => discoverEnd st requests
  | fuel + 1, page, nextToken, st, requests =>
    match provider page nextToken with
    | Except.error e =>
      ⟨st.AsgNames, st.InstanceIDs, requests ++ [nextToken],
        st.log ++ [LogEntry.trace "AWS findSandboxIRONdbAutoscalingGroups() end"],
        Outcome.returned (some (discoveryError e))⟩
    | Except.ok result =>
      match processGroups sandboxASGPrefix A I result.AutoScalingGroups st with
      | none =>
        ⟨st.AsgNames, st.InstanceIDs, requests ++ [nextToken], st.log, Outcome.panicked⟩
      | some (st', reached) =>
        match (if reached = true then none else result.NextToken) with
        | none => discoverEnd st' (requests ++ [nextToken])
        | some tok =>
          discoverPages sandboxASGPrefix A I provider fuel (page + 1) (some tok) st'
            (requests ++ [nextToken])

/-- Go's `findSandboxIRONdbAutoscalingGroups`, on the slices allocated by
`InitAWSProxy` (`make([]string, A)` and `make([]string, A*I)`), for
`A = config.AWSExpectedASGs` and `I = config.AWSExpectedInstanceCountPerASG`.
Both are natural numbers here: with a negative length `make` panics before
discovery is called, and a negative `I` (possible only with `A = 0`) makes the
test `index < I` fail for every instance, as `I = 0` does. -/
def findSandboxIRONdbAutoscalingGroups (SandboxID TSDBSystem : String) (A I : Nat)
    (provider : Nat → Option String → Except ProviderError DescribeAutoScalingGroupsOutput) :
    DiscoverOut :=
  discoverPages (SandboxID ++ "_" ++ TSDBSystem ++ "-nodes") A I provider 50 0 none
    ⟨List.replicate A "", List.replicate (A * I) "", 0,
      [LogEntry.trace "AWS findSandboxIRONdbAutoscalingGroups() start"]⟩ []

/-! ## Vocabulary of the properties -/

/-- A value the consumer treats as "no data". -/
def isNoData (v : String) : Bool := v = "nan" || v = "null" || v = ""

/-- The datapoint forwarded for a Result: same timestamp, name and value, the
datatype defaulting to `"n"`. -/
def datapointOf (r : Result) : PushCall :=
  ⟨r.Timestamp, r.Name, r.Value, if r.Datatype = "" then "n" else r.Datatype⟩

/-- What a successful match lets an atom consume: a literal its character, a
star only characters of its class. -/
def chunkOk (a : Atom) (chunk : List Char) : Prop :=
  match a with
  | Atom.lit c => chunk = [c]
  | Atom.star cls => ∀ x ∈ chunk, cls x = true

/-- A decimal number written as text: an optional sign, one or more digits,
and optionally a point followed by one or more digits. -/
def isDecimalNumber (s : String) : Bool :=
  let unsigned :=
    match s.data with
    | '-' :: t => t
    | '+' :: t => t
    | t => t
  let intPart := unsigned.takeWhile isDigit09
  let rest := unsigned.dropWhile isDigit09
  !intPart.isEmpty &&
    (match rest with
     | [] => true
     | '.' :: frac => !frac.isEmpty && frac.all isDigit09
     | _ => false)

/-- The number a string of decimal digits denotes. -/
def decimalValue (ds : List Char) : Nat :=
  ds.foldl (fun acc c => 10 * acc + (c.toNat - 48)) 0

/-- Go's `datasource.MetricQuery`. -/
structure MetricQuery where
  AwsName : String
  ReportingName : String
  Stat : String
deriving DecidableEq, Repr

/-- Go's `datasource.DimensionQuery`. -/
structure DimensionQuery where
  AwsName : String
  ReportingName : String
  DimensionValues : List String
deriving DecidableEq, Repr

/-- The arguments of one `go datasource.AWSProxyInstance.GrabAWSmetric(...)`. -/
structure CloudMetricTask where
  resultMetricName : String
  awsMetricName : String
  metricNamespace : String
  dimensionName : String
  dimensionValue : String
  stat : String
deriving DecidableEq, Repr

/-- The query text handed to a probe, named by the package variable that holds
it: the constructor name with `Query` replaced by `caqlQuery`, `influxdbQuery`
or `timescaleQuery`. -/
inductive ProbeQuery where
  | QueryMetricCount
  | Query1Timeserie
  | Query100Timeseries
  | Query400Timeseries
  | Query100TimeseriesP99
  | Query400TimeseriesP99
  | Query100TimeseriesMean
  | Query400TimeseriesMean
deriving DecidableEq, Repr

/-- The statements of one iteration of a scheduler loop that act on the
outside: launching a goroutine for an executor, or `time.Sleep` (nanoseconds). -/
inductive Action where
  | goGrabAWSmetric (task : CloudMetricTask)
  | sleep (nanos : Int)
  | goSimpleCaqlQuery (queryMetricName : String) (caqlQuery : ProbeQuery) (queryRange : Int)
  | goSimpleInfluxDBQuery (queryMetricName : String) (queryString : ProbeQuery)
      (queryRange : String)
  | goTimescaleDBQuery (queryMetricName : String) (query : ProbeQuery) (queryRange : Int)
deriving DecidableEq, Repr

/-- The slice `metricQueries` built at the top of each iteration, the same in
the three schedulers. -/
def metricQueries : List MetricQuery :=
  [⟨"CPUUtilization", "cpu.utilization.avg", "Average"⟩,
   ⟨"NetworkIn", "network.in.bytes", "Sum"⟩,
   ⟨"NetworkOut", "network.out.bytes", "Sum"⟩,
   ⟨"DiskReadBytes", "disk.read.bytes", "Sum"⟩,
   ⟨"DiskWriteBytes", "disk.write.bytes", "Sum"⟩,
   ⟨"EBSReadBytes", "ebs.read.bytes", "Sum"⟩,
   ⟨"EBSWriteBytes", "ebs.write.bytes", "Sum"⟩]

/-- The slice `dimensionQueries`, the same in the three schedulers, over the
slices `AsgNames` and `InstanceIDs` of `AWSProxyInstance`. -/
def dimensionQueries (AsgNames InstanceIDs : List String) : List DimensionQuery :=
  [⟨"AutoScalingGroupName", "infra.tsdb-asg-", AsgNames⟩,
   ⟨"InstanceId", "infra.tsdb-node-", InstanceIDs⟩]

/-- The three nested `for … range` loops, textually the same in the three
schedulers: the `GrabAWSmetric` goroutines launched, in launch order. -/
def cloudMetricLaunches (SandboxID : String) (AsgNames InstanceIDs : List String) :
    List CloudMetricTask :=
  metricQueries.flatMap fun metricQuery =>
    (dimensionQueries AsgNames InstanceIDs).enum.flatMap fun (dimensionIndex, dimensionQuery) =>
      dimensionQuery.DimensionValues.flatMap fun dimensionValue =>
        let dimensionReportingNameFormatted :=
          dimensionQuery.ReportingName ++ toString (dimensionIndex + 1)
        let metricFullname :=
          SandboxID ++ "." ++ dimensionReportingNameFormatted ++ "." ++ metricQuery.ReportingName
        if dimensionValue ≠ "" then
          [⟨metricFullname, metricQuery.AwsName, "AWS/EC2", dimensionQuery.AwsName, dimensionValue,
            metricQuery.Stat⟩]
        else []

/-- The statements of `EvaluateIRONdb` that follow the nested loops, up to the
wait on the ticker. -/
def EvaluateIRONdbProbes : List Action :=
  [Action.sleep (2 * timeSecond),
   Action.goSimpleCaqlQuery "metrics-count" ProbeQuery.QueryMetricCount 300,
   Action.sleep (2 * timeSecond),
   Action.goSimpleCaqlQuery "1-ts-24-hour-range" ProbeQuery.Query1Timeserie (60 * 60 * 24),
   Action.sleep (2 * timeSecond),
   Action.goSimpleCaqlQuery "1-ts-1-week-range" ProbeQuery.Query1Timeserie (60 * 60 * 24 * 7),
   Action.sleep (2 * timeSecond),
   Action.goSimpleCaqlQuery "100-ts-1-week-range" ProbeQuery.Query100Timeseries (60 * 60 * 24 * 7),
   Action.sleep (2 * timeSecond),
   Action.goSimpleCaqlQuery "400-ts-1-week-range" ProbeQuery.Query400Timeseries (60 * 60 * 24 * 7),
   Action.sleep (2 * timeSecond),
   Action.goSimpleCaqlQuery "100-ts-6-hour-range" ProbeQuery.Query100Timeseries (60 * 60 * 6),
   Action.sleep (2 * timeSecond),
   Action.goSimpleCaqlQuery "400-ts-6-hour-range" ProbeQuery.Query400Timeseries (60 * 60 * 6),
   Action.sleep (2 * timeSecond),
   Action.goSimpleCaqlQuery "100-ts-p99-1-week-range" ProbeQuery.Query100TimeseriesP99 (60 * 60 * 24 * 7),
   Action.sleep (2 * timeSecond),
   Action.goSimpleCaqlQuery "400-ts-p99-1-week-range" ProbeQuery.Query400TimeseriesP99 (60 * 60 * 24 * 7),
   Action.sleep (2 * timeSecond),
   Action.goSimpleCaqlQuery "100-ts-mean-1-week-range" ProbeQuery.Query100TimeseriesMean
     (60 * 60 * 24 * 7),
   Action.sleep (2 * timeSecond),
   Action.goSimpleCaqlQuery "400-ts-mean-1-week-range" ProbeQuery.Query400TimeseriesMean
     (60 * 60 * 24 * 7)]

/-- The statements of `EvaluateInfluxDB` that follow the nested loops, up to
the wait on the ticker. -/
def EvaluateInfluxDBProbes : List Action :=
  [Action.sleep (2 * timeSecond),
   Action.goSimpleInfluxDBQuery "metrics-count" ProbeQuery.QueryMetricCount "5m",
   Action.sleep (2 * timeSecond),
   Action.goSimpleInfluxDBQuery "1-ts-24-hour-range" ProbeQuery.Query1Timeserie "24h",
   Action.sleep (2 * timeSecond),
   Action.goSimpleInfluxDBQuery "1-ts-1-week-range" ProbeQuery.Query1Timeserie "7d",
   Action.sleep (2 * timeSecond),
   Action.goSimpleInfluxDBQuery "100-ts-1-week-range" ProbeQuery.Query100Timeseries "7d",
   Action.sleep (2 * timeSecond),
   Action.goSimpleInfluxDBQuery "400-ts-1-week-range" ProbeQuery.Query400Timeseries "7d",
   Action.sleep (2 * timeSecond),
   Action.goSimpleInfluxDBQuery "100-ts-6-hour-range" ProbeQuery.Query100Timeseries "6h",
   Action.sleep (2 * timeSecond),
   Action.goSimpleInfluxDBQuery "400-ts-6-hour-range" ProbeQuery.Query400Timeseries "6h",
   Action.sleep (2 * timeSecond),
   Action.goSimpleInfluxDBQuery "100-ts-p99-1-week-range" ProbeQuery.Query100TimeseriesP99 "7d",
   Action.sleep (2 * timeSecond),
   Action.goSimpleInfluxDBQuery "400-ts-p99-1-week-range" ProbeQuery.Query400TimeseriesP99 "7d",
   Action.sleep (2 * timeSecond),
   Action.goSimpleInfluxDBQuery "100-ts-mean-1-week-range" ProbeQuery.Query100TimeseriesMean "7d",
   Action.sleep (2 * timeSecond),
   Action.goSimpleInfluxDBQuery "400-ts-mean-1-week-range" ProbeQuery.Query400TimeseriesMean "7d"]

/-- The statements of `EvaluateTimescaleDB` that follow the nested loops, up to
the wait on the ticker. -/
def EvaluateTimescaleDBProbes : List Action :=
  [Action.sleep (2 * timeSecond),
   Action.goTimescaleDBQuery "metrics-count" ProbeQuery.QueryMetricCount 300,
   Action.sleep (2 * timeSecond),
   Action.goTimescaleDBQuery "1-ts-24-hour-range" ProbeQuery.Query1Timeserie (60 * 60 * 24),
   Action.sleep (2 * timeSecond),
   Action.goTimescaleDBQuery "1-ts-1-week-range" ProbeQuery.Query1Timeserie (60 * 60 * 24 * 7),
   Action.sleep (2 * timeSecond),
   Action.goTimescaleDBQuery "100-ts-1-week-range" ProbeQuery.Query100Timeseries (60 * 60 * 24 * 7),
   Action.sleep (2 * timeSecond),
   Action.goTimescaleDBQuery "400-ts-1-week-range" ProbeQuery.Query400Timeseries (60 * 60 * 24 * 7),
   Action.sleep (2 * timeSecond),
   Action.goTimescaleDBQuery "100-ts-6-hour-range" ProbeQuery.Query100Timeseries (60 * 60 * 6),
   Action.sleep (2 * timeSecond),
   Action.goTimescaleDBQuery "400-ts-6-hour-range" ProbeQuery.Query400Timeseries (60 * 60 * 6),
   Action.sleep (2 * timeSecond),
   Action.goTimescaleDBQuery "100-ts-p99-1-week-range" ProbeQuery.Query100TimeseriesP99 (60 * 60 * 24 * 7),
   Action.sleep (2 * timeSecond),
   Action.goTimescaleDBQuery "400-ts-p99-1-week-range" ProbeQuery.Query400TimeseriesP99 (60 * 60 * 24 * 7),
   Action.sleep (2 * timeSecond),
   Action.goTimescaleDBQuery "100-ts-mean-1-week-range" ProbeQuery.Query100TimeseriesMean
     (60 * 60 * 24 * 7),
   Action.sleep (2 * timeSecond),
   Action.goTimescaleDBQuery "400-ts-mean-1-week-range" ProbeQuery.Query400TimeseriesMean
     (60 * 60 * 24 * 7)]

/-- One iteration of the loop of `EvaluateIRONdb`, from the top of the loop
body to the wait on the ticker. -/
def EvaluateIRONdb (SandboxID : String) (AsgNames InstanceIDs : List String) : List Action :=
  (cloudMetricLaunches SandboxID AsgNames InstanceIDs).map Action.goGrabAWSmetric
    ++ EvaluateIRONdbProbes

/-- One iteration of the loop of `EvaluateInfluxDB`. -/
def EvaluateInfluxDB (SandboxID : String) (AsgNames InstanceIDs : List String) : List Action :=
  (cloudMetricLaunches SandboxID AsgNames InstanceIDs).map Action.goGrabAWSmetric
    ++ EvaluateInfluxDBProbes

/-- One iteration of the loop of `EvaluateTimescaleDB`. -/
def EvaluateTimescaleDB (SandboxID : String) (AsgNames InstanceIDs : List String) : List Action :=
  (cloudMetricLaunches SandboxID AsgNames InstanceIDs).map Action.goGrabAWSmetric
    ++ EvaluateTimescaleDBProbes

/-! ### `dataout/circonus.go` -/

/-- The package variable `queryMetrics`. -/
def queryMetrics : List String :=
  ["metrics-count",
   "1-ts-24-hour-range",
   "1-ts-1-week-range",
   "100-ts-1-week-range",
   "400-ts-1-week-range",
   "100-ts-6-hour-range",
   "400-ts-6-hour-range",
   "100-ts-p99-1-week-range",
   "400-ts-p99-1-week-range",
   "100-ts-mean-1-week-range",
   "400-ts-mean-1-week-range"]

/-- The `GrabAWSmetric` goroutines among the actions of an iteration, in
launch order. -/
def launchedCloudTasks (actions : List Action) : List CloudMetricTask :=
  actions.filterMap fun a =>
    match a with
    | Action.goGrabAWSmetric task => some task
    | _ => none

/-- The seven catalog metrics with their statistic. -/
def catalogMetrics : List (String × String) :=
  [("CPUUtilization", "Average"), ("NetworkIn", "Sum"), ("NetworkOut", "Sum"),
   ("DiskReadBytes", "Sum"), ("DiskWriteBytes", "Sum"), ("EBSReadBytes", "Sum"),
   ("EBSWriteBytes", "Sum")]

/-- What identifies a cloud-metric task: metric, statistic, namespace,
dimension name and dimension value. -/
def CloudMetricTask.key (t : CloudMetricTask) : String × String × String × String × String :=
  (t.awsMetricName, t.stat, t.metricNamespace, t.dimensionName, t.dimensionValue)

/-- The cross product of the catalog metrics with the non-empty group names
(dimension `AutoScalingGroupName`) and the non-empty instance IDs (dimension
`InstanceId`). -/
def catalogCrossProduct (AsgNames InstanceIDs : List String) :
    List (String × String × String × String × String) :=
  catalogMetrics.flatMap fun ms =>
    (AsgNames.filter (fun v => v ≠ "")).map
        (fun v => (ms.1, ms.2, "AWS/EC2", "AutoScalingGroupName", v))
      ++ (InstanceIDs.filter (fun v => v ≠ "")).map
        (fun v => (ms.1, ms.2, "AWS/EC2", "InstanceId", v))

/-- The names of the probe goroutines among the actions of an iteration, in
launch order. -/
def probeNames (actions : List Action) : List String :=
  actions.filterMap fun a =>
    match a with
    | Action.goSimpleCaqlQuery n _ _ => some n
    | Action.goSimpleInfluxDBQuery n _ _ => some n
    | Action.goTimescaleDBQuery n _ _ => some n
    | _ => none

/-- The lookback in seconds of each CAQL probe launched, in launch order. -/
def caqlLookbacks (actions : List Action) : List Int :=
  actions.filterMap fun a =>
    match a with
    | Action.goSimpleCaqlQuery _ _ r => some r
    | _ => none

/-- The lookback string of each InfluxDB probe launched, in launch order. -/
def influxLookbacks (actions : List Action) : List String :=
  actions.filterMap fun a =>
    match a with
    | Action.goSimpleInfluxDBQuery _ _ r => some r
    | _ => none

/-- Whether an action launches a probe. -/
def isProbeLaunch : Action → Bool
  | Action.goSimpleCaqlQuery _ _ _ => true
  | Action.goSimpleInfluxDBQuery _ _ _ => true
  | Action.goTimescaleDBQuery _ _ _ => true
  | _ => false

/-- Whether every probe launch in `actions` comes right after a pause of 2
seconds, `prev` being the action before the first one. -/
def eachProbeAfterPause : Option Action → List Action → Bool
  | _, [] => true
  | prev, a :: rest =>
    (if isProbeLaunch a = true then decide (prev = some (Action.sleep (2 * timeSecond))) else true)
      && eachProbeAfterPause (some a) rest

/-- The seconds an InfluxDB duration literal denotes: a number followed by one
of the units `s`, `m`, `h`, `d`, `w`. -/
def influxDurationSeconds (s : String) : Option Int :=
  let ds := s.data.takeWhile isDigit09
  let n : Int := (decimalValue ds : Nat)
  if ds = [] then none
  else
    match s.data.dropWhile isDigit09 with
    | ['s'] => some n
    | ['m'] => some (n * 60)
    | ['h'] => some (n * 60 * 60)
    | ['d'] => some (n * 60 * 60 * 24)
    | ['w'] => some (n * 60 * 60 * 24 * 7)
    | _ => none

/-- The HTTP request `PushDatapoint` hands to `c.httpAPIclient.Do`. -/
structure PushRequest where
  Method : String
  URL : String
  Header : List (String × String)
  Body : String
deriving DecidableEq, Repr

/-- Go's `(c *CirconusProxy) PushDatapoint`. Inputs besides the four arguments:
`c.httpAPIURL`, `config.CirconusAPIToken`, whether `http.NewRequest` returned a
request (its error is discarded, and without a request `req.Header.Add` panics
on the nil pointer: the result is then `none`), and the error of
`c.httpAPIclient.Do(req)` (`none` for `nil`). The result is the request sent
and the log calls. `timestamp*1000` is an `int64` product. -/
def PushDatapoint (httpAPIURL CirconusAPIToken : String) (newRequestOk : Bool)
    (doErr : Option String) (timestamp : Int) (name value datatype : String) :
    Option (PushRequest × List LogEntry) :=
  let payload := "\x7b\"_ts\": " ++ toString (wrapInt64 (timestamp * 1000)) ++ ", \"" ++ name
    ++ "\": \"" ++ value ++ "\", \"_type\": \"" ++ datatype ++ "\"\x7d"
  if newRequestOk = true then
    let req : PushRequest :=
      ⟨"POST", httpAPIURL,
        [("X-Circonus-Auth-Token", CirconusAPIToken), ("X-Circonus-App-Name", "tems")], payload⟩
    match doErr with
    | some err =>
      some (req, [LogEntry.error ("error while sending the HTTP POST request:\n\t" ++ err
        ++ "\n\tFor request payload " ++ payload ++ "\n")])
    | none => some (req, [])
  else none

/-! ### `config/config.go` and `parseCLIFlag` of `tems.go` -/

/-- The package variables of `config`. -/
structure Config where
  SandboxID : String
  TSDBSystem : String
  CirconusAPIToken : String
  GrafanaURL : String
  GrafanaUser : String
  GrafanaPassword : String
  AWSProfile : String
  AWSRegion : String
  AWSExpectedASGs : Int
  AWSExpectedInstanceCountPerASG : Int
  CAQLUseTags : Bool
  InfluxDBDatabaseName : String
  InfluxDBEpoch : String
  LogLevel : String
deriving DecidableEq, Repr

/-- The initial values of the package variables. -/
def Config.initial : Config :=
  { SandboxID := "", TSDBSystem := "irondb", CirconusAPIToken := "", GrafanaURL := "",
    GrafanaUser := "admin", GrafanaPassword := "", AWSProfile := "", AWSRegion := "us-east-1",
    AWSExpectedASGs := 2, AWSExpectedInstanceCountPerASG := 3, CAQLUseTags := false,
    InfluxDBDatabaseName := "mydb", InfluxDBEpoch := "ms", LogLevel := "" }

/-- Go's `strconv.ParseBool`; `none` is a parse error. -/
def ParseBool (s : String) : Option Bool :=
  if s = "1" ∨ s = "t" ∨ s = "T" ∨ s = "TRUE" ∨ s = "true" ∨ s = "True" then some true
  else if s = "0" ∨ s = "f" ∨ s = "F" ∨ s = "FALSE" ∨ s = "false" ∨ s = "False" then some false
  else none

/-- Go's `InitConfigFromEnvVars`, for the environment `getenv` (`os.Getenv`,
the empty string for an unset variable), on the package variables `c`. The
cause of a returned error is kept as the name of the parsing function. -/
def InitConfigFromEnvVars (getenv : String → String) (c : Config) :
    Except InitializationError Config :=
  let c := if getenv "SANDBOX_ID" ≠ "" then { c with SandboxID := getenv "SANDBOX_ID" } else c
  let c := if getenv "TSDB_SYSTEM" ≠ "" then { c with TSDBSystem := getenv "TSDB_SYSTEM" } else c
  let c := if getenv "CIRCONUS_API_TOKEN" ≠ "" then
    { c with CirconusAPIToken := getenv "CIRCONUS_API_TOKEN" } else c
  let c := if getenv "GRAFANA_URL" ≠ "" then { c with GrafanaURL := getenv "GRAFANA_URL" } else c
  let c := if getenv "GRAFANA_USER" ≠ "" then { c with GrafanaUser := getenv "GRAFANA_USER" } else c
  let c := if getenv "GRAFANA_PASSWORD" ≠ "" then
    { c with GrafanaPassword := getenv "GRAFANA_PASSWORD" } else c
  let c := if getenv "AWS_PROFILE" ≠ "" then { c with AWSProfile := getenv "AWS_PROFILE" } else c
  let c := if getenv "AWS_REGION" ≠ "" then { c with AWSRegion := getenv "AWS_REGION" } else c
  match (if getenv "AWS_EXPECTED_ASGS" ≠ "" then
      (Atoi (getenv "AWS_EXPECTED_ASGS")).map (fun ival => { c with AWSExpectedASGs := ival })
    else some c) with
  | none =>
    Except.error ⟨"Error parsing integer value for AWS_EXPECTED_ASGS", some "strconv.Atoi"⟩
  | some c =>
    match (if getenv "AWS_EXPECTED_INSTANCE_COUNT_PER_ASG" ≠ "" then
        (Atoi (getenv "AWS_EXPECTED_INSTANCE_COUNT_PER_ASG")).map
          (fun ival => { c with AWSExpectedInstanceCountPerASG := ival })
      else some c) with
    | none =>
      Except.error ⟨"Error parsing integer value for AWS_EXPECTED_INSTANCE_COUNT_PER_ASG",
        some "strconv.Atoi"⟩
    | some c =>
      match (if getenv "CAQL_USE_TAGS" ≠ "" then
          (ParseBool (getenv "CAQL_USE_TAGS")).map (fun bval => { c with CAQLUseTags := bval })
        else some c) with
      | none =>
        Except.error ⟨"Error parsing boolean value for CAQL_USE_TAGS", some "strconv.ParseBool"⟩
      | some c =>
        let c := if getenv "LOG_LEVEL" ≠ "" then { c with LogLevel := getenv "LOG_LEVEL" } else c
        Except.ok c

/-- Go's `ValidateConfig` on the package variables `c`; `parseLevelErr` is the
error of `logrus.ParseLevel(LogLevel)` (`none` for `nil`). The result is the
returned error, `none` for `nil`. -/
def ValidateConfig (c : Config) (parseLevelErr : Option String) : Option InitializationError :=
  if c.SandboxID = "" then
    some ⟨"The variable sandboxID must be provided through the CLI arguments or environment variable",
      none⟩
  else if c.GrafanaURL = "" then
    some ⟨"The variable grafanaURL must be provided through the CLI arguments or environment variable",
      none⟩
  else if c.GrafanaPassword = "" then
    some ⟨"The variable grafanaPassword must be provided through the CLI arguments or environment variable",
      none⟩
  else if c.CirconusAPIToken = "" then
    some ⟨"The variable circonusAPIToken must be provided through the CLI arguments or environment variable",
      none⟩
  else if c.TSDBSystem ≠ "irondb" ∧ c.TSDBSystem ≠ "influxdb" then
    some ⟨"The value of tsdbSystem is invalid", none⟩
  else
    match parseLevelErr with
    | some err => some ⟨"Error parsing log level value for LOG_LEVEL", some err⟩
    | none => none

/-- The command line as `flag.Parse` reads it: for each flag the value given,
`none` when the flag is absent. -/
structure CLIFlags where
  sandboxID : Option String
  tsdbSystem : Option String
  circonusAPIToken : Option String
  grafanaURL : Option String
  grafanaUser : Option String
  grafanaPassword : Option String
  awsProfile : Option String
  awsRegion : Option String
  awsExpectedASGs : Option Int
  awsExpectedInstanceCountPerASG : Option Int
  irondbCaqlUseTags : Option Bool
  logLevel : Option String
deriving DecidableEq, Repr

/-- A command line without flags. -/
def CLIFlags.none : CLIFlags :=
  ⟨Option.none, Option.none, Option.none, Option.none, Option.none, Option.none, Option.none,
    Option.none, Option.none, Option.none, Option.none, Option.none⟩

/-- Go's `parseCLIFlag` on the package variables `c`: after `flag.Parse` each
flag variable holds the value given or the flag's default (`""`, `-1`,
`false`), and a package variable is overwritten when the flag variable differs
from that default. -/
def parseCLIFlag (flags : CLIFlags) (c : Config) : Config :=
  let sandboxID := flags.sandboxID.getD ""
  let tsdbSystem := flags.tsdbSystem.getD ""
  let circonusAPIToken := flags.circonusAPIToken.getD ""
  let grafanaURL := flags.grafanaURL.getD ""
  let grafanaUser := flags.grafanaUser.getD ""
  let grafanaPassword := flags.grafanaPassword.getD ""
  let awsProfile := flags.awsProfile.getD ""
  let awsRegion := flags.awsRegion.getD ""
  let awsExpectedASGs := flags.awsExpectedASGs.getD (-1)
  let awsExpectedInstanceCountPerASG := flags.awsExpectedInstanceCountPerASG.getD (-1)
  let caqlUseTags := flags.irondbCaqlUseTags.getD false
  let logLevel := flags.logLevel.getD ""
  let c := if sandboxID ≠ "" then { c with SandboxID := sandboxID } else c
  let c := if tsdbSystem ≠ "" then { c with TSDBSystem := tsdbSystem } else c
  let c := if circonusAPIToken ≠ "" then { c with CirconusAPIToken := circonusAPIToken } else c
  let c := if grafanaURL ≠ "" then { c with GrafanaURL := grafanaURL } else c
  let c := if grafanaUser ≠ "" then { c with GrafanaUser := grafanaUser } else c
  let c := if grafanaPassword ≠ "" then { c with GrafanaPassword := grafanaPassword } else c
  let c := if awsProfile ≠ "" then { c with AWSProfile := awsProfile } else c
  let c := if awsRegion ≠ "" then { c with AWSRegion := awsRegion } else c
  let c := if awsExpectedASGs ≠ -1 then { c with AWSExpectedASGs := awsExpectedASGs } else c
  let c := if awsExpectedInstanceCountPerASG ≠ -1 then
    { c with AWSExpectedInstanceCountPerASG := awsExpectedInstanceCountPerASG } else c
  let c := if caqlUseTags ≠ false then { c with CAQLUseTags := caqlUseTags } else c
  let c := if logLevel ≠ "" then { c with LogLevel := logLevel } else c
  c

/-! ### `createMetricsArray` of `dataout/circonus.go` -/

/-- What the code sets of a `circonusApi.CheckBundleMetric`; `MetricType` is
the Go field `Type`. -/
structure CheckBundleMetric where
  Name : String
  Status : String
  Tags : List String
  MetricType : String
  Units : Option String
deriving DecidableEq, Repr

/-- The zero value of `CheckBundleMetric`, which fills a slice made by `make`. -/
def CheckBundleMetric.zero : CheckBundleMetric := ⟨"", "", [], "", none⟩

/-- Go's `(c *CirconusProxy) createMetric`. -/
def createMetric (name : String) (tags : List String) : CheckBundleMetric :=
  { Name := name, Status := "active", Tags := tags, MetricType := "numeric",
    Units :=
      if stringsContains name "duration" = true then some "milliseconds"
      else if stringsContains name "cpu" = true then some "percent"
      else some "none" }

/-- A `float64` value. A finite value is `num / den`, with `den` a power of
two, negated when `neg` is set (the zero has a sign too). -/
inductive Float64 where
  | finite (neg : Bool) (num den : Nat)
  | inf (neg : Bool)
  | nan
deriving DecidableEq, Repr

/-- Whether the value is neither an infinity nor a NaN. -/
def Float64.isFinite : Float64 → Bool
  | Float64.finite _ _ _ => true
  | _ => false

/-- The integer nearest to `n / d`, a tie going to the even one. -/
def roundHalfEven (n d : Nat) : Nat :=
  let q := n / d
  let r := n % d
  if 2 * r < d then q else if d < 2 * r then q + 1 else if q % 2 = 0 then q else q + 1

/-- The number of binary digits of `n`, for `fuel` at least that number. -/
def bitLength : Nat → Nat → Nat
  | 0, _ => 0
  | fuel + 1, n => if n = 0 then 0 else bitLength fuel (n / 2) + 1

/-- The `k` with `2^k ≤ n / d < 2^(k+1)`, for positive `n` and `d`. -/
def floorLog2 (n d : Nat) : Int :=
  let k : Int := (bitLength n n : Int) - (bitLength d d : Int)
  if (if 0 ≤ k then d * 2 ^ k.toNat ≤ n else d ≤ n * 2 ^ (-k).toNat) then k else k - 1

/-- The value `2^1024 - 2^970`, halfway between the largest finite `float64`,
`(2^53 - 1) × 2^971`, and `2^1024`. -/
def float64Overflow : Nat := (2 ^ 54 - 1) * (2 ^ 194) ^ 5

/-- The `float64` nearest to the real `n / d` (`d > 0`) with sign `neg`, a tie
going to the even significand: 53 significant bits, a unit in the last place
of at least `2^-1074` (subnormal numbers), and an infinity from
`float64Overflow` on. -/
def roundFloat64 (neg : Bool) (n d : Nat) : Float64 :=
  if n = 0 then Float64.finite neg 0 1
  else if d * float64Overflow ≤ n then Float64.inf neg
  else
    let e : Int := max (floorLog2 n d - 52) (-1074)
    if 0 ≤ e then Float64.finite neg (roundHalfEven n (d * 2 ^ e.toNat) * 2 ^ e.toNat) 1
    else Float64.finite neg (roundHalfEven (n * 2 ^ (-e).toNat) d) (2 ^ (-e).toNat)

/-- Go's conversion `float64(x)` of an `int64`. -/
def float64OfInt64 (x : Int) : Float64 := roundFloat64 (decide (x < 0)) x.natAbs 1

/-- Go's `x / y` on `float64`. -/
def Float64.div : Float64 → Float64 → Float64
  | Float64.nan, _ => Float64.nan
  | _, Float64.nan => Float64.nan
  | Float64.inf _, Float64.inf _ => Float64.nan
  | Float64.inf s, Float64.finite t _ _ => Float64.inf (xor s t)
  | Float64.finite s _ _, Float64.inf t => Float64.finite (xor s t) 0 1
  | Float64.finite s a b, Float64.finite t c d =>
    if c = 0 then (if a = 0 then Float64.nan else Float64.inf (xor s t))
    else roundFloat64 (xor s t) (a * d) (b * c)

/-- Go's `fmt.Sprintf("%.2f", v)` for a `float64`: the exact value rounded to
two fraction digits, a tie going to the even digit, with a minus sign for a
negative value (a negative zero included). -/
def formatFloat2 : Float64 → String
  | Float64.finite neg n d =>
    let k := roundHalfEven (n * 100) d
    (if neg = true then "-" else "") ++ toString (k / 100) ++ "."
      ++ String.mk [Nat.digitChar (k / 10 % 10), Nat.digitChar (k % 10)]
  | Float64.inf false => "+Inf"
  | Float64.inf true => "-Inf"
  | Float64.nan => "NaN"

/-- The `queryDurationFloat` of the probes, `float64(d) / 1000 / 1000`, for
the `int64` difference `d` of the two `UnixNano()` readings. -/
def queryDurationFloat (d : Int) : Float64 :=
  ((float64OfInt64 (wrapInt64 d)).div (Float64.finite false 1000 1)).div
    (Float64.finite false 1000 1)

/-- The `queryDuration` text of a probe whose request succeeded:
`fmt.Sprintf("%.2f", queryDurationFloat)`. -/
def queryDuration (d : Int) : String := formatFloat2 (queryDurationFloat d)

/-! ## Properties -/

theorem trySend_length_le (ch : List Result) (r : Result) (h : ch.length ≤ resultChanCap) :
    (trySend ch r).1.length ≤ resultChanCap := by
  unfold trySend
  split
  · simp; omega
  · simpa using h

theorem step_chan_length_le (s : Pipeline) (op : Op) (h : s.chan.length ≤ resultChanCap) :
    (s.step op).chan.length ≤ resultChanCap := by
  cases op with
  | offer r => exact trySend_length_le s.chan r h
  | consume =>
    unfold Pipeline.step
    cases hc : s.chan with
    | nil => simp [hc]
    | cons a rest =>
      simp only []
      rw [hc] at h
      simp at h ⊢
      omega

theorem run_chan_length_le (ops : List Op) :
    ∀ s : Pipeline, s.chan.length ≤ resultChanCap → (s.run ops).chan.length ≤ resultChanCap := by
  induction ops with
  | nil => intro s h; simpa [Pipeline.run] using h
  | cons op ops ih =>
    intro s h
    simpa [Pipeline.run] using ih (s.step op) (step_chan_length_le s op h)

theorem step_offer_chan (s : Pipeline) (r : Result) :
    (s.step (Op.offer r)).chan = (trySend s.chan r).1 := rfl

theorem step_offer_sink (s : Pipeline) (r : Result) :
    (s.step (Op.offer r)).sink = s.sink := rfl

theorem trySend_of_lt (ch : List Result) (r : Result) (h : ch.length < resultChanCap) :
    trySend ch r = (ch ++ [r], true, []) := by
  simp [trySend, h]

theorem trySend_of_full (ch : List Result) (r : Result) (h : resultChanCap ≤ ch.length) :
    trySend ch r = (ch, false, [LogEntry.error "Channel full, discarding result"]) := by
  have h' : ¬ ch.length < resultChanCap := by omega
  simp [trySend, h']

theorem run_cons (s : Pipeline) (op : Op) (ops : List Op) :
    s.run (op :: ops) = (s.step op).run ops := rfl

theorem run_replicate_offer (r : Result) (n : Nat) :
    ∀ s : Pipeline, s.chan.length + n ≤ resultChanCap →
      (s.run (List.replicate n (Op.offer r))).chan = s.chan ++ List.replicate n r := by
  induction n with
  | zero => intro s _; simp [Pipeline.run]
  | succ n ih =>
    intro s h
    rw [List.replicate_succ, run_cons, ih]
    · rw [step_offer_chan, trySend_of_lt _ _ (by omega)]
      simp [List.replicate_succ]
    · rw [step_offer_chan, trySend_of_lt _ _ (by omega)]
      simp
      omega

/-- C1: starting from the empty queue, after any sequence of enqueue attempts
and dequeues at most 10,000 Results are pending; and an enqueue attempted
while 10,000 are pending is not taken and leaves the pending sequence exactly
as it was. -/
theorem resultChan_bounded_rejects_when_full (ops : List Op) (r : Result) :
    (Pipeline.init.run ops).chan.length ≤ 10000 ∧
    ((Pipeline.init.run ops).chan.length = 10000 →
      ((Pipeline.init.run ops).step (Op.offer r)).chan = (Pipeline.init.run ops).chan ∧
      (trySend (Pipeline.init.run ops).chan r).2.1 = false) := by
  refine ⟨run_chan_length_le ops Pipeline.init (by simp [Pipeline.init, InitResultChan]), ?_⟩
  intro h
  rw [step_offer_chan, trySend_of_full _ _ (by simp [resultChanCap, h])]
  exact ⟨rfl, rfl⟩

/-- C1, at the queue filled by 10,000 accepted sends: the 10,001st send is discarded. -/
theorem resultChan_bounded_rejects_when_full_witness :
    (Pipeline.init.run (List.replicate 10000 (Op.offer ⟨1, "a", "1", ""⟩))).chan.length = 10000 ∧
    ((Pipeline.init.run (List.replicate 10000 (Op.offer ⟨1, "a", "1", ""⟩))).step
        (Op.offer ⟨2, "b", "2", ""⟩)).chan
      = (Pipeline.init.run (List.replicate 10000 (Op.offer ⟨1, "a", "1", ""⟩))).chan :=
  have hfull : (Pipeline.init.run (List.replicate 10000 (Op.offer ⟨1, "a", "1", ""⟩))).chan.length
      = 10000 := by
    rw [run_replicate_offer _ _ _ (by simp [Pipeline.init, InitResultChan, resultChanCap])]
    simp only [Pipeline.init, InitResultChan, List.nil_append, List.length_replicate]
  ⟨hfull,
    ((resultChan_bounded_rejects_when_full
      (List.replicate 10000 (Op.offer ⟨1, "a", "1", ""⟩)) ⟨2, "b", "2", ""⟩).2 hfull).1⟩

theorem handleResult_pushes (r : Result) :
    (handleResult r).2 = if isNoData r.Value = true then [] else [datapointOf r] := by
  unfold handleResult isNoData datapointOf
  by_cases h1 : r.Value = "nan" <;> by_cases h2 : r.Value = "null" <;>
    by_cases h3 : r.Value = "" <;> simp [h1, h2, h3]

/-- C2: for a Result `r` taken from the queue by the consumer, `PushDatapoint`
is called if and only if `r.Value` is none of "nan", "null" and "", whatever
the datatype; and when it is called, the calls made are exactly one, with
timestamp, name and value of `r` and datatype "n" if `r.Datatype` is empty,
`r.Datatype` otherwise. -/
theorem handleResult_forwards_iff_data (r : Result) (rest : List Result)
    (sink : List PushCall) (log : List LogEntry) :
    (((handleResult r).2 ≠ [] ↔ (r.Value ≠ "nan" ∧ r.Value ≠ "null" ∧ r.Value ≠ "")) ∧
     ((handleResult r).2 = [] ∨
      (handleResult r).2 =
        [⟨r.Timestamp, r.Name, r.Value, if r.Datatype = "" then "n" else r.Datatype⟩])) ∧
    (Pipeline.step ⟨r :: rest, sink, log⟩ Op.consume).sink = sink ++ (handleResult r).2 ∧
    (Pipeline.step ⟨r :: rest, sink, log⟩ Op.consume).chan = rest := by
  refine ⟨?_, rfl, rfl⟩
  rw [handleResult_pushes]
  unfold isNoData datapointOf
  by_cases h1 : r.Value = "nan" <;> by_cases h2 : r.Value = "null" <;>
    by_cases h3 : r.Value = "" <;> simp [h1, h2, h3]

theorem trySend_chan_eq (ch : List Result) (r : Result) :
    (trySend ch r).1 = ch ++ (if (trySend ch r).2.1 = true then [r] else []) := by
  unfold trySend
  split <;> simp

theorem pushesOf_nil : pushesOf [] = [] := rfl

theorem pushesOf_cons (r : Result) (rs : List Result) :
    pushesOf (r :: rs) = (handleResult r).2 ++ pushesOf rs := by
  simp [pushesOf]

theorem pushesOf_eq_filter_map (rs : List Result) :
    pushesOf rs = (rs.filter (fun r => !isNoData r.Value)).map datapointOf := by
  induction rs with
  | nil => rfl
  | cons r rs ih =>
    rw [pushesOf_cons, ih, handleResult_pushes]
    by_cases h : isNoData r.Value = true <;> simp [h]

theorem run_consumed_prefix (ops : List Op) :
    ∀ s : Pipeline, ∃ consumed : List Result,
      s.chan ++ s.accepted ops = consumed ++ (s.run ops).chan ∧
      (s.run ops).sink = s.sink ++ pushesOf consumed := by
  induction ops with
  | nil => intro s; exact ⟨[], by simp [Pipeline.accepted, Pipeline.run], by simp [Pipeline.run, pushesOf_nil]⟩
  | cons op ops ih =>
    intro s
    cases op with
    | offer r =>
      obtain ⟨consumed, h1, h2⟩ := ih (s.step (Op.offer r))
      refine ⟨consumed, ?_, ?_⟩
      · rw [run_cons, ← h1, step_offer_chan, trySend_chan_eq]
        simp [Pipeline.accepted]
      · rw [run_cons, h2, step_offer_sink]
    | consume =>
      cases hc : s.chan with
      | nil =>
        have hs : s.step Op.consume = s := by simp [Pipeline.step, hc]
        obtain ⟨consumed, h1, h2⟩ := ih s
        refine ⟨consumed, ?_, ?_⟩
        · rw [run_cons, hs, ← h1, hc]
          simp [Pipeline.accepted, hs]
        · rw [run_cons, hs, h2]
      | cons r rest =>
        have hch : (s.step Op.consume).chan = rest := by simp [Pipeline.step, hc]
        have hsk : (s.step Op.consume).sink = s.sink ++ (handleResult r).2 := by
          simp [Pipeline.step, hc]
        obtain ⟨consumed, h1, h2⟩ := ih (s.step Op.consume)
        refine ⟨r :: consumed, ?_, ?_⟩
        · rw [hch] at h1
          rw [run_cons, List.cons_append, List.cons_append, ← h1]
          simp [Pipeline.accepted]
        · rw [run_cons, h2, hsk, pushesOf_cons, List.append_assoc]

/-- C3: for every interleaving of enqueue attempts and consumer steps from the
empty queue, the successfully enqueued Results split into those consumed so
far followed by those still pending, and the datapoints delivered to the sink
are, in order, exactly those of the consumed Results whose value is not "nan",
"null" or "". Hence the delivered sequence is obtained from the datapoints of
the successfully enqueued data-carrying Results by deleting entries (none is
reordered or repeated), it is all of them once the queue is drained, and no
datapoint is delivered more often than it was successfully enqueued. -/
theorem sink_is_fifo_data_subsequence_of_accepted (ops : List Op) :
    (∃ consumed : List Result,
      Pipeline.init.accepted ops = consumed ++ (Pipeline.init.run ops).chan ∧
      (Pipeline.init.run ops).sink
        = (consumed.filter (fun r => !isNoData r.Value)).map datapointOf) ∧
    ((Pipeline.init.run ops).sink).Sublist
      (((Pipeline.init.accepted ops).filter (fun r => !isNoData r.Value)).map datapointOf) ∧
    ((Pipeline.init.run ops).chan = [] →
      (Pipeline.init.run ops).sink
        = ((Pipeline.init.accepted ops).filter (fun r => !isNoData r.Value)).map datapointOf) ∧
    (∀ d : PushCall, ((Pipeline.init.run ops).sink).count d
        ≤ ((Pipeline.init.accepted ops).map datapointOf).count d) := by
  obtain ⟨consumed, h1, h2⟩ := run_consumed_prefix ops Pipeline.init
  have hacc : Pipeline.init.accepted ops = consumed ++ (Pipeline.init.run ops).chan := by
    simpa [Pipeline.init, InitResultChan] using h1
  have hsink : (Pipeline.init.run ops).sink
      = (consumed.filter (fun r => !isNoData r.Value)).map datapointOf := by
    rw [h2, pushesOf_eq_filter_map]
    simp [Pipeline.init]
  have hsub : ((Pipeline.init.run ops).sink).Sublist
      (((Pipeline.init.accepted ops).filter (fun r => !isNoData r.Value)).map datapointOf) := by
    rw [hsink, hacc, List.filter_append, List.map_append]
    exact List.sublist_append_left _ _
  refine ⟨⟨consumed, hacc, hsink⟩, hsub, ?_, ?_⟩
  · intro hempty
    rw [hsink, hacc, hempty, List.append_nil]
  · intro d
    exact (hsub.trans ((List.filter_sublist _).map datapointOf)).count_le d

/-- C3, on a run where the queue is drained: a sent "nan" is skipped and the
two data Results reach the sink in the order they were sent. -/
theorem sink_is_fifo_data_subsequence_of_accepted_witness :
    (Pipeline.init.run [Op.offer ⟨1, "a", "1.00", ""⟩, Op.offer ⟨2, "b", "nan", ""⟩, Op.consume,
        Op.offer ⟨3, "c", "7", "s"⟩, Op.consume, Op.consume]).sink
      = [⟨1, "a", "1.00", "n"⟩, ⟨3, "c", "7", "s"⟩] :=
  ((sink_is_fifo_data_subsequence_of_accepted
      [Op.offer ⟨1, "a", "1.00", ""⟩, Op.offer ⟨2, "b", "nan", ""⟩, Op.consume,
        Op.offer ⟨3, "c", "7", "s"⟩, Op.consume, Op.consume]).2.2.1 (by decide)).trans (by decide)

/-- C4: when the provider call fails, returns no metric data result, or
returns a result whose value series is empty (as for `DiskReadBytes` without
data points), `GrabAWSmetric` offers no Result at all to the result queue and
leaves the queue as it was, where the claim expects one Result with value
"nan". -/
theorem GrabAWSmetric_offers_nothing_without_data {V : Type} (fmt2f : V → String) (now : Int)
    (getErr resultMetricName awsMetricName metricNamespace dimensionName dimensionValue stat : String)
    (timestamps : List Int) (others : List (MetricDataResult V)) (ch : List Result) :
    (GrabAWSmetric fmt2f now (Except.error getErr) resultMetricName awsMetricName metricNamespace
        dimensionName dimensionValue stat ch).map (fun o => (o.offered, o.chan)) = some ([], ch) ∧
    (GrabAWSmetric fmt2f now (Except.ok []) resultMetricName awsMetricName metricNamespace
        dimensionName dimensionValue stat ch).map (fun o => (o.offered, o.chan)) = some ([], ch) ∧
    (GrabAWSmetric fmt2f now (Except.ok (⟨[], timestamps⟩ :: others)) resultMetricName awsMetricName
        metricNamespace dimensionName dimensionValue stat ch).map (fun o => (o.offered, o.chan))
      = some ([], ch) ∧
    (GrabAWSmetric (fun _ : Nat => "0.00") 1700000000000000000 (Except.ok [⟨[], []⟩])
        "sb.aws.asg.a.DiskReadBytes" "DiskReadBytes" "AWS/EC2" "AutoScalingGroupName" "a" "Sum"
        []).map (fun o => o.offered) = some [] := by
  refine ⟨rfl, rfl, ?_, rfl⟩
  unfold GrabAWSmetric
  simp only []
  split <;> rfl

theorem trySend_two (ch : List Result) (r1 r2 : Result) (h : ch.length + 2 ≤ resultChanCap) :
    (trySend (trySend ch r1).1 r2).1 = ch ++ [r1, r2] := by
  rw [trySend_of_lt ch r1 (by omega)]
  rw [trySend_of_lt (ch ++ [r1]) r2 (by simp; omega)]
  simp

theorem SimpleCaqlQuery_offered (SandboxID : String) (queryStartTime endTime : Int)
    (fmtMillis : Int → String) (http : Except String Response) (queryMetricName : String)
    (ch : List Result) :
    (SimpleCaqlQuery SandboxID queryStartTime endTime fmtMillis http queryMetricName ch).offered
      = [⟨unixSeconds queryStartTime, SandboxID ++ ".query." ++ queryMetricName ++ ".duration",
            if (doProxiedCAQLHTTPQuery http).2 = none then fmtMillis (endTime - queryStartTime)
            else "nan", ""⟩,
         ⟨unixSeconds queryStartTime, SandboxID ++ ".query." ++ queryMetricName ++ ".value",
            if (doProxiedCAQLHTTPQuery http).2 = none then (doProxiedCAQLHTTPQuery http).1
            else "nan", ""⟩] := by
  unfold SimpleCaqlQuery
  rcases h : doProxiedCAQLHTTPQuery http with ⟨res, _ | e⟩ <;> simp

theorem SimpleInfluxDBQuery_offered (SandboxID : String) (queryStartTime endTime : Int)
    (fmtMillis : Int → String) (http : Except String Response) (queryMetricName : String)
    (ch : List Result) :
    (SimpleInfluxDBQuery SandboxID queryStartTime endTime fmtMillis http queryMetricName ch).offered
      = [⟨unixSeconds queryStartTime, SandboxID ++ ".query." ++ queryMetricName ++ ".duration",
            if (doProxiedInfluxDBHTTPQuery http).2 = none then fmtMillis (endTime - queryStartTime)
            else "nan", ""⟩,
         ⟨unixSeconds queryStartTime, SandboxID ++ ".query." ++ queryMetricName ++ ".value",
            if (doProxiedInfluxDBHTTPQuery http).2 = none then (doProxiedInfluxDBHTTPQuery http).1
            else "nan", ""⟩] := by
  unfold SimpleInfluxDBQuery
  rcases h : doProxiedInfluxDBHTTPQuery http with ⟨res, _ | e⟩ <;> simp

theorem SimpleCaqlQuery_chan (SandboxID : String) (queryStartTime endTime : Int)
    (fmtMillis : Int → String) (http : Except String Response) (queryMetricName : String)
    (ch : List Result) (h : ch.length + 2 ≤ resultChanCap) :
    (SimpleCaqlQuery SandboxID queryStartTime endTime fmtMillis http queryMetricName ch).chan
      = ch ++ (SimpleCaqlQuery SandboxID queryStartTime endTime fmtMillis http queryMetricName
          ch).offered := by
  unfold SimpleCaqlQuery
  simp only []
  exact trySend_two ch _ _ h

theorem SimpleInfluxDBQuery_chan (SandboxID : String) (queryStartTime endTime : Int)
    (fmtMillis : Int → String) (http : Except String Response) (queryMetricName : String)
    (ch : List Result) (h : ch.length + 2 ≤ resultChanCap) :
    (SimpleInfluxDBQuery SandboxID queryStartTime endTime fmtMillis http queryMetricName ch).chan
      = ch ++ (SimpleInfluxDBQuery SandboxID queryStartTime endTime fmtMillis http queryMetricName
          ch).offered := by
  unfold SimpleInfluxDBQuery
  simp only []
  exact trySend_two ch _ _ h

/-- C5: a call of `SimpleCaqlQuery` or `SimpleInfluxDBQuery` with probe name `p`,
made while the queue has at least two free slots, appends exactly two Results
to the queue, whatever the outcome of the HTTP request: first the one named
`<SandboxID>.query.<p>.duration`, then the one named
`<SandboxID>.query.<p>.value`, both with the same timestamp. -/
theorem probe_enqueues_duration_then_value (SandboxID : String) (queryStartTime endTime : Int)
    (fmtMillis : Int → String) (http : Except String Response) (p : String) (ch : List Result)
    (h : ch.length + 2 ≤ 10000) :
    (∃ d v : String,
      (SimpleCaqlQuery SandboxID queryStartTime endTime fmtMillis http p ch).chan
        = ch ++ [⟨unixSeconds queryStartTime, SandboxID ++ ".query." ++ p ++ ".duration", d, ""⟩,
                 ⟨unixSeconds queryStartTime, SandboxID ++ ".query." ++ p ++ ".value", v, ""⟩]) ∧
    (∃ d v : String,
      (SimpleInfluxDBQuery SandboxID queryStartTime endTime fmtMillis http p ch).chan
        = ch ++ [⟨unixSeconds queryStartTime, SandboxID ++ ".query." ++ p ++ ".duration", d, ""⟩,
                 ⟨unixSeconds queryStartTime, SandboxID ++ ".query." ++ p ++ ".value", v, ""⟩]) := by
  constructor
  · rw [SimpleCaqlQuery_chan _ _ _ _ _ _ _ h, SimpleCaqlQuery_offered]
    exact ⟨_, _, rfl⟩
  · rw [SimpleInfluxDBQuery_chan _ _ _ _ _ _ _ h, SimpleInfluxDBQuery_offered]
    exact ⟨_, _, rfl⟩

/-- C5, for a CAQL and an InfluxDB probe answered with status 200, on a queue
holding one Result. -/
theorem probe_enqueues_duration_then_value_witness :
    ([(⟨9, "x", "1", ""⟩ : Result)].length + 2 ≤ 10000) ∧
    (∃ d v : String,
      (SimpleCaqlQuery "sb" 5000000000 5250000000 (fun _ => "250.00")
          (Except.ok ⟨200, [], Except.ok "\x7b\"data\":[[6000]]\x7d"⟩) "metrics-count"
          [⟨9, "x", "1", ""⟩]).chan
        = [⟨9, "x", "1", ""⟩] ++
            [⟨unixSeconds 5000000000, "sb" ++ ".query." ++ "metrics-count" ++ ".duration", d, ""⟩,
             ⟨unixSeconds 5000000000, "sb" ++ ".query." ++ "metrics-count" ++ ".value", v, ""⟩]) :=
  ⟨by decide,
    (probe_enqueues_duration_then_value "sb" 5000000000 5250000000 (fun _ => "250.00")
      (Except.ok ⟨200, [], Except.ok "\x7b\"data\":[[6000]]\x7d"⟩) "metrics-count" [⟨9, "x", "1", ""⟩]
      (by decide)).1⟩

/-- C7, refuted as stated: a CAQL response with status 200 whose body contains
`data":[[]]` matches the pattern with an empty captured segment, and the
`.value` Result is emitted with the empty string as value, not "nan". -/
theorem caql_empty_match_value_is_empty_not_nan :
    caqlResultRegex.FindStringSubmatch "\x7b\"data\":[[]],\"meta\":\x7b\x7d\x7d" = ["data\":[[", ""] ∧
    (SimpleCaqlQuery "sb" 5000000000 5250000000 (fun _ => "250.00")
        (Except.ok ⟨200, [], Except.ok "\x7b\"data\":[[]],\"meta\":\x7b\x7d\x7d"⟩) "metrics-count" []).offered
      = [⟨5, "sb.query.metrics-count.duration", "250.00", ""⟩,
         ⟨5, "sb.query.metrics-count.value", "", ""⟩] ∧
    ¬ ((SimpleCaqlQuery "sb" 5000000000 5250000000 (fun _ => "250.00")
        (Except.ok ⟨200, [], Except.ok "\x7b\"data\":[[]],\"meta\":\x7b\x7d\x7d"⟩) "metrics-count" []).offered.map
          Result.Value).getLast? = some "nan" := by
  decide

theorem doProxiedCAQLHTTPQuery_ok (status : Int) (hdrs : List String) (body : String)
    (hs : status < 400) :
    doProxiedCAQLHTTPQuery (Except.ok ⟨status, hdrs, Except.ok body⟩)
      = if (caqlResultRegex.FindStringSubmatch body).length < 2 then ("nan", none)
        else ((stringsSplitComma ((caqlResultRegex.FindStringSubmatch body).getD 1 "")).getD
          ((stringsSplitComma ((caqlResultRegex.FindStringSubmatch body).getD 1 "")).length - 1) "",
          none) := by
  have h : ¬ status ≥ 400 := by omega
  simp [doProxiedCAQLHTTPQuery, h]

theorem doProxiedInfluxDBHTTPQuery_ok (status : Int) (hdrs : List String) (body : String)
    (hs : status < 400) :
    doProxiedInfluxDBHTTPQuery (Except.ok ⟨status, hdrs, Except.ok body⟩)
      = if (influxLastResultRegex.FindStringSubmatch body).length < 2 then ("nan", none)
        else ((stringsSplitComma ((influxLastResultRegex.FindStringSubmatch body).getD 1 "")).getD
          ((stringsSplitComma ((influxLastResultRegex.FindStringSubmatch body).getD 1 "")).length - 1)
          "", none) := by
  have h : ¬ status ≥ 400 := by omega
  simp [doProxiedInfluxDBHTTPQuery, h]

/-- C7, amended: for a proxied probe (CAQL or InfluxDB) answered with a status
below 400, the `.value` Result has value "nan" when the dialect's pattern does
not match the body, and has the empty string as value when the pattern matches
with an empty captured segment. -/
theorem probe_value_nan_on_no_match_empty_on_empty_match (SandboxID : String)
    (queryStartTime endTime : Int) (fmtMillis : Int → String) (status : Int) (hdrs : List String)
    (body p : String) (ch : List Result) (hs : status < 400) :
    (caqlResultRegex.FindStringSubmatch body = [] →
      (SimpleCaqlQuery SandboxID queryStartTime endTime fmtMillis
        (Except.ok ⟨status, hdrs, Except.ok body⟩) p ch).offered.map (fun r => (r.Name, r.Value))
        = [(SandboxID ++ ".query." ++ p ++ ".duration", fmtMillis (endTime - queryStartTime)),
           (SandboxID ++ ".query." ++ p ++ ".value", "nan")]) ∧
    (∀ whole : String, caqlResultRegex.FindStringSubmatch body = [whole, ""] →
      (SimpleCaqlQuery SandboxID queryStartTime endTime fmtMillis
        (Except.ok ⟨status, hdrs, Except.ok body⟩) p ch).offered.map (fun r => (r.Name, r.Value))
        = [(SandboxID ++ ".query." ++ p ++ ".duration", fmtMillis (endTime - queryStartTime)),
           (SandboxID ++ ".query." ++ p ++ ".value", "")]) ∧
    (influxLastResultRegex.FindStringSubmatch body = [] →
      (SimpleInfluxDBQuery SandboxID queryStartTime endTime fmtMillis
        (Except.ok ⟨status, hdrs, Except.ok body⟩) p ch).offered.map (fun r => (r.Name, r.Value))
        = [(SandboxID ++ ".query." ++ p ++ ".duration", fmtMillis (endTime - queryStartTime)),
           (SandboxID ++ ".query." ++ p ++ ".value", "nan")]) ∧
    (∀ whole : String, influxLastResultRegex.FindStringSubmatch body = [whole, ""] →
      (SimpleInfluxDBQuery SandboxID queryStartTime endTime fmtMillis
        (Except.ok ⟨status, hdrs, Except.ok body⟩) p ch).offered.map (fun r => (r.Name, r.Value))
        = [(SandboxID ++ ".query." ++ p ++ ".duration", fmtMillis (endTime - queryStartTime)),
           (SandboxID ++ ".query." ++ p ++ ".value", "")]) := by
  have hsplit : stringsSplitComma "" = [""] := by decide
  refine ⟨?_, ?_, ?_, ?_⟩
  · intro hm
    rw [SimpleCaqlQuery_offered, doProxiedCAQLHTTPQuery_ok _ _ _ hs, hm]
    simp
  · intro whole hm
    rw [SimpleCaqlQuery_offered, doProxiedCAQLHTTPQuery_ok _ _ _ hs, hm]
    simp [hsplit]
  · intro hm
    rw [SimpleInfluxDBQuery_offered, doProxiedInfluxDBHTTPQuery_ok _ _ _ hs, hm]
    simp
  · intro whole hm
    rw [SimpleInfluxDBQuery_offered, doProxiedInfluxDBHTTPQuery_ok _ _ _ hs, hm]
    simp [hsplit]

/-- C7 amended, on a CAQL body without the marker and on a CAQL body whose data
segment is empty. -/
theorem probe_value_nan_on_no_match_empty_on_empty_match_witness :
    ((200 : Int) < 400 ∧ caqlResultRegex.FindStringSubmatch "<html>bad gateway</html>" = [] ∧
      caqlResultRegex.FindStringSubmatch "\x7b\"data\":[[]],\"meta\":\x7b\x7d\x7d" = ["data\":[[", ""]) ∧
    (SimpleCaqlQuery "sb" 5000000000 5250000000 (fun _ => "250.00")
        (Except.ok ⟨200, [], Except.ok "<html>bad gateway</html>"⟩) "metrics-count"
        []).offered.map (fun r => (r.Name, r.Value))
      = [("sb" ++ ".query." ++ "metrics-count" ++ ".duration", "250.00"),
         ("sb" ++ ".query." ++ "metrics-count" ++ ".value", "nan")] ∧
    (SimpleCaqlQuery "sb" 5000000000 5250000000 (fun _ => "250.00")
        (Except.ok ⟨200, [], Except.ok "\x7b\"data\":[[]],\"meta\":\x7b\x7d\x7d"⟩) "metrics-count"
        []).offered.map (fun r => (r.Name, r.Value))
      = [("sb" ++ ".query." ++ "metrics-count" ++ ".duration", "250.00"),
         ("sb" ++ ".query." ++ "metrics-count" ++ ".value", "")] :=
  ⟨⟨by decide, by decide, by decide⟩,
    (probe_value_nan_on_no_match_empty_on_empty_match "sb" 5000000000 5250000000
      (fun _ => "250.00") 200 [] "<html>bad gateway</html>" "metrics-count" [] (by decide)).1
      (by decide),
    (probe_value_nan_on_no_match_empty_on_empty_match "sb" 5000000000 5250000000
      (fun _ => "250.00") 200 [] "\x7b\"data\":[[]],\"meta\":\x7b\x7d\x7d" "metrics-count" [] (by decide)).2.1
      "data\":[[" (by decide)⟩

/-! ### Pattern matching -/

theorem take_length_takeWhile (cls : Char → Bool) (s : List Char) :
    s.take (s.takeWhile cls).length = s.takeWhile cls := by
  induction s with
  | nil => rfl
  | cons x xs ih =>
    by_cases h : cls x = true
    · simp [List.takeWhile_cons, h, ih]
    · simp [List.takeWhile_cons, h]

theorem matchHere_nil (s : List Char) : matchHere [] s = some [] := by
  unfold matchHere
  rfl

theorem matchHere_lit_cons (c : Char) (rest : List Atom) (x : Char) (xs : List Char) :
    matchHere (Atom.lit c :: rest) (x :: xs)
      = if x = c then (matchHere rest xs).map (fun m => [x] :: m) else none := by
  rw [matchHere]

theorem matchHere_lit_nil (c : Char) (rest : List Atom) :
    matchHere (Atom.lit c :: rest) [] = none := by
  rw [matchHere]

theorem matchHere_star (cls : Char → Bool) (rest : List Atom) (s : List Char) :
    matchHere (Atom.star cls :: rest) s
      = (List.range ((s.takeWhile cls).length + 1)).reverse.findSome?
          (fun k => (matchHere rest (s.drop k)).map (fun m => s.take k :: m)) := by
  rw [matchHere]

theorem matchHere_star_last (cls : Char → Bool) (s : List Char) :
    matchHere [Atom.star cls] s = some [s.takeWhile cls] := by
  rw [matchHere_star, List.range_succ, List.reverse_append]
  simp [List.findSome?_cons, matchHere_nil, take_length_takeWhile]

theorem matchHere_lits_append (m : List Char) (rest : List Atom) :
    ∀ s : List Char, matchHere (m.map Atom.lit ++ rest) s
      = if m <+: s then (matchHere rest (s.drop m.length)).map (fun r => m.map (fun c => [c]) ++ r)
        else none := by
  induction m with
  | nil => intro s; simp
  | cons c m ih =>
    intro s
    cases s with
    | nil => simp [matchHere_lit_nil]
    | cons x xs =>
      rw [List.map_cons, List.cons_append, matchHere_lit_cons]
      by_cases hx : x = c
      · subst hx
        rw [if_pos rfl, ih xs]
        by_cases hp : m <+: xs
        · have hp' : x :: m <+: x :: xs := (List.prefix_cons_inj x).2 hp
          rw [if_pos hp, if_pos hp']
          cases hr : matchHere rest (List.drop m.length xs) <;> simp [hr]
        · have hp' : ¬ x :: m <+: x :: xs := fun h => hp ((List.prefix_cons_inj x).1 h)
          rw [if_neg hp, if_neg hp']
          rfl
      · have hp' : ¬ c :: m <+: x :: xs := by
          intro h
          exact hx (List.cons_prefix_cons.1 h).1.symm
        rw [if_neg hx, if_neg hp']

theorem matchHere_chunks (atoms : List Atom) :
    ∀ (s : List Char) (m : List (List Char)), matchHere atoms s = some m →
      List.Forall₂ chunkOk atoms m := by
  induction atoms with
  | nil =>
    intro s m h
    rw [matchHere_nil] at h
    cases h
    exact List.Forall₂.nil
  | cons a rest ih =>
    intro s m h
    cases a with
    | lit c =>
      cases s with
      | nil => rw [matchHere_lit_nil] at h; cases h
      | cons x xs =>
        rw [matchHere_lit_cons] at h
        by_cases hx : x = c
        · rw [if_pos hx] at h
          cases hr : matchHere rest xs with
          | none => rw [hr] at h; cases h
          | some m' =>
            rw [hr] at h
            cases h
            exact List.Forall₂.cons (by simp [chunkOk, hx]) (ih xs m' hr)
        · rw [if_neg hx] at h; cases h
    | star cls =>
      rw [matchHere_star] at h
      obtain ⟨k, hk, hf⟩ := List.exists_of_findSome?_eq_some h
      cases hr : matchHere rest (s.drop k) with
      | none => rw [hr] at hf; cases hf
      | some m' =>
        rw [hr] at hf
        cases hf
        refine List.Forall₂.cons ?_ (ih _ m' hr)
        intro x hxmem
        have hkle : k ≤ (s.takeWhile cls).length := by
          have := List.mem_reverse.1 hk
          have := List.mem_range.1 this
          omega
        have hpre : s.take k = (s.takeWhile cls).take k := by
          rw [← take_length_takeWhile cls s, List.take_take, Nat.min_eq_left hkle]
        rw [hpre] at hxmem
        exact List.mem_takeWhile_imp (List.mem_of_mem_take hxmem)

theorem findLeftmost_some (atoms : List Atom) :
    ∀ (s : List Char) (m : List (List Char)), findLeftmost atoms s = some m →
      ∃ t : List Char, t <:+ s ∧ matchHere atoms t = some m := by
  intro s
  induction s with
  | nil =>
    intro m h
    exact ⟨[], List.suffix_refl _, by simpa [findLeftmost] using h⟩
  | cons x xs ih =>
    intro m h
    rw [findLeftmost] at h
    cases hm : matchHere atoms (x :: xs) with
    | some m' =>
      rw [hm] at h
      simp at h
      subst h
      exact ⟨x :: xs, List.suffix_refl _, hm⟩
    | none =>
      rw [hm] at h
      simp at h
      obtain ⟨t, ht, hmt⟩ := ih m h
      exact ⟨t, ht.trans (List.suffix_cons x xs), hmt⟩

/-! ### `strings.Split` -/

theorem splitChars_ne_nil (sep : Char) (s : List Char) : splitChars sep s ≠ [] := by
  cases s with
  | nil => simp [splitChars]
  | cons c cs =>
    rw [splitChars]
    split
    · simp
    · split <;> simp

theorem splitChars_of_not_mem (sep : Char) (s : List Char) (h : sep ∉ s) :
    splitChars sep s = [s] := by
  induction s with
  | nil => rfl
  | cons c cs ih =>
    have hc : ¬ c = sep := fun e => h (by simp [e])
    have hcs : sep ∉ cs := fun e => h (List.mem_cons_of_mem _ e)
    rw [splitChars, if_neg hc, ih hcs]

theorem splitChars_append_sep (sep : Char) (r : List Char) :
    ∀ a : List Char, splitChars sep (a ++ sep :: r) = splitChars sep a ++ splitChars sep r := by
  intro a
  induction a with
  | nil => simp [splitChars]
  | cons c a ih =>
    rw [List.cons_append, splitChars, splitChars, ih]
    by_cases hc : c = sep
    · simp [hc]
    · rw [if_neg hc, if_neg hc]
      cases hs : splitChars sep a with
      | nil => exact absurd hs (splitChars_ne_nil sep a)
      | cons p ps => simp

theorem splitChars_last (sep : Char) (s : List Char) :
    ∃ (init : List (List Char)) (r : List Char),
      splitChars sep s = init ++ [r] ∧ sep ∉ r ∧ ∀ x ∈ r, x ∈ s := by
  induction s with
  | nil => exact ⟨[], [], rfl, by simp, by simp⟩
  | cons c cs ih =>
    obtain ⟨init, r, hsp, hsep, hmem⟩ := ih
    rw [splitChars]
    by_cases hc : c = sep
    · rw [if_pos hc, hsp]
      exact ⟨[] :: init, r, rfl, hsep, fun x hx => List.mem_cons_of_mem _ (hmem x hx)⟩
    · rw [if_neg hc, hsp]
      cases init with
      | nil =>
        refine ⟨[], c :: r, rfl, ?_, ?_⟩
        · intro h
          rcases List.mem_cons.1 h with h | h
          · exact hc h.symm
          · exact hsep h
        · intro x hx
          rcases List.mem_cons.1 hx with h | h
          · simp [h]
          · exact List.mem_cons_of_mem _ (hmem x h)
      | cons p ps =>
        exact ⟨(c :: p) :: ps, r, rfl, hsep, fun x hx => List.mem_cons_of_mem _ (hmem x hx)⟩

theorem getD_last_append (init : List String) (r : String) :
    (init ++ [r]).getD ((init ++ [r]).length - 1) "" = r := by
  simp [List.getD_eq_getElem?_getD]

theorem findLeftmost_of_matchHere (atoms : List Atom) (t : List Char) (m : List (List Char))
    (h : matchHere atoms t = some m) : findLeftmost atoms t = some m := by
  cases t with
  | nil => simpa [findLeftmost] using h
  | cons x xs => simp [findLeftmost, h]

theorem findLeftmost_skip (atoms : List Atom) (t : List Char) (m : List (List Char))
    (h : matchHere atoms t = some m) :
    ∀ pre : List Char, (∀ k, k < pre.length → matchHere atoms ((pre ++ t).drop k) = none) →
      findLeftmost atoms (pre ++ t) = some m := by
  intro pre
  induction pre with
  | nil => intro _; simpa using findLeftmost_of_matchHere atoms t m h
  | cons a pre ih =>
    intro hnone
    have h0 : matchHere atoms (a :: (pre ++ t)) = none := by
      simpa using hnone 0 (by simp)
    have hrest : ∀ k, k < pre.length → matchHere atoms ((pre ++ t).drop k) = none := by
      intro k hk
      simpa using hnone (k + 1) (by simp; omega)
    rw [List.cons_append, findLeftmost, h0]
    simpa using ih hrest

theorem findLeftmost_none (atoms : List Atom) :
    ∀ s : List Char, (∀ t, t <:+ s → matchHere atoms t = none) → findLeftmost atoms s = none := by
  intro s
  induction s with
  | nil => intro h; simpa [findLeftmost] using h [] (List.suffix_refl _)
  | cons x xs ih =>
    intro h
    rw [findLeftmost, h (x :: xs) (List.suffix_refl _)]
    simpa using ih (fun t ht => h t (ht.trans (List.suffix_cons x xs)))

theorem caqlResultRegex_atoms :
    caqlResultRegex.atoms
      = "data\":[[".data.map Atom.lit ++ [Atom.star (fun c => c != ']')] := rfl

theorem matchHere_caql (s : List Char) :
    matchHere caqlResultRegex.atoms s
      = if "data\":[[".data <+: s then
          some ("data\":[[".data.map (fun c => [c])
            ++ [(s.drop "data\":[[".data.length).takeWhile (fun c => c != ']')])
        else none := by
  rw [caqlResultRegex_atoms, matchHere_lits_append, matchHere_star_last]
  rfl

theorem takeWhile_segment (seg tail : List Char) (hseg : ']' ∉ seg)
    (htail : tail = [] ∨ ∃ t, tail = ']' :: t) :
    (seg ++ tail).takeWhile (fun c => c != ']') = seg := by
  have hall : ∀ a ∈ seg, (fun c : Char => c != ']') a = true := by
    intro a ha
    have : a ≠ ']' := fun e => hseg (e ▸ ha)
    simpa using this
  rw [List.takeWhile_append_of_pos hall]
  rcases htail with h | ⟨t, h⟩ <;> simp [h]

theorem caql_submatch_of_segment (body : String) (seg : List Char)
    (h : findLeftmost caqlResultRegex.atoms body.data
      = some ("data\":[[".data.map (fun c => [c]) ++ [seg])) :
    caqlResultRegex.FindStringSubmatch body
      = [String.mk ("data\":[[".data ++ seg), String.mk seg] := by
  have hm : "data\":[[".data = ['d', 'a', 't', 'a', '"', ':', '[', '['] := rfl
  rw [Regexp.FindStringSubmatch, h, hm]
  simp [caqlResultRegex]

theorem stringsSplitComma_last (seg r : List Char) (hr : ',' ∉ r)
    (hsplit : seg = r ∨ ∃ a, seg = a ++ ',' :: r) :
    (stringsSplitComma (String.mk seg)).getD ((stringsSplitComma (String.mk seg)).length - 1) ""
      = String.mk r := by
  have hs : ∃ init, splitChars ',' seg = init ++ [r] := by
    rcases hsplit with h | ⟨a, h⟩
    · exact ⟨[], by rw [h, splitChars_of_not_mem _ _ hr]; rfl⟩
    · exact ⟨splitChars ',' a, by rw [h, splitChars_append_sep, splitChars_of_not_mem _ _ hr]⟩
  obtain ⟨init, hinit⟩ := hs
  have : stringsSplitComma (String.mk seg) = init.map String.mk ++ [String.mk r] := by
    simp [stringsSplitComma, hinit]
  rw [this, getD_last_append]

/-- C8: for a CAQL response with status below 400, if the body contains the
marker `data":[[` then `doProxiedCAQLHTTPQuery` returns, without error, the
text following the last comma (the whole text when there is none) of the
segment that runs from just after the first occurrence of the marker up to the
next `]` or the end of the body; and if the body does not contain the marker
it returns "nan", without error. -/
theorem caql_returns_last_token_after_first_marker (status : Int) (hdrs : List String)
    (body : String) (hs : status < 400) :
    (∀ pre seg tail r : List Char,
      body.data = pre ++ "data\":[[".data ++ seg ++ tail →
      (∀ k, k < pre.length → ¬ "data\":[[".data <+: body.data.drop k) →
      ']' ∉ seg → (tail = [] ∨ ∃ t, tail = ']' :: t) →
      ',' ∉ r → (seg = r ∨ ∃ a, seg = a ++ ',' :: r) →
      doProxiedCAQLHTTPQuery (Except.ok ⟨status, hdrs, Except.ok body⟩) = (String.mk r, none)) ∧
    (¬ "data\":[[".data <:+: body.data →
      doProxiedCAQLHTTPQuery (Except.ok ⟨status, hdrs, Except.ok body⟩) = ("nan", none)) := by
  constructor
  · intro pre seg tail r hbody hfirst hseg htail hr hsplit
    have hbody' : body.data = pre ++ ("data\":[[".data ++ (seg ++ tail)) := by
      rw [hbody]; simp
    have hhere : matchHere caqlResultRegex.atoms ("data\":[[".data ++ (seg ++ tail))
        = some ("data\":[[".data.map (fun c => [c]) ++ [seg]) := by
      rw [matchHere_caql, if_pos (List.prefix_append _ _), List.drop_left,
        takeWhile_segment seg tail hseg htail]
    have hfind : findLeftmost caqlResultRegex.atoms body.data
        = some ("data\":[[".data.map (fun c => [c]) ++ [seg]) := by
      rw [hbody']
      apply findLeftmost_skip _ _ _ hhere
      intro k hk
      rw [matchHere_caql, if_neg]
      rw [← hbody']
      exact hfirst k hk
    rw [doProxiedCAQLHTTPQuery_ok _ _ _ hs, caql_submatch_of_segment body seg hfind]
    simp only [List.length_cons, List.length_nil]
    rw [if_neg (by omega)]
    simp only [List.getD_cons_succ, List.getD_cons_zero]
    rw [stringsSplitComma_last seg r hr hsplit]
  · intro hno
    have hfind : findLeftmost caqlResultRegex.atoms body.data = none := by
      apply findLeftmost_none
      intro t ht
      rw [matchHere_caql, if_neg]
      intro hp
      exact hno (hp.isInfix.trans ht.isInfix)
    rw [doProxiedCAQLHTTPQuery_ok _ _ _ hs, Regexp.FindStringSubmatch, hfind]
    rfl

/-- C8, on a body with three datapoints: the last one is returned. -/
theorem caql_returns_last_token_after_first_marker_witness :
    (200 : Int) < 400 ∧
    doProxiedCAQLHTTPQuery
        (Except.ok ⟨200, [], Except.ok "\x7b\"data\":[[1,2,6000]],\"meta\":null\x7d"⟩)
      = ("6000", none) :=
  ⟨by decide,
    (caql_returns_last_token_after_first_marker 200 [] "\x7b\"data\":[[1,2,6000]],\"meta\":null\x7d"
      (by decide)).1 "\x7b\"".data "1,2,6000".data "]],\"meta\":null\x7d".data "6000".data rfl
      (by decide) (by decide) (Or.inr ⟨_, rfl⟩) (by decide) (Or.inr ⟨"1,2".data, rfl⟩)⟩

/-- C9, refuted as stated: a CAQL response with status 200 whose data segment
holds a text value makes the `.value` Result carry that text, which is neither
"nan", "null", "" nor a decimal number (the `.duration` Result of the same call
carries the decimal number "250.00"); and a cloud-metric datapoint that is the
`float64` +Inf makes the Result carry "+Inf", which is none of them either. -/
theorem executor_values_can_be_non_numeric :
    (SimpleCaqlQuery "sb" 5000000000 5250000000 queryDuration
        (Except.ok ⟨200, [], Except.ok "\x7b\"data\":[[\"abc\"]],\"meta\":null\x7d"⟩) "metrics-count"
        []).offered
      = [⟨5, "sb.query.metrics-count.duration", "250.00", ""⟩,
         ⟨5, "sb.query.metrics-count.value", "\"abc\"", ""⟩] ∧
    "\"abc\"" ≠ "nan" ∧ "\"abc\"" ≠ "null" ∧ "\"abc\"" ≠ "" ∧
    isDecimalNumber "\"abc\"" = false ∧
    (GrabAWSmetric formatFloat2 1700000000000000000
        (Except.ok [⟨[Float64.inf false], [1699999940000000000]⟩])
        "sb.infra.tsdb-asg-1.cpu.utilization.avg" "CPUUtilization" "AWS/EC2"
        "AutoScalingGroupName" "asg-a" "Average" []).map (fun o => o.offered)
      = some [⟨1699999940, "sb.infra.tsdb-asg-1.cpu.utilization.avg", "+Inf", ""⟩] ∧
    "+Inf" ≠ "nan" ∧ "+Inf" ≠ "null" ∧ "+Inf" ≠ "" ∧ isDecimalNumber "+Inf" = false := by
  decide

theorem caql_value_shape (http : Except String Response) :
    (doProxiedCAQLHTTPQuery http).1 = "nan" ∨
      (',' ∉ (doProxiedCAQLHTTPQuery http).1.data ∧ ']' ∉ (doProxiedCAQLHTTPQuery http).1.data) := by
  rcases http with e | ⟨status, hdrs, body⟩
  · exact Or.inl rfl
  · by_cases hs : status ≥ 400
    · left; simp [doProxiedCAQLHTTPQuery, hs]
    · rcases body with e | body
      · left; simp [doProxiedCAQLHTTPQuery, hs]
      · rw [doProxiedCAQLHTTPQuery_ok _ _ _ (by omega)]
        cases hf : findLeftmost caqlResultRegex.atoms body.data with
        | none =>
          left
          simp [Regexp.FindStringSubmatch, hf]
        | some m =>
          right
          obtain ⟨t, _, hmt⟩ := findLeftmost_some _ _ _ hf
          have hm : ∃ seg : List Char, (∀ x ∈ seg, (x != ']') = true) ∧
              m = "data\":[[".data.map (fun c => [c]) ++ [seg] := by
            rw [matchHere_caql] at hmt
            split at hmt
            · refine ⟨_, fun x hx => ?_, (Option.some.inj hmt).symm⟩
              exact List.mem_takeWhile_imp (p := fun c => c != ']') hx
            · cases hmt
          obtain ⟨seg, hsegok, rfl⟩ := hm
          obtain ⟨init, r, hsp, hsep, hmem⟩ := splitChars_last ',' seg
          rw [caql_submatch_of_segment body _ hf]
          simp only [List.length_cons, List.length_nil]
          rw [if_neg (by omega)]
          simp only [List.getD_cons_succ, List.getD_cons_zero]
          have hlast : stringsSplitComma (String.mk seg) = init.map String.mk ++ [String.mk r] := by
            simp [stringsSplitComma, hsp]
          rw [hlast, getD_last_append]
          refine ⟨hsep, ?_⟩
          intro hclose
          have := hsegok _ (hmem _ hclose)
          simp at this

theorem influx_value_shape (http : Except String Response) :
    (doProxiedInfluxDBHTTPQuery http).1 = "nan" ∨
      (doProxiedInfluxDBHTTPQuery http).1.data.all isDigit09 = true := by
  rcases http with e | ⟨status, hdrs, body⟩
  · exact Or.inl rfl
  · by_cases hs : status ≥ 400
    · left; simp [doProxiedInfluxDBHTTPQuery, hs]
    · rcases body with e | body
      · left; simp [doProxiedInfluxDBHTTPQuery, hs]
      · rw [doProxiedInfluxDBHTTPQuery_ok _ _ _ (by omega)]
        cases hf : findLeftmost influxLastResultRegex.atoms body.data with
        | none =>
          left
          simp [Regexp.FindStringSubmatch, hf]
        | some m =>
          right
          obtain ⟨t, _, hmt⟩ := findLeftmost_some _ _ _ hf
          have hch := matchHere_chunks _ _ _ hmt
          simp only [influxLastResultRegex, List.forall₂_cons_left_iff,
            List.forall₂_nil_left_iff] at hch
          obtain ⟨c0, m1, _, ⟨c1, m2, _, ⟨ds, m3, hds, ⟨c3, m4, _, ⟨c4, m5, _, h5, h4⟩, h3⟩, h2⟩,
            h1⟩, h0⟩ := hch
          subst h5; subst h4; subst h3; subst h2; subst h1; subst h0
          have hcomma : ',' ∉ ds := by
            intro hmem
            have := hds _ hmem
            revert this
            decide
          have hsub : influxLastResultRegex.FindStringSubmatch body
              = [String.mk (c0 ++ (c1 ++ (ds ++ (c3 ++ c4)))), String.mk ds] := by
            rw [Regexp.FindStringSubmatch, hf]
            simp [influxLastResultRegex]
          rw [hsub]
          simp only [List.length_cons, List.length_nil]
          rw [if_neg (by omega)]
          simp only [List.getD_cons_succ, List.getD_cons_zero]
          have hlast : stringsSplitComma (String.mk ds) = [String.mk ds] := by
            simp [stringsSplitComma, splitChars_of_not_mem _ _ hcomma]
          rw [hlast]
          simpa [chunkOk] using hds

theorem isDecimalNumber_of_digits (ds : List Char) (hne : ds ≠ [])
    (hall : ds.all isDigit09 = true) : isDecimalNumber (String.mk ds) = true := by
  have hall' : ∀ x ∈ ds, isDigit09 x = true := by simpa using hall
  have htake : ds.takeWhile isDigit09 = ds := List.takeWhile_eq_self_iff.2 hall'
  have hdrop : ds.dropWhile isDigit09 = [] := List.dropWhile_eq_nil_iff.2 hall'
  cases ds with
  | nil => exact absurd rfl hne
  | cons c cs =>
    have hc : isDigit09 c = true := hall' c (by simp)
    have h1 : c ≠ '-' := by
      intro e; rw [e] at hc; revert hc; decide
    have h2 : c ≠ '+' := by
      intro e; rw [e] at hc; revert hc; decide
    unfold isDecimalNumber
    simp only []
    split
    · rename_i t heq
      simp at heq
      exact absurd heq.1 h1
    · rename_i t heq
      simp at heq
      exact absurd heq.1 h2
    · rw [htake, hdrop]
      simp

theorem GrabAWSmetric_offered_value {V : Type} (fmt2f : V → String) (now : Int)
    (resp : Except String (List (MetricDataResult V)))
    (resultMetricName awsMetricName metricNamespace dimensionName dimensionValue stat : String)
    (ch : List Result) (out : AwsOut)
    (h : GrabAWSmetric fmt2f now resp resultMetricName awsMetricName metricNamespace dimensionName
      dimensionValue stat ch = some out) :
    ∀ r ∈ out.offered, ∃ (first : MetricDataResult V) (rest : List (MetricDataResult V))
      (v : V) (vs : List V),
      resp = Except.ok (first :: rest) ∧ first.Values = v :: vs ∧ r.Value = fmt2f v := by
  unfold GrabAWSmetric at h
  simp only [] at h
  split at h
  · cases h; simp
  · cases h; simp
  · rename_i first rest
    split at h
    · rename_i v vs hvs
      split at h
      · cases h
      · cases h
        intro r hr
        simp at hr
        subst hr
        exact ⟨first, rest, v, vs, rfl, hvs, rfl⟩
    · split at h <;> (cases h; simp)

/-! ### Values are numbers -/

theorem roundHalfEven_mul_le (n d : Nat) : roundHalfEven n d * d ≤ 2 * n := by
  have h := Nat.div_add_mod n d
  unfold roundHalfEven
  simp only []
  have e1 : n / d * d = d * (n / d) := Nat.mul_comm _ _
  have e2 : (n / d + 1) * d = d * (n / d) + d := by rw [Nat.add_mul, Nat.one_mul, Nat.mul_comm]
  split
  · omega
  · split
    · omega
    · split <;> omega

theorem roundFloat64_finite (neg : Bool) (n d : Nat) (h : n < d * float64Overflow) :
    ∃ a b : Nat, roundFloat64 neg n d = Float64.finite neg a b ∧ 0 < b ∧ a * d ≤ 2 * n * b := by
  unfold roundFloat64
  by_cases h0 : n = 0
  · rw [if_pos h0]
    exact ⟨0, 1, rfl, by decide, by simp⟩
  · rw [if_neg h0, if_neg (by omega)]
    simp only []
    split
    · refine ⟨_, 1, rfl, by decide, ?_⟩
      have := roundHalfEven_mul_le n (d * 2 ^ (max (floorLog2 n d - 52) (-1074)).toNat)
      calc roundHalfEven n (d * 2 ^ (max (floorLog2 n d - 52) (-1074)).toNat)
              * 2 ^ (max (floorLog2 n d - 52) (-1074)).toNat * d
            = roundHalfEven n (d * 2 ^ (max (floorLog2 n d - 52) (-1074)).toNat)
              * (d * 2 ^ (max (floorLog2 n d - 52) (-1074)).toNat) := by ring
        _ ≤ 2 * n := this
        _ = 2 * n * 1 := by ring
    · refine ⟨_, _, rfl, Nat.two_pow_pos _, ?_⟩
      have := roundHalfEven_mul_le (n * 2 ^ (-(max (floorLog2 n d - 52) (-1074))).toNat) d
      calc _ ≤ 2 * (n * 2 ^ (-(max (floorLog2 n d - 52) (-1074))).toNat) := this
        _ = _ := by ring

theorem div_1000_finite (neg : Bool) (a b C : Nat) (hb : 0 < b) (ha : a ≤ C * b)
    (hC : C < 2 ^ 1000) :
    ∃ a1 b1 : Nat,
      (Float64.finite neg a b).div (Float64.finite false 1000 1) = Float64.finite neg a1 b1 ∧
      0 < b1 ∧ a1 ≤ 2 * C * b1 := by
  have hlt : a * 1 < b * 1000 * float64Overflow := by
    have h1 : C * b < 2 ^ 1000 * b := Nat.mul_lt_mul_of_pos_right hC hb
    have h2 : 2 ^ 1000 * b ≤ b * 1000 * float64Overflow := by
      have : (2 : Nat) ^ 1000 ≤ 1000 * float64Overflow := by
        unfold float64Overflow
        norm_num
      calc 2 ^ 1000 * b ≤ 1000 * float64Overflow * b := Nat.mul_le_mul_right b this
        _ = b * 1000 * float64Overflow := by ring
    omega
  obtain ⟨a1, b1, hr, hb1, hle⟩ := roundFloat64_finite neg (a * 1) (b * 1000) hlt
  refine ⟨a1, b1, ?_, hb1, ?_⟩
  · simp only [Float64.div, Bool.xor_false]
    rw [if_neg (by decide)]
    exact hr
  · apply Nat.le_of_mul_le_mul_right _ hb
    calc a1 * b ≤ a1 * (b * 1000) := Nat.mul_le_mul_left a1 (by omega)
      _ ≤ 2 * (a * 1) * b1 := hle
      _ ≤ 2 * (C * b * 1) * b1 := by
        apply Nat.mul_le_mul_right
        omega
      _ = 2 * C * b1 * b := by ring

theorem queryDurationFloat_finite (d : Int) :
    ∃ (neg : Bool) (a b : Nat), queryDurationFloat d = Float64.finite neg a b := by
  have hrange : (wrapInt64 d).natAbs ≤ 2 ^ 63 := by
    unfold wrapInt64
    have h1 := Int.emod_nonneg (d + 2 ^ 63) (b := 2 ^ 64) (by decide)
    have h2 := Int.emod_lt_of_pos (d + 2 ^ 63) (b := 2 ^ 64) (by decide)
    omega
  obtain ⟨a0, b0, h0, hb0, hle0⟩ := roundFloat64_finite (decide (wrapInt64 d < 0))
    (wrapInt64 d).natAbs 1 (by
      have : (2 : Nat) ^ 63 < 1 * float64Overflow := by
        unfold float64Overflow
        norm_num
      omega)
  obtain ⟨a1, b1, h1, hb1, hle1⟩ := div_1000_finite (decide (wrapInt64 d < 0)) a0 b0 (2 ^ 64) hb0
    (by
      have : 2 * (wrapInt64 d).natAbs * b0 ≤ 2 * 2 ^ 63 * b0 :=
        Nat.mul_le_mul_right b0 (Nat.mul_le_mul_left 2 hrange)
      have e : (2 : Nat) * 2 ^ 63 = 2 ^ 64 := by norm_num
      rw [e] at this
      omega)
    (by norm_num)
  obtain ⟨a2, b2, h2, _, _⟩ := div_1000_finite (decide (wrapInt64 d < 0)) a1 b1 (2 * 2 ^ 64) hb1
    hle1 (by norm_num)
  exact ⟨_, a2, b2, by rw [queryDurationFloat, float64OfInt64, h0, h1, h2]⟩

theorem isDigit09_digitChar (k : Nat) (h : k < 10) : isDigit09 (Nat.digitChar k) = true := by
  revert k
  decide

theorem toDigitsCore_all_digits :
    ∀ (fuel n : Nat) (ds : List Char), (∀ c ∈ ds, isDigit09 c = true) →
      ∀ c ∈ Nat.toDigitsCore 10 fuel n ds, isDigit09 c = true := by
  intro fuel
  induction fuel with
  | zero => intro n ds h; simpa [Nat.toDigitsCore] using h
  | succ fuel ih =>
    intro n ds h
    have hd : ∀ c ∈ Nat.digitChar (n % 10) :: ds, isDigit09 c = true := by
      intro c hc
      rcases List.mem_cons.1 hc with rfl | hc
      · exact isDigit09_digitChar _ (Nat.mod_lt _ (by decide))
      · exact h c hc
    rw [Nat.toDigitsCore]
    split
    · exact hd
    · exact ih _ _ hd

theorem toDigitsCore_ne_nil :
    ∀ (fuel n : Nat) (ds : List Char), ds ≠ [] → Nat.toDigitsCore 10 fuel n ds ≠ [] := by
  intro fuel
  induction fuel with
  | zero => intro n ds h; simpa [Nat.toDigitsCore] using h
  | succ fuel ih =>
    intro n ds h
    rw [Nat.toDigitsCore]
    split
    · simp
    · exact ih _ _ (by simp)

theorem toString_nat_digits (n : Nat) :
    (toString n).data ≠ [] ∧ ∀ c ∈ (toString n).data, isDigit09 c = true := by
  have e : (toString n).data = Nat.toDigitsCore 10 (n + 1) n [] := rfl
  rw [e]
  constructor
  · rw [Nat.toDigitsCore]
    split
    · simp
    · exact toDigitsCore_ne_nil _ _ _ (by simp)
  · exact toDigitsCore_all_digits _ _ _ (by simp)

theorem takeWhile_digits_point (frac : List Char) :
    ∀ ds : List Char, (∀ c ∈ ds, isDigit09 c = true) →
      (ds ++ '.' :: frac).takeWhile isDigit09 = ds ∧
      (ds ++ '.' :: frac).dropWhile isDigit09 = '.' :: frac := by
  intro ds
  induction ds with
  | nil =>
    intro _
    have hp : isDigit09 '.' = false := by decide
    simp [List.takeWhile, List.dropWhile, hp]
  | cons c cs ih =>
    intro h
    have hc : isDigit09 c = true := h c (by simp)
    obtain ⟨h1, h2⟩ := ih (fun x hx => h x (List.mem_cons_of_mem _ hx))
    simp only [List.cons_append, List.takeWhile_cons, List.dropWhile_cons, hc, if_true]
    exact ⟨by rw [h1], h2⟩

theorem isDecimalNumber_of_parts (neg : Bool) (ds frac : List Char) (hne : ds ≠ [])
    (hds : ∀ c ∈ ds, isDigit09 c = true) (hfne : frac ≠ [])
    (hfrac : ∀ c ∈ frac, isDigit09 c = true) :
    isDecimalNumber (String.mk ((if neg = true then ['-'] else []) ++ ds ++ '.' :: frac)) = true := by
  obtain ⟨htake, hdrop⟩ := takeWhile_digits_point frac ds hds
  have hfall : frac.all isDigit09 = true := by simpa using hfrac
  have hbody : (!(List.takeWhile isDigit09 (ds ++ '.' :: frac)).isEmpty &&
      match List.dropWhile isDigit09 (ds ++ '.' :: frac) with
      | [] => true
      | '.' :: frac => !frac.isEmpty && frac.all isDigit09
      | _ => false) = true := by
    rw [htake, hdrop]
    cases frac with
    | nil => exact absurd rfl hfne
    | cons f fs =>
      cases ds with
      | nil => exact absurd rfl hne
      | cons c cs => simp [hfall]
  cases neg with
  | true =>
    unfold isDecimalNumber
    simp only [if_true, List.cons_append, List.nil_append, List.append_assoc]
    exact hbody
  | false =>
    cases ds with
    | nil => exact absurd rfl hne
    | cons c cs =>
      have hc : isDigit09 c = true := hds c (by simp)
      have h1 : c ≠ '-' := by
        intro e; rw [e] at hc; revert hc; decide
      have h2 : c ≠ '+' := by
        intro e; rw [e] at hc; revert hc; decide
      unfold isDecimalNumber
      simp only [Bool.false_eq_true, if_false, List.nil_append, List.append_assoc]
      split
      · rename_i t heq
        simp at heq
        exact absurd heq.1 h1
      · rename_i t heq
        simp at heq
        exact absurd heq.1 h2
      · exact hbody

theorem formatFloat2_finite_data (neg : Bool) (n d : Nat) :
    formatFloat2 (Float64.finite neg n d)
      = String.mk ((if neg = true then ['-'] else [])
          ++ (toString (roundHalfEven (n * 100) d / 100)).data
          ++ '.' :: [Nat.digitChar (roundHalfEven (n * 100) d / 10 % 10),
              Nat.digitChar (roundHalfEven (n * 100) d % 10)]) := by
  apply String.ext
  cases neg <;> simp [formatFloat2, String.data_append]

theorem isDecimalNumber_formatFloat2 (v : Float64) :
    isDecimalNumber (formatFloat2 v) = v.isFinite := by
  cases v with
  | finite neg n d =>
    rw [formatFloat2_finite_data]
    exact isDecimalNumber_of_parts neg _ _ (toString_nat_digits _).1 (toString_nat_digits _).2
      (by simp)
      (by
        intro c hc
        simp only [List.mem_cons, List.mem_singleton, List.mem_nil_iff, or_false] at hc
        rcases hc with rfl | rfl
        · exact isDigit09_digitChar _ (Nat.mod_lt _ (by decide))
        · exact isDigit09_digitChar _ (Nat.mod_lt _ (by decide)))
  | inf neg => cases neg <;> decide
  | nan => decide

theorem isDecimalNumber_queryDuration (d : Int) : isDecimalNumber (queryDuration d) = true := by
  obtain ⟨neg, a, b, h⟩ := queryDurationFloat_finite d
  rw [queryDuration, isDecimalNumber_formatFloat2, h]
  rfl

/-- C9, amended: whatever the provider or proxy answers, the `.duration` value
of a probe is "nan" or the `%.2f` rendering of the elapsed milliseconds, which
is a decimal number; the `.value` of an InfluxDB probe is "nan", the empty
string, or a string of ASCII digits (a decimal number); the `.value` of a CAQL
probe is "nan" or a text containing neither `,` nor `]`, which need not be a
number; and the value of a Result offered by the cloud-metric executor is the
`%.2f` rendering of the first value of the first metric data result, which is
a decimal number exactly when that `float64` is finite and is "+Inf", "-Inf"
or "NaN" otherwise. -/
theorem executor_values_shape (now : Int)
    (resp : Except String (List (MetricDataResult Float64)))
    (resultMetricName awsMetricName metricNamespace dimensionName dimensionValue stat : String)
    (SandboxID : String) (queryStartTime endTime : Int)
    (http : Except String Response) (p : String) (ch : List Result) :
    (∃ d v : String,
      (SimpleCaqlQuery SandboxID queryStartTime endTime queryDuration http p ch).offered.map
          Result.Value = [d, v] ∧
      (d = "nan" ∨
        (d = queryDuration (endTime - queryStartTime) ∧ isDecimalNumber d = true)) ∧
      (v = "nan" ∨ (',' ∉ v.data ∧ ']' ∉ v.data))) ∧
    (∃ d v : String,
      (SimpleInfluxDBQuery SandboxID queryStartTime endTime queryDuration http p ch).offered.map
          Result.Value = [d, v] ∧
      (d = "nan" ∨
        (d = queryDuration (endTime - queryStartTime) ∧ isDecimalNumber d = true)) ∧
      (v = "nan" ∨ v = "" ∨ (v.data.all isDigit09 = true ∧ isDecimalNumber v = true))) ∧
    (∀ r ∈ ((GrabAWSmetric formatFloat2 now resp resultMetricName awsMetricName metricNamespace
        dimensionName dimensionValue stat ch).map (fun o => o.offered)).getD [],
      ∃ (first : MetricDataResult Float64) (rest : List (MetricDataResult Float64))
        (v : Float64) (vs : List Float64),
        resp = Except.ok (first :: rest) ∧ first.Values = v :: vs ∧
        r.Value = formatFloat2 v ∧ isDecimalNumber r.Value = v.isFinite ∧
        (v.isFinite = false → r.Value = "+Inf" ∨ r.Value = "-Inf" ∨ r.Value = "NaN")) := by
  refine ⟨?_, ?_, ?_⟩
  · rw [SimpleCaqlQuery_offered]
    refine ⟨_, _, rfl, ?_, ?_⟩
    · by_cases he : (doProxiedCAQLHTTPQuery http).2 = none
      · rw [if_pos he]
        exact Or.inr ⟨rfl, isDecimalNumber_queryDuration _⟩
      · rw [if_neg he]
        exact Or.inl rfl
    · by_cases he : (doProxiedCAQLHTTPQuery http).2 = none
      · rw [if_pos he]
        exact caql_value_shape http
      · rw [if_neg he]
        exact Or.inl rfl
  · rw [SimpleInfluxDBQuery_offered]
    refine ⟨_, _, rfl, ?_, ?_⟩
    · by_cases he : (doProxiedInfluxDBHTTPQuery http).2 = none
      · rw [if_pos he]
        exact Or.inr ⟨rfl, isDecimalNumber_queryDuration _⟩
      · rw [if_neg he]
        exact Or.inl rfl
    · by_cases he : (doProxiedInfluxDBHTTPQuery http).2 = none
      · rw [if_pos he]
        rcases influx_value_shape http with h | h
        · exact Or.inl h
        · right
          by_cases hempty : (doProxiedInfluxDBHTTPQuery http).1.data = []
          · left
            exact String.ext hempty
          · right
            exact ⟨h, isDecimalNumber_of_digits _ hempty h⟩
      · rw [if_neg he]
        exact Or.inl rfl
  · cases hg : GrabAWSmetric formatFloat2 now resp resultMetricName awsMetricName metricNamespace
        dimensionName dimensionValue stat ch with
    | none => simp
    | some out =>
      intro r hr
      obtain ⟨first, rest, v, vs, h1, h2, h3⟩ :=
        GrabAWSmetric_offered_value formatFloat2 now resp resultMetricName awsMetricName
          metricNamespace dimensionName dimensionValue stat ch out hg r (by simpa using hr)
      refine ⟨first, rest, v, vs, h1, h2, h3, ?_, ?_⟩
      · rw [h3]
        exact isDecimalNumber_formatFloat2 v
      · intro hv
        rw [h3]
        cases v with
        | finite neg n d => cases hv
        | inf neg => cases neg <;> simp [formatFloat2]
        | nan => simp [formatFloat2]

/-- C9 amended, on an InfluxDB probe answered after 250 ms, whose Results carry
"250.00" and the last value of the series, and on a cloud-metric call whose
first datapoint is 12.5, whose Result carries "12.50". -/
theorem executor_values_shape_witness :
    (∃ d v : String,
      (SimpleInfluxDBQuery "sb" 5000000000 5250000000 queryDuration
          (Except.ok ⟨200, [], Except.ok "\x7b\"results\":[\x7b\"series\":[\x7b\"values\":[[1571,42]]\x7d]\x7d]\x7d"⟩)
          "metrics-count" []).offered.map Result.Value = [d, v] ∧
      (d = "nan" ∨
        (d = queryDuration ((5250000000 : Int) - 5000000000) ∧ isDecimalNumber d = true)) ∧
      (v = "nan" ∨ v = "" ∨ (v.data.all isDigit09 = true ∧ isDecimalNumber v = true))) ∧
    (SimpleInfluxDBQuery "sb" 5000000000 5250000000 queryDuration
        (Except.ok ⟨200, [], Except.ok "\x7b\"results\":[\x7b\"series\":[\x7b\"values\":[[1571,42]]\x7d]\x7d]\x7d"⟩)
        "metrics-count" []).offered.map Result.Value = ["250.00", "42"] ∧
    (∃ (first : MetricDataResult Float64) (rest : List (MetricDataResult Float64))
        (v : Float64) (vs : List Float64),
      (Except.ok [⟨[Float64.finite false 25 2], [1699999940000000000]⟩] :
          Except String (List (MetricDataResult Float64))) = Except.ok (first :: rest) ∧
      first.Values = v :: vs ∧
      (⟨1699999940, "sb.infra.tsdb-asg-1.cpu.utilization.avg", "12.50", ""⟩ : Result).Value
        = formatFloat2 v ∧
      isDecimalNumber
          (⟨1699999940, "sb.infra.tsdb-asg-1.cpu.utilization.avg", "12.50", ""⟩ : Result).Value
        = v.isFinite ∧
      (v.isFinite = false →
        (⟨1699999940, "sb.infra.tsdb-asg-1.cpu.utilization.avg", "12.50", ""⟩ : Result).Value
            = "+Inf" ∨
          (⟨1699999940, "sb.infra.tsdb-asg-1.cpu.utilization.avg", "12.50", ""⟩ : Result).Value
            = "-Inf" ∨
          (⟨1699999940, "sb.infra.tsdb-asg-1.cpu.utilization.avg", "12.50", ""⟩ : Result).Value
            = "NaN")) :=
  ⟨(executor_values_shape 1700000000000000000
      (Except.ok [⟨[Float64.finite false 25 2], [1699999940000000000]⟩])
      "sb.infra.tsdb-asg-1.cpu.utilization.avg" "CPUUtilization" "AWS/EC2"
      "AutoScalingGroupName" "asg-a" "Average" "sb" 5000000000 5250000000
      (Except.ok ⟨200, [], Except.ok "\x7b\"results\":[\x7b\"series\":[\x7b\"values\":[[1571,42]]\x7d]\x7d]\x7d"⟩)
      "metrics-count" []).2.1,
    by decide,
    (executor_values_shape 1700000000000000000
      (Except.ok [⟨[Float64.finite false 25 2], [1699999940000000000]⟩])
      "sb.infra.tsdb-asg-1.cpu.utilization.avg" "CPUUtilization" "AWS/EC2"
      "AutoScalingGroupName" "asg-a" "Average" "sb" 5000000000 5250000000
      (Except.ok ⟨200, [], Except.ok "\x7b\"results\":[\x7b\"series\":[\x7b\"values\":[[1571,42]]\x7d]\x7d]\x7d"⟩)
      "metrics-count" []).2.2
      ⟨1699999940, "sb.infra.tsdb-asg-1.cpu.utilization.avg", "12.50", ""⟩ (by decide)⟩

/-! ### Session refresh -/

theorem Atoi_of_digits (ds : String) (hne : ds.data ≠ []) (hall : ds.data.all isDigit09 = true)
    (hlt : decimalValue ds.data < 2 ^ 63) : Atoi ds = some (decimalValue ds.data : Int) := by
  have hall' : ∀ x ∈ ds.data, isDigit09 x = true := by simpa using hall
  have hrange : -(2 : Int) ^ 63 ≤ (decimalValue ds.data : Int) ∧
      (decimalValue ds.data : Int) < (2 : Int) ^ 63 := by
    constructor
    · have : (0 : Int) ≤ (decimalValue ds.data : Int) := Int.natCast_nonneg _
      omega
    · exact_mod_cast hlt
  rcases hd : ds.data with _ | ⟨c, cs⟩
  · exact absurd hd hne
  · have hc : isDigit09 c = true := hall' c (by simp [hd])
    have h1 : c ≠ '-' := by
      intro e; rw [e] at hc; revert hc; decide
    have h2 : c ≠ '+' := by
      intro e; rw [e] at hc; revert hc; decide
    rw [hd] at hall hrange
    unfold Atoi
    rw [hd]
    split
    rename_i neg t heq
    have hnt : neg = false ∧ t = c :: cs := by
      split at heq
      · rename_i t' hcs
        exact absurd (List.cons.inj hcs).1 h1
      · rename_i t' hcs
        exact absurd (List.cons.inj hcs).1 h2
      · rename_i hcs
        cases heq
        exact ⟨rfl, rfl⟩
    obtain ⟨rfl, rfl⟩ := hnt
    rw [if_neg (by simp [hall])]
    exact if_pos hrange

theorem wrapInt64_of_fits (x : Int) (h0 : 0 ≤ x) (h1 : x < 2 ^ 63) : wrapInt64 x = x := by
  unfold wrapInt64
  have : (x + 2 ^ 63) % 2 ^ 64 = x + 2 ^ 63 := Int.emod_eq_of_lt (by omega) (by omega)
  omega

theorem login_timer_of_maxage (grafanaCookie : String) (status : Int) (headerCookie : String)
    (others : List String) (body : Except String String) (whole tok ds : String)
    (hs : status < 400)
    (hmatch : cookieRegexp.FindStringSubmatch headerCookie = [whole, tok, ds]) :
    login grafanaCookie none (Except.ok ⟨status, headerCookie :: others, body⟩)
      = (match Atoi ds with
         | none =>
           ⟨none, tok, [wrapInt64 (5 * timeSecond)],
             [LogEntry.trace "Grafana login() start",
              LogEntry.warn "Grafana: Unexpected maxage value in the cookie response header. Defaulting to 5s.",
              LogEntry.debug ("Grafana: Successfully logged in. Cookie valid for "
                ++ toString (5 : Int) ++ " seconds"),
              LogEntry.trace "Grafana login() end"]⟩
         | some v =>
           if v < 5 then
             ⟨none, tok, [wrapInt64 (5 * timeSecond)],
               [LogEntry.trace "Grafana login() start",
                LogEntry.warn "Grafana: Unexpected maxage value in the cookie response header. Defaulting to 5s.",
                LogEntry.debug ("Grafana: Successfully logged in. Cookie valid for "
                  ++ toString (5 : Int) ++ " seconds"),
                LogEntry.trace "Grafana login() end"]⟩
           else
             ⟨none, tok, [wrapInt64 (v * timeSecond)],
               [LogEntry.trace "Grafana login() start",
                LogEntry.debug ("Grafana: Successfully logged in. Cookie valid for "
                  ++ toString v ++ " seconds"),
                LogEntry.trace "Grafana login() end"]⟩) := by
  have h : ¬ status ≥ 400 := by omega
  unfold login
  simp only [h, hmatch, if_false, List.length_cons, List.length_nil]
  rw [if_neg (by omega)]
  cases ha : Atoi ds with
  | none => simp [ha]
  | some v =>
    by_cases hv : v < 5 <;> simp [ha, hv]

/-- C10: for a login answered with a status below 400 whose first `Set-Cookie`
header matches the cookie pattern with a numeric max-age `m` (a non-empty digit
string denoting `m`), login succeeds and arms exactly one timer: of 5 seconds
when `m < 5`, and of `m` seconds when `m ≥ 5` and `m` seconds fit the timer's
signed 64-bit nanosecond range. -/
theorem login_delay_is_maxage_floored_at_five (grafanaCookie : String) (status : Int)
    (headerCookie : String) (others : List String) (body : Except String String)
    (whole tok ds : String) (m : Nat)
    (hs : status < 400)
    (hmatch : cookieRegexp.FindStringSubmatch headerCookie = [whole, tok, ds])
    (hne : ds.data ≠ []) (hdigits : ds.data.all isDigit09 = true)
    (hm : decimalValue ds.data = m) :
    (m < 5 →
      (login grafanaCookie none (Except.ok ⟨status, headerCookie :: others, body⟩)).timers
          = [5 * 1000000000] ∧
      (login grafanaCookie none (Except.ok ⟨status, headerCookie :: others, body⟩)).err = none) ∧
    (5 ≤ m → (m : Int) * 1000000000 < 2 ^ 63 →
      (login grafanaCookie none (Except.ok ⟨status, headerCookie :: others, body⟩)).timers
          = [(m : Int) * 1000000000] ∧
      (login grafanaCookie none (Except.ok ⟨status, headerCookie :: others, body⟩)).err = none) := by
  rw [login_timer_of_maxage grafanaCookie status headerCookie others body whole tok ds hs hmatch]
  constructor
  · intro hlt
    have hfit : decimalValue ds.data < 2 ^ 63 := by rw [hm]; omega
    rw [Atoi_of_digits ds hne hdigits hfit, hm]
    have hv : (m : Int) < 5 := by exact_mod_cast hlt
    simp only [hv, if_true]
    exact ⟨by decide, trivial⟩
  · intro hge hfits
    have hfit : decimalValue ds.data < 2 ^ 63 := by
      rw [hm]
      have : (m : Int) < 2 ^ 63 := by omega
      exact_mod_cast this
    rw [Atoi_of_digits ds hne hdigits hfit, hm]
    have hv : ¬ (m : Int) < 5 := by
      have : (5 : Int) ≤ m := by exact_mod_cast hge
      omega
    simp only [hv, if_false]
    refine ⟨?_, trivial⟩
    rw [timeSecond, wrapInt64_of_fits _ (by positivity) hfits]

/-- C10, for a session cookie with `Max-Age=2`: the timer is armed for 5 seconds. -/
theorem login_delay_is_maxage_floored_at_five_witness :
    ((200 : Int) < 400 ∧
      cookieRegexp.FindStringSubmatch
          "grafana_session=abc123; Path=/; Max-Age=2; HttpOnly; SameSite=Lax"
        = ["grafana_session=abc123; Path=/; Max-Age=2", "grafana_session=abc123", "2"] ∧
      decimalValue "2".data = 2) ∧
    (login "tdb" none (Except.ok ⟨200,
        ["grafana_session=abc123; Path=/; Max-Age=2; HttpOnly; SameSite=Lax"],
        Except.ok ""⟩)).timers = [5 * 1000000000] :=
  ⟨⟨by decide, by decide, by decide⟩,
    ((login_delay_is_maxage_floored_at_five "tdb" 200
      "grafana_session=abc123; Path=/; Max-Age=2; HttpOnly; SameSite=Lax" [] (Except.ok "")
      "grafana_session=abc123; Path=/; Max-Age=2" "grafana_session=abc123" "2" 2
      (by decide) (by decide) (by decide) (by decide) (by decide)).1 (by decide)).1⟩

theorem matchHere_infix_of_lits (w : List Char) (post : List Atom) (pre : List Atom) :
    ∀ (s : List Char) (m : List (List Char)),
      matchHere (pre ++ (w.map Atom.lit ++ post)) s = some m → w <:+: s := by
  induction pre with
  | nil =>
    intro s m h
    rw [List.nil_append, matchHere_lits_append] at h
    by_cases hp : w <+: s
    · exact hp.isInfix
    · rw [if_neg hp] at h; cases h
  | cons a pre ih =>
    intro s m h
    cases a with
    | lit c =>
      cases s with
      | nil => rw [List.cons_append, matchHere_lit_nil] at h; cases h
      | cons x xs =>
        rw [List.cons_append, matchHere_lit_cons] at h
        by_cases hx : x = c
        · rw [if_pos hx] at h
          cases hr : matchHere (pre ++ (w.map Atom.lit ++ post)) xs with
          | none => rw [hr] at h; cases h
          | some m' => exact (ih xs m' hr).trans (List.suffix_cons x xs).isInfix
        · rw [if_neg hx] at h; cases h
    | star cls =>
      rw [List.cons_append, matchHere_star] at h
      obtain ⟨k, _, hf⟩ := List.exists_of_findSome?_eq_some h
      cases hr : matchHere (pre ++ (w.map Atom.lit ++ post)) (s.drop k) with
      | none => rw [hr] at hf; cases hf
      | some m' => exact (ih _ m' hr).trans (List.drop_suffix k s).isInfix

theorem cookieRegexp_no_match_without_maxage (headerCookie : String)
    (h : ¬ "Max-Age=".data <:+: headerCookie.data) :
    cookieRegexp.FindStringSubmatch headerCookie = [] := by
  have hatoms : cookieRegexp.atoms
      = (lits "grafana_session=" ++ [Atom.star (fun c => c != ';'), Atom.star (fun c => c != '\n')])
        ++ ("Max-Age=".data.map Atom.lit ++ [Atom.star isDigit09]) := by
    simp [cookieRegexp, lits]
  have hfind : findLeftmost cookieRegexp.atoms headerCookie.data = none := by
    apply findLeftmost_none
    intro t ht
    cases hm : matchHere cookieRegexp.atoms t with
    | none => rfl
    | some m =>
      rw [hatoms] at hm
      exact absurd ((matchHere_infix_of_lits _ _ _ t m hm).trans ht.isInfix) h
  rw [Regexp.FindStringSubmatch, hfind]

theorem login_no_match (grafanaCookie : String) (status : Int) (headerCookie : String)
    (others : List String) (body : Except String String) (hs : status < 400)
    (hmatch : cookieRegexp.FindStringSubmatch headerCookie = []) :
    login grafanaCookie none (Except.ok ⟨status, headerCookie :: others, body⟩)
      = ⟨some ⟨"unexpected match length for login cookie. response.Header[\"Set-Cookie\"]=["
            ++ " ".intercalate (headerCookie :: others) ++ "]", none⟩,
          grafanaCookie, [],
          [LogEntry.trace "Grafana login() start", LogEntry.trace "Grafana login() end"]⟩ := by
  have h : ¬ status ≥ 400 := by omega
  unfold login
  simp [h, hmatch]

/-- C11, refuted as stated: a login answered with status 200 whose session
cookie carries a `grafana_session` token but no `Max-Age` attribute fails: the
cookie pattern does not match, login returns an initialization error, keeps the
previous credential and arms no timer. -/
theorem login_fails_when_maxage_attribute_missing :
    cookieRegexp.FindStringSubmatch "grafana_session=abc123; Path=/; HttpOnly; SameSite=Lax" = [] ∧
    (login "tdb" none (Except.ok ⟨200,
        ["grafana_session=abc123; Path=/; HttpOnly; SameSite=Lax"], Except.ok ""⟩)).err
      = some ⟨"unexpected match length for login cookie. response.Header[\"Set-Cookie\"]=[grafana_session=abc123; Path=/; HttpOnly; SameSite=Lax]", none⟩ ∧
    (login "tdb" none (Except.ok ⟨200,
        ["grafana_session=abc123; Path=/; HttpOnly; SameSite=Lax"], Except.ok ""⟩)).grafanaCookie
      = "tdb" ∧
    (login "tdb" none (Except.ok ⟨200,
        ["grafana_session=abc123; Path=/; HttpOnly; SameSite=Lax"], Except.ok ""⟩)).timers = [] := by
  decide

/-- C11, amended: for a login answered with a status below 400 whose first
`Set-Cookie` header matches the cookie pattern (a `grafana_session` token and,
later, `Max-Age=`) with a max-age that is not a number (no digits follow
`Max-Age=`, or they exceed the `int` range), login returns no error, stores the
session token and arms one timer of 5 seconds; when the header has no `Max-Age=`
at all, the pattern does not match and login returns an error, keeps the stored
credential and arms no timer. -/
theorem login_non_numeric_maxage_floors_missing_maxage_fails (grafanaCookie : String)
    (status : Int) (headerCookie : String) (others : List String) (body : Except String String)
    (hs : status < 400) :
    (∀ whole tok ds : String,
      cookieRegexp.FindStringSubmatch headerCookie = [whole, tok, ds] → Atoi ds = none →
      (login grafanaCookie none (Except.ok ⟨status, headerCookie :: others, body⟩)).err = none ∧
      (login grafanaCookie none (Except.ok ⟨status, headerCookie :: others, body⟩)).grafanaCookie
        = tok ∧
      (login grafanaCookie none (Except.ok ⟨status, headerCookie :: others, body⟩)).timers
        = [5 * 1000000000]) ∧
    (¬ "Max-Age=".data <:+: headerCookie.data →
      (login grafanaCookie none (Except.ok ⟨status, headerCookie :: others, body⟩)).err ≠ none ∧
      (login grafanaCookie none (Except.ok ⟨status, headerCookie :: others, body⟩)).grafanaCookie
        = grafanaCookie ∧
      (login grafanaCookie none (Except.ok ⟨status, headerCookie :: others, body⟩)).timers = []) := by
  constructor
  · intro whole tok ds hmatch hatoi
    rw [login_timer_of_maxage grafanaCookie status headerCookie others body whole tok ds hs hmatch,
      hatoi]
    refine ⟨rfl, rfl, ?_⟩
    show [wrapInt64 (5 * timeSecond)] = [5 * 1000000000]
    decide
  · intro hno
    rw [login_no_match grafanaCookie status headerCookie others body hs
      (cookieRegexp_no_match_without_maxage headerCookie hno)]
    exact ⟨by simp, rfl, rfl⟩

/-- C11 amended, on a cookie with `Max-Age=session` and on a cookie without
`Max-Age`. -/
theorem login_non_numeric_maxage_floors_missing_maxage_fails_witness :
    ((200 : Int) < 400 ∧
      cookieRegexp.FindStringSubmatch "grafana_session=abc123; Path=/; Max-Age=session; HttpOnly"
        = ["grafana_session=abc123; Path=/; Max-Age=", "grafana_session=abc123", ""] ∧
      Atoi "" = none ∧
      ¬ "Max-Age=".data <:+: "grafana_session=abc123; Path=/; HttpOnly".data) ∧
    ((login "tdb" none (Except.ok ⟨200,
        ["grafana_session=abc123; Path=/; Max-Age=session; HttpOnly"], Except.ok ""⟩)).err = none ∧
      (login "tdb" none (Except.ok ⟨200,
        ["grafana_session=abc123; Path=/; Max-Age=session; HttpOnly"], Except.ok ""⟩)).grafanaCookie
        = "grafana_session=abc123" ∧
      (login "tdb" none (Except.ok ⟨200,
        ["grafana_session=abc123; Path=/; Max-Age=session; HttpOnly"], Except.ok ""⟩)).timers
        = [5 * 1000000000]) ∧
    (login "tdb" none (Except.ok ⟨200,
        ["grafana_session=abc123; Path=/; HttpOnly"], Except.ok ""⟩)).timers = [] :=
  ⟨⟨by decide, by decide, by decide, by decide⟩,
    (login_non_numeric_maxage_floors_missing_maxage_fails "tdb" 200
      "grafana_session=abc123; Path=/; Max-Age=session; HttpOnly" [] (Except.ok "") (by decide)).1
      "grafana_session=abc123; Path=/; Max-Age=" "grafana_session=abc123" "" (by decide) (by decide),
    ((login_non_numeric_maxage_floors_missing_maxage_fails "tdb" 200
      "grafana_session=abc123; Path=/; HttpOnly" [] (Except.ok "") (by decide)).2 (by decide)).2.2⟩

/-- C12: a login attempt that ends in a transport failure, or in a response
with status code 400 or above, returns an error, leaves the stored session
credential exactly as it was before the call, and arms no timer for a future
login. -/
theorem login_failed_attempt_keeps_credential (grafanaCookie : String)
    (newRequestErr : Option String) (transportErr : String) (response : Response)
    (hstatus : response.StatusCode ≥ 400) :
    ((login grafanaCookie newRequestErr (Except.error transportErr)).err ≠ none ∧
      (login grafanaCookie newRequestErr (Except.error transportErr)).grafanaCookie
        = grafanaCookie ∧
      (login grafanaCookie newRequestErr (Except.error transportErr)).timers = []) ∧
    ((login grafanaCookie newRequestErr (Except.ok response)).err ≠ none ∧
      (login grafanaCookie newRequestErr (Except.ok response)).grafanaCookie = grafanaCookie ∧
      (login grafanaCookie newRequestErr (Except.ok response)).timers = []) := by
  unfold login
  cases newRequestErr with
  | some e => simp
  | none => simp [hstatus]

/-- C12, for a timed-out request and for a 401 answer that carries a cookie. -/
theorem login_failed_attempt_keeps_credential_witness :
    (401 : Int) ≥ 400 ∧
    (login "grafana_session=old" none (Except.error "context deadline exceeded")).grafanaCookie
      = "grafana_session=old" ∧
    (login "grafana_session=old" none
        (Except.ok ⟨401, ["grafana_session=new; Max-Age=60"], Except.ok ""⟩)).timers = [] :=
  ⟨by decide,
    (login_failed_attempt_keeps_credential "grafana_session=old" none "context deadline exceeded"
      ⟨401, ["grafana_session=new; Max-Age=60"], Except.ok ""⟩ (by decide)).1.2.1,
    (login_failed_attempt_keeps_credential "grafana_session=old" none "context deadline exceeded"
      ⟨401, ["grafana_session=new; Max-Age=60"], Except.ok ""⟩ (by decide)).2.2.2⟩

/-- C13, refuted as stated: a login answered with status 200 and no
`Set-Cookie` header returns success, keeps the previous credential and arms no
timer, so no future login is scheduled. -/
theorem login_success_without_cookie_schedules_nothing :
    (login "tdb" none (Except.ok ⟨200, [], Except.ok ""⟩)).err = none ∧
    (login "tdb" none (Except.ok ⟨200, [], Except.ok ""⟩)).timers = [] ∧
    (login "tdb" none (Except.ok ⟨200, [], Except.ok ""⟩)).grafanaCookie = "tdb" := by
  decide

/-- C13, amended: a call of login arms at most one timer, and none when it
returns an error; a call that returns success was answered with a status below
400 and either the response carried a `Set-Cookie` header and exactly one
future login is scheduled, or it carried none and no future login is scheduled
(the stored credential staying as it was). -/
theorem login_success_schedules_once_iff_cookie (grafanaCookie : String)
    (newRequestErr : Option String) (http : Except String Response) :
    (login grafanaCookie newRequestErr http).timers.length ≤ 1 ∧
    ((login grafanaCookie newRequestErr http).err ≠ none →
      (login grafanaCookie newRequestErr http).timers = []) ∧
    ((login grafanaCookie newRequestErr http).err = none →
      ∃ response : Response, newRequestErr = none ∧ http = Except.ok response ∧
        response.StatusCode < 400 ∧
        ((response.SetCookie ≠ [] ∧ (login grafanaCookie newRequestErr http).timers.length = 1) ∨
         (response.SetCookie = [] ∧ (login grafanaCookie newRequestErr http).timers = [] ∧
          (login grafanaCookie newRequestErr http).grafanaCookie = grafanaCookie))) := by
  cases newRequestErr with
  | some e => simp [login]
  | none =>
    rcases http with e | ⟨status, cookies, body⟩
    · simp [login]
    · by_cases hs : status ≥ 400
      · simp [login, hs]
      · cases cookies with
        | nil =>
          have hlt : status < 400 := by omega
          simp [login, hs, hlt]
        | cons headerCookie others =>
          by_cases hm : (cookieRegexp.FindStringSubmatch headerCookie).length < 3
          · simp [login, hs, hm]
          · have hlt : status < 400 := by omega
            have hone : (login grafanaCookie none
                (Except.ok ⟨status, headerCookie :: others, body⟩)).timers.length = 1 := by
              unfold login
              simp [hs, hm]
            have herr : (login grafanaCookie none
                (Except.ok ⟨status, headerCookie :: others, body⟩)).err = none := by
              unfold login
              simp [hs, hm]
            refine ⟨by omega, fun h => absurd herr h, fun _ => ?_⟩
            exact ⟨_, rfl, rfl, hlt, Or.inl ⟨by simp, hone⟩⟩

/-- C13 amended, on a login answered with a cookie of `Max-Age=60`: one timer
is armed. -/
theorem login_success_schedules_once_iff_cookie_witness :
    (login "tdb" none (Except.ok ⟨200, ["grafana_session=abc123; Path=/; Max-Age=60"],
        Except.ok ""⟩)).err = none ∧
    (login "tdb" none (Except.ok ⟨200, ["grafana_session=abc123; Path=/; Max-Age=60"],
        Except.ok ""⟩)).timers.length ≤ 1 ∧
    (login "tdb" none (Except.ok ⟨200, ["grafana_session=abc123; Path=/; Max-Age=60"],
        Except.ok ""⟩)).timers = [60 * 1000000000] :=
  ⟨by decide,
    (login_success_schedules_once_iff_cookie "tdb" none
      (Except.ok ⟨200, ["grafana_session=abc123; Path=/; Max-Age=60"], Except.ok ""⟩)).1,
    by decide⟩

/-! ### Infrastructure discovery -/

theorem block_index_lt (A I found index : Nat) (hf : found < A) (hi : index < I) :
    found * I + index < A * I := by
  have h1 : (found + 1) * I ≤ A * I := Nat.mul_le_mul_right I hf
  rw [Nat.succ_mul] at h1
  omega

theorem recordInstances_ok (A I found : Nat) (groupName : String) (hf : found < A) :
    ∀ (insts : List String) (index : Nat) (ids : List String) (lg : List LogEntry),
      ids.length = A * I →
      ∃ ids' lg', recordInstances I found groupName insts index ids lg = some (ids', lg') ∧
        ids'.length = A * I ∧
        ∀ j : Nat, ids'[j]? =
          if found * I + index ≤ j ∧ j < found * I + I ∧ j - (found * I + index) < insts.length
          then insts[j - (found * I + index)]? else ids[j]? := by
  intro insts
  induction insts with
  | nil =>
    intro index ids lg hlen
    exact ⟨ids, lg, rfl, hlen, fun j => by simp⟩
  | cons inst rest ih =>
    intro index ids lg hlen
    rw [recordInstances]
    by_cases hi : index < I
    · have hb : found * I + index < ids.length := by
        rw [hlen]; exact block_index_lt A I found index hf hi
      rw [if_pos hi]
      simp only [hb, if_true]
      obtain ⟨ids', lg', hrec, hlen', hget⟩ :=
        ih (index + 1) (ids.set (found * I + index) inst) lg (by simpa using hlen)
      refine ⟨ids', lg', hrec, hlen', ?_⟩
      intro j
      rw [hget j]
      by_cases hj : j = found * I + index
      · subst hj
        have h1 : ¬ (found * I + (index + 1) ≤ found * I + index ∧ found * I + index < found * I + I ∧
            found * I + index - (found * I + (index + 1)) < rest.length) := by omega
        have h2 : found * I + index ≤ found * I + index ∧ found * I + index < found * I + I ∧
            found * I + index - (found * I + index) < (inst :: rest).length := by
          simp; omega
        rw [if_neg h1, if_pos h2]
        simp [hb]
      · by_cases hc : found * I + (index + 1) ≤ j ∧ j < found * I + I ∧
            j - (found * I + (index + 1)) < rest.length
        · have h2 : found * I + index ≤ j ∧ j < found * I + I ∧
              j - (found * I + index) < (inst :: rest).length := by
            simp; omega
          rw [if_pos hc, if_pos h2]
          have : j - (found * I + index) = (j - (found * I + (index + 1))) + 1 := by omega
          rw [this, List.getElem?_cons_succ]
        · have h2 : ¬ (found * I + index ≤ j ∧ j < found * I + I ∧
              j - (found * I + index) < (inst :: rest).length) := by
            simp only [List.length_cons]; omega
          rw [if_neg hc, if_neg h2]
          exact List.getElem?_set_ne (Ne.symm hj)
    · rw [if_neg hi]
      obtain ⟨ids', lg', hrec, hlen', hget⟩ := ih (index + 1) ids
        (lg ++ [LogEntry.error ("found too many instances in ASG " ++ groupName ++ "*\n")]) hlen
      refine ⟨ids', lg', hrec, hlen', ?_⟩
      intro j
      rw [hget j]
      have h1 : ¬ (found * I + (index + 1) ≤ j ∧ j < found * I + I ∧
          j - (found * I + (index + 1)) < rest.length) := by omega
      have h2 : ¬ (found * I + index ≤ j ∧ j < found * I + I ∧
          j - (found * I + index) < (inst :: rest).length) := by omega
      rw [if_neg h1, if_neg h2]

theorem discoverEnd_fields (st : DiscoverState) (requests : List (Option String)) :
    (discoverEnd st requests).AsgNames = st.AsgNames ∧
    (discoverEnd st requests).InstanceIDs = st.InstanceIDs ∧
    (discoverEnd st requests).requests = requests ∧
    (discoverEnd st requests).outcome = Outcome.returned none :=
  ⟨rfl, rfl, rfl, rfl⟩

theorem processGroups_until_expected (pfx : String) (A I : Nat) (grp : AutoScalingGroup)
    (hgrp : stringsContains grp.AutoScalingGroupName pfx = true) :
    ∀ (pre : List AutoScalingGroup) (st : DiscoverState),
      st.AsgNames.length = A → st.InstanceIDs.length = A * I →
      st.foundAsgCount
        + (pre.filter (fun g => stringsContains g.AutoScalingGroupName pfx)).length + 1 = A →
      ∃ st' : DiscoverState, st'.foundAsgCount = A ∧ ∀ post : List AutoScalingGroup,
        processGroups pfx A I (pre ++ grp :: post) st = some (st', true) := by
  intro pre
  induction pre with
  | nil =>
    intro st hn hi hc
    simp only [List.filter_nil, List.length_nil, Nat.add_zero] at hc
    obtain ⟨ids', lg', hrec, _, _⟩ :=
      recordInstances_ok A I st.foundAsgCount grp.AutoScalingGroupName (by omega) grp.Instances 0
        st.InstanceIDs st.log hi
    refine ⟨⟨st.AsgNames.set st.foundAsgCount grp.AutoScalingGroupName, ids',
      st.foundAsgCount + 1, lg'⟩, hc, fun post => ?_⟩
    rw [List.nil_append, processGroups, if_pos hgrp, if_pos (by omega), hrec]
    simp only []
    rw [if_pos (by omega)]
  | cons h pre ih =>
    intro st hn hi hc
    by_cases hm : stringsContains h.AutoScalingGroupName pfx = true
    · have hfl : (h :: pre).filter (fun g => stringsContains g.AutoScalingGroupName pfx)
          = h :: pre.filter (fun g => stringsContains g.AutoScalingGroupName pfx) := by
        simp [List.filter_cons, hm]
      rw [hfl, List.length_cons] at hc
      obtain ⟨ids', lg', hrec, hlen', _⟩ :=
        recordInstances_ok A I st.foundAsgCount h.AutoScalingGroupName (by omega) h.Instances 0
          st.InstanceIDs st.log hi
      obtain ⟨st', hfound, hst'⟩ := ih
        ⟨st.AsgNames.set st.foundAsgCount h.AutoScalingGroupName, ids', st.foundAsgCount + 1, lg'⟩
        (by simpa using hn) hlen' (by simp only []; omega)
      refine ⟨st', hfound, fun post => ?_⟩
      rw [List.cons_append, processGroups, if_pos hm, if_pos (by omega), hrec]
      simp only []
      rw [if_neg (by omega)]
      exact hst' post
    · have hfl : (h :: pre).filter (fun g => stringsContains g.AutoScalingGroupName pfx)
          = pre.filter (fun g => stringsContains g.AutoScalingGroupName pfx) := by
        simp [List.filter_cons, hm]
      rw [hfl] at hc
      obtain ⟨st', hfound, hst'⟩ := ih st hn hi hc
      refine ⟨st', hfound, fun post => ?_⟩
      rw [List.cons_append, processGroups, if_neg hm]
      exact hst' post

/-- C16: with `A ≥ 1` expected groups, when the page being processed holds the
group `grp` whose name contains the sandbox prefix and which is the `A`-th such
group found, the groups listed after it on that page are not processed (the
state is the one reached by processing the page up to `grp` only) and discovery
ends there: the requests issued are those issued so far plus the one for this
page, whatever continuation token the provider returned with it. -/
theorem discovery_stops_at_expected_group_count (pfx : String) (A I : Nat)
    (provider : Nat → Option String → Except ProviderError DescribeAutoScalingGroupsOutput)
    (fuel page : Nat) (tok : Option String) (st : DiscoverState) (reqs : List (Option String))
    (pre post : List AutoScalingGroup) (grp : AutoScalingGroup) (next : Option String)
    (hnames : st.AsgNames.length = A) (hids : st.InstanceIDs.length = A * I)
    (hprov : provider page tok = Except.ok ⟨pre ++ grp :: post, next⟩)
    (hgrp : stringsContains grp.AutoScalingGroupName pfx = true)
    (hcount : st.foundAsgCount
      + (pre.filter (fun g => stringsContains g.AutoScalingGroupName pfx)).length + 1 = A) :
    ∃ st' : DiscoverState,
      processGroups pfx A I (pre ++ [grp]) st = some (st', true) ∧
      processGroups pfx A I (pre ++ grp :: post) st = some (st', true) ∧
      st'.foundAsgCount = A ∧
      discoverPages pfx A I provider (fuel + 1) page tok st reqs
        = discoverEnd st' (reqs ++ [tok]) ∧
      (discoverPages pfx A I provider (fuel + 1) page tok st reqs).requests = reqs ++ [tok] := by
  obtain ⟨st', hfound, hst'⟩ :=
    processGroups_until_expected pfx A I grp hgrp pre st hnames hids hcount
  have hend : discoverPages pfx A I provider (fuel + 1) page tok st reqs
      = discoverEnd st' (reqs ++ [tok]) := by
    rw [discoverPages, hprov]
    simp only []
    rw [hst' post]
    simp
  refine ⟨st', hst' [], hst' post, hfound, hend, ?_⟩
  rw [hend]; rfl

/-- C16, on the first page of a discovery expecting 2 groups: the page lists a
matching group, a foreign one, a second matching group and a third one, with a
continuation token; the third is not recorded and no second page is requested. -/
theorem discovery_stops_at_expected_group_count_witness :
    (stringsContains "sb_irondb-nodes-b" "sb_irondb-nodes" = true ∧
      0 + ([(⟨"sb_irondb-nodes-a", ["i-1"]⟩ : AutoScalingGroup), ⟨"other", []⟩].filter
        (fun g => stringsContains g.AutoScalingGroupName "sb_irondb-nodes")).length + 1 = 2) ∧
    (discoverPages "sb_irondb-nodes" 2 3
        (fun _ _ => Except.ok ⟨[⟨"sb_irondb-nodes-a", ["i-1"]⟩, ⟨"other", []⟩]
          ++ ⟨"sb_irondb-nodes-b", ["i-2"]⟩ :: [⟨"sb_irondb-nodes-c", ["i-3"]⟩], some "t1"⟩)
        (49 + 1) 0 none ⟨List.replicate 2 "", List.replicate (2 * 3) "", 0, []⟩ []).requests
      = [] ++ [none] ∧
    (discoverPages "sb_irondb-nodes" 2 3
        (fun _ _ => Except.ok ⟨[⟨"sb_irondb-nodes-a", ["i-1"]⟩, ⟨"other", []⟩]
          ++ ⟨"sb_irondb-nodes-b", ["i-2"]⟩ :: [⟨"sb_irondb-nodes-c", ["i-3"]⟩], some "t1"⟩)
        (49 + 1) 0 none ⟨List.replicate 2 "", List.replicate (2 * 3) "", 0, []⟩ []).InstanceIDs
      = ["i-1", "", "", "i-2", "", ""] :=
  ⟨⟨by decide, by decide⟩,
    (discovery_stops_at_expected_group_count "sb_irondb-nodes" 2 3
      (fun _ _ => Except.ok ⟨[⟨"sb_irondb-nodes-a", ["i-1"]⟩, ⟨"other", []⟩]
        ++ ⟨"sb_irondb-nodes-b", ["i-2"]⟩ :: [⟨"sb_irondb-nodes-c", ["i-3"]⟩], some "t1"⟩)
      49 0 none ⟨List.replicate 2 "", List.replicate (2 * 3) "", 0, []⟩ []
      [⟨"sb_irondb-nodes-a", ["i-1"]⟩, ⟨"other", []⟩] [⟨"sb_irondb-nodes-c", ["i-3"]⟩]
      ⟨"sb_irondb-nodes-b", ["i-2"]⟩ (some "t1") (by decide) (by decide) rfl (by decide)
      (by decide)).elim (fun _ h => h.2.2.2.2),
    by decide⟩

/-- C17: with 2 expected groups of 3 instances and a provider whose only page
lists no group with the sandbox prefix, discovery returns no error and leaves
every slot empty, but its log holds neither the "No ASG found" nor the
"No instances found" warning: the two tests look at the lengths of the
pre-sized slices, which are 2 and 6. -/
theorem discovery_without_match_logs_no_warning :
    (findSandboxIRONdbAutoscalingGroups "sb" "irondb" 2 3
        (fun _ _ => Except.ok ⟨[⟨"other-asg", ["i-0"]⟩], none⟩)).outcome = Outcome.returned none ∧
    (findSandboxIRONdbAutoscalingGroups "sb" "irondb" 2 3
        (fun _ _ => Except.ok ⟨[⟨"other-asg", ["i-0"]⟩], none⟩)).AsgNames = ["", ""] ∧
    (findSandboxIRONdbAutoscalingGroups "sb" "irondb" 2 3
        (fun _ _ => Except.ok ⟨[⟨"other-asg", ["i-0"]⟩], none⟩)).InstanceIDs
      = ["", "", "", "", "", ""] ∧
    (findSandboxIRONdbAutoscalingGroups "sb" "irondb" 2 3
        (fun _ _ => Except.ok ⟨[⟨"other-asg", ["i-0"]⟩], none⟩)).log
      = [LogEntry.trace "AWS findSandboxIRONdbAutoscalingGroups() start",
         LogEntry.debug "asgNames: [ ]\n",
         LogEntry.debug "instanceIDs: [     ]\n",
         LogEntry.trace "AWS findSandboxIRONdbAutoscalingGroups() end"] := by
  decide

/-! ### Schedulers -/

theorem flatMap_if_ne_empty {β : Type} (f : String → β) (l : List String) :
    l.flatMap (fun v => if v ≠ "" then [f v] else []) = (l.filter (fun v => v ≠ "")).map f := by
  induction l with
  | nil => rfl
  | cons v l ih =>
    rw [List.flatMap_cons, ih]
    by_cases hv : v = "" <;> simp [List.filter_cons, hv]

theorem launchedCloudTasks_cycle (tasks : List CloudMetricTask) (probes : List Action)
    (h : launchedCloudTasks probes = []) :
    launchedCloudTasks (tasks.map Action.goGrabAWSmetric ++ probes) = tasks := by
  unfold launchedCloudTasks at h ⊢
  rw [List.filterMap_append, h, List.append_nil, List.filterMap_map]
  induction tasks with
  | nil => rfl
  | cons t ts ih => simp [List.filterMap_cons, ih]

theorem cloudMetricLaunches_keys (SandboxID : String) (AsgNames InstanceIDs : List String) :
    (cloudMetricLaunches SandboxID AsgNames InstanceIDs).map CloudMetricTask.key
      = catalogCrossProduct AsgNames InstanceIDs := by
  simp only [cloudMetricLaunches, metricQueries, dimensionQueries, catalogCrossProduct,
    catalogMetrics, List.enum, List.enumFrom, List.flatMap_cons, List.flatMap_nil,
    flatMap_if_ne_empty, List.append_nil, List.map_append, List.map_map]
  rfl

theorem catalogCrossProduct_length (AsgNames InstanceIDs : List String) :
    (catalogCrossProduct AsgNames InstanceIDs).length
      = 7 * ((AsgNames.filter (fun v => v ≠ "")).length
          + (InstanceIDs.filter (fun v => v ≠ "")).length) := by
  simp only [catalogCrossProduct, catalogMetrics, List.flatMap_cons, List.flatMap_nil,
    List.length_append, List.length_map, List.length_nil]
  omega

theorem catalogCrossProduct_value_ne (AsgNames InstanceIDs : List String)
    (k : String × String × String × String × String)
    (hk : k ∈ catalogCrossProduct AsgNames InstanceIDs) : k.2.2.2.2 ≠ "" := by
  simp only [catalogCrossProduct, List.mem_flatMap, List.mem_append, List.mem_map,
    List.mem_filter] at hk
  obtain ⟨ms, _, ⟨v, ⟨_, hv⟩, rfl⟩ | ⟨v, ⟨_, hv⟩, rfl⟩⟩ := hk <;> simpa using hv

theorem cloud_tasks_of_cycle (SandboxID : String) (AsgNames InstanceIDs : List String)
    (cycle : String → List String → List String → List Action)
    (hc : cycle ∈ [EvaluateIRONdb, EvaluateInfluxDB, EvaluateTimescaleDB]) :
    launchedCloudTasks (cycle SandboxID AsgNames InstanceIDs)
      = cloudMetricLaunches SandboxID AsgNames InstanceIDs := by
  simp only [List.mem_cons, List.mem_singleton, List.mem_nil_iff, or_false] at hc
  rcases hc with rfl | rfl | rfl
  · exact launchedCloudTasks_cycle _ _ (by decide)
  · exact launchedCloudTasks_cycle _ _ (by decide)
  · exact launchedCloudTasks_cycle _ _ (by decide)

/-- C18: in one iteration of each of the three schedulers, the cloud-metric
tasks launched are, in launch order, exactly the cross product of the 7 catalog
metrics (with their statistic, in namespace AWS/EC2) with the non-empty group
names under dimension `AutoScalingGroupName` and the non-empty instance IDs
under dimension `InstanceId`; they number 7 times the count of non-empty group
names plus non-empty instance IDs, and none has an empty dimension value. -/
theorem cloud_tasks_are_catalog_cross_product (SandboxID : String)
    (AsgNames InstanceIDs : List String) :
    ∀ cycle ∈ [EvaluateIRONdb, EvaluateInfluxDB, EvaluateTimescaleDB],
      (launchedCloudTasks (cycle SandboxID AsgNames InstanceIDs)).map CloudMetricTask.key
        = catalogCrossProduct AsgNames InstanceIDs ∧
      (launchedCloudTasks (cycle SandboxID AsgNames InstanceIDs)).length
        = 7 * ((AsgNames.filter (fun v => v ≠ "")).length
            + (InstanceIDs.filter (fun v => v ≠ "")).length) ∧
      ∀ t ∈ launchedCloudTasks (cycle SandboxID AsgNames InstanceIDs), t.dimensionValue ≠ "" := by
  intro cycle hc
  rw [cloud_tasks_of_cycle SandboxID AsgNames InstanceIDs cycle hc]
  have hkeys := cloudMetricLaunches_keys SandboxID AsgNames InstanceIDs
  refine ⟨hkeys, ?_, ?_⟩
  · rw [← catalogCrossProduct_length, ← hkeys, List.length_map]
  · intro t ht
    have hmem : t.key ∈ catalogCrossProduct AsgNames InstanceIDs := by
      rw [← hkeys]; exact List.mem_map_of_mem _ ht
    exact catalogCrossProduct_value_ne AsgNames InstanceIDs t.key hmem

/-- C18, for the IRONdb scheduler with one unfilled group slot: 7 × (1 + 2)
tasks are launched. -/
theorem cloud_tasks_are_catalog_cross_product_witness :
    EvaluateIRONdb ∈ [EvaluateIRONdb, EvaluateInfluxDB, EvaluateTimescaleDB] ∧
    (launchedCloudTasks (EvaluateIRONdb "sb" ["asg-a", ""] ["i-1", "i-2"])).length = 21 :=
  ⟨List.mem_cons_self _ _,
    ((cloud_tasks_are_catalog_cross_product "sb" ["asg-a", ""] ["i-1", "i-2"] EvaluateIRONdb
      (List.mem_cons_self _ _)).2.1).trans (by decide)⟩

/-- C19: in one iteration of the IRONdb scheduler with two auto-scaling groups
and two instances, the tasks for CPUUtilization of the two different groups
carry the same Result name, and so do the tasks for the two different
instances: the number in the name is the position of the dimension kind
(1 for groups, 2 for instances), not that of the group or instance. -/
theorem cloud_tasks_of_different_groups_share_result_name :
    (launchedCloudTasks (EvaluateIRONdb "sb" ["asg-a", "asg-b"] ["i-1", "i-2"])).take 4
      = [⟨"sb.infra.tsdb-asg-1.cpu.utilization.avg", "CPUUtilization", "AWS/EC2",
            "AutoScalingGroupName", "asg-a", "Average"⟩,
         ⟨"sb.infra.tsdb-asg-1.cpu.utilization.avg", "CPUUtilization", "AWS/EC2",
            "AutoScalingGroupName", "asg-b", "Average"⟩,
         ⟨"sb.infra.tsdb-node-2.cpu.utilization.avg", "CPUUtilization", "AWS/EC2",
            "InstanceId", "i-1", "Average"⟩,
         ⟨"sb.infra.tsdb-node-2.cpu.utilization.avg", "CPUUtilization", "AWS/EC2",
            "InstanceId", "i-2", "Average"⟩] := by
  decide

theorem filterMap_cycle {β : Type} (f : Action → Option β)
    (hf : ∀ t, f (Action.goGrabAWSmetric t) = none) (tasks : List CloudMetricTask)
    (probes : List Action) :
    (tasks.map Action.goGrabAWSmetric ++ probes).filterMap f = probes.filterMap f := by
  induction tasks with
  | nil => rfl
  | cons t ts ih => simp [List.filterMap_cons, hf, ih]

theorem eachProbeAfterPause_cycle (d : Int) (rest : List Action) :
    ∀ (tasks : List CloudMetricTask) (prev : Option Action),
      eachProbeAfterPause prev (tasks.map Action.goGrabAWSmetric ++ Action.sleep d :: rest)
        = eachProbeAfterPause none (Action.sleep d :: rest) := by
  intro tasks
  induction tasks with
  | nil => intro prev; simp [eachProbeAfterPause, isProbeLaunch]
  | cons t ts ih =>
    intro prev
    rw [List.map_cons, List.cons_append, eachProbeAfterPause, ih]
    simp [isProbeLaunch]

/-- C20: in one iteration, the IRONdb scheduler and the InfluxDB scheduler each
launch the probes named, in launch order, exactly as the list `queryMetrics`
provisioned in the sink, which has 11 entries; every probe launch comes right
after a pause of 2 seconds; all IRONdb probes are CAQL probes, all InfluxDB
probes InfluxDB probes, and probe by probe the InfluxDB lookback string denotes
the IRONdb lookback in seconds (5m = 300, 24h = 86400, 6h = 21600,
7d = 604800). -/
theorem probes_match_queryMetrics_with_equal_lookbacks (SandboxID : String)
    (AsgNames InstanceIDs : List String) :
    probeNames (EvaluateIRONdb SandboxID AsgNames InstanceIDs) = queryMetrics ∧
    probeNames (EvaluateInfluxDB SandboxID AsgNames InstanceIDs) = queryMetrics ∧
    queryMetrics.length = 11 ∧
    eachProbeAfterPause none (EvaluateIRONdb SandboxID AsgNames InstanceIDs) = true ∧
    eachProbeAfterPause none (EvaluateInfluxDB SandboxID AsgNames InstanceIDs) = true ∧
    (caqlLookbacks (EvaluateIRONdb SandboxID AsgNames InstanceIDs)).length = 11 ∧
    (influxLookbacks (EvaluateInfluxDB SandboxID AsgNames InstanceIDs)).map influxDurationSeconds
      = (caqlLookbacks (EvaluateIRONdb SandboxID AsgNames InstanceIDs)).map some ∧
    caqlLookbacks (EvaluateIRONdb SandboxID AsgNames InstanceIDs)
      = [300, 86400, 604800, 604800, 604800, 21600, 21600, 604800, 604800, 604800, 604800] := by
  have hcaql : caqlLookbacks (EvaluateIRONdb SandboxID AsgNames InstanceIDs)
      = caqlLookbacks EvaluateIRONdbProbes := filterMap_cycle _ (fun _ => rfl) _ _
  have hinflux : influxLookbacks (EvaluateInfluxDB SandboxID AsgNames InstanceIDs)
      = influxLookbacks EvaluateInfluxDBProbes := filterMap_cycle _ (fun _ => rfl) _ _
  have hn1 : probeNames (EvaluateIRONdb SandboxID AsgNames InstanceIDs)
      = probeNames EvaluateIRONdbProbes := filterMap_cycle _ (fun _ => rfl) _ _
  have hn2 : probeNames (EvaluateInfluxDB SandboxID AsgNames InstanceIDs)
      = probeNames EvaluateInfluxDBProbes := filterMap_cycle _ (fun _ => rfl) _ _
  have hp1 : eachProbeAfterPause none (EvaluateIRONdb SandboxID AsgNames InstanceIDs)
      = eachProbeAfterPause none EvaluateIRONdbProbes :=
    eachProbeAfterPause_cycle _ _ _ none
  have hp2 : eachProbeAfterPause none (EvaluateInfluxDB SandboxID AsgNames InstanceIDs)
      = eachProbeAfterPause none EvaluateInfluxDBProbes :=
    eachProbeAfterPause_cycle _ _ _ none
  rw [hcaql, hinflux, hn1, hn2, hp1, hp2]
  refine ⟨by decide, by decide, by decide, by decide, by decide, by decide, by decide, by decide⟩

/-! ### Remaining properties of the executors -/

theorem influx_submatch_shape (body : String) :
    influxLastResultRegex.FindStringSubmatch body = [] ∨
    ∃ whole ds : List Char,
      influxLastResultRegex.FindStringSubmatch body = [String.mk whole, String.mk ds] ∧
      ∀ x ∈ ds, isDigit09 x = true := by
  cases hf : findLeftmost influxLastResultRegex.atoms body.data with
  | none =>
    left
    simp [Regexp.FindStringSubmatch, hf]
  | some m =>
    right
    obtain ⟨t, _, hmt⟩ := findLeftmost_some _ _ _ hf
    have hch := matchHere_chunks _ _ _ hmt
    simp only [influxLastResultRegex, List.forall₂_cons_left_iff,
      List.forall₂_nil_left_iff] at hch
    obtain ⟨c0, m1, _, ⟨c1, m2, _, ⟨ds, m3, hds, ⟨c3, m4, _, ⟨c4, m5, _, h5, h4⟩, h3⟩, h2⟩,
      h1⟩, h0⟩ := hch
    subst h5; subst h4; subst h3; subst h2; subst h1; subst h0
    refine ⟨c0 ++ (c1 ++ (ds ++ (c3 ++ c4))), ds, ?_, by simpa [chunkOk] using hds⟩
    rw [Regexp.FindStringSubmatch, hf]
    simp [influxLastResultRegex]

theorem stringsSplitComma_of_digits (ds : List Char) (hds : ∀ x ∈ ds, isDigit09 x = true) :
    stringsSplitComma (String.mk ds) = [String.mk ds] := by
  have hcomma : ',' ∉ ds := by
    intro hmem
    have := hds _ hmem
    revert this
    decide
  simp [stringsSplitComma, splitChars_of_not_mem _ _ hcomma]

/-- C29: for every response with status below 400 whose body could be read,
`doProxiedInfluxDBHTTPQuery` returns no error and its result is either "nan" or
a possibly empty string made only of the ASCII digits 0-9; when the pattern
matches, the captured group is such a digit string, the comma split leaves it
as its single piece, and it is the result. -/
theorem influx_result_is_nan_or_digit_string (status : Int) (hdrs : List String) (body : String)
    (hs : status < 400) :
    (doProxiedInfluxDBHTTPQuery (Except.ok ⟨status, hdrs, Except.ok body⟩)).2 = none ∧
    ((doProxiedInfluxDBHTTPQuery (Except.ok ⟨status, hdrs, Except.ok body⟩)).1 = "nan" ∨
      (doProxiedInfluxDBHTTPQuery (Except.ok ⟨status, hdrs, Except.ok body⟩)).1.data.all isDigit09
        = true) ∧
    (∀ whole ds : String, influxLastResultRegex.FindStringSubmatch body = [whole, ds] →
      ds.data.all isDigit09 = true ∧ stringsSplitComma ds = [ds] ∧
      (doProxiedInfluxDBHTTPQuery (Except.ok ⟨status, hdrs, Except.ok body⟩)).1 = ds) := by
  rcases influx_submatch_shape body with hno | ⟨whole, ds, hm, hds⟩
  · have hres : doProxiedInfluxDBHTTPQuery (Except.ok ⟨status, hdrs, Except.ok body⟩)
        = ("nan", none) := by
      rw [doProxiedInfluxDBHTTPQuery_ok _ _ _ hs, hno]
      rfl
    rw [hres]
    refine ⟨rfl, Or.inl rfl, ?_⟩
    intro w d h
    rw [hno] at h
    cases h
  · have hsplit := stringsSplitComma_of_digits ds hds
    have hres : doProxiedInfluxDBHTTPQuery (Except.ok ⟨status, hdrs, Except.ok body⟩)
        = (String.mk ds, none) := by
      rw [doProxiedInfluxDBHTTPQuery_ok _ _ _ hs, hm]
      simp only [List.length_cons, List.length_nil]
      rw [if_neg (by omega)]
      simp only [List.getD_cons_succ, List.getD_cons_zero]
      rw [hsplit]
      rfl
    rw [hres]
    refine ⟨rfl, Or.inr (by simpa using hds), ?_⟩
    intro w d h
    rw [hm] at h
    simp only [List.cons.injEq, and_true] at h
    obtain ⟨_, rfl⟩ := h
    exact ⟨by simpa using hds, hsplit, rfl⟩

/-- C29, on an InfluxDB answer whose last value is 42. -/
theorem influx_result_is_nan_or_digit_string_witness :
    (200 : Int) < 400 ∧
    doProxiedInfluxDBHTTPQuery (Except.ok ⟨200, [],
        Except.ok "\x7b\"results\":[\x7b\"series\":[\x7b\"values\":[[1571,42]]\x7d]\x7d]\x7d"⟩)
      = ("42", none) ∧
    (doProxiedInfluxDBHTTPQuery (Except.ok ⟨200, [],
        Except.ok "\x7b\"results\":[\x7b\"series\":[\x7b\"values\":[[1571,42]]\x7d]\x7d]\x7d"⟩)).2
      = none :=
  ⟨by decide, by decide,
    (influx_result_is_nan_or_digit_string 200 []
      "\x7b\"results\":[\x7b\"series\":[\x7b\"values\":[[1571,42]]\x7d]\x7d]\x7d" (by decide)).1⟩

/-- C30: with a metric data result whose value series is empty, `GrabAWSmetric`
logs nothing for DiskReadBytes, DiskWriteBytes and EBSReadBytes, but logs the
"No data values" warning for EBSWriteBytes, as it does for CPUUtilization,
NetworkIn and NetworkOut: the fourth name tested is "EBSkWriteBytes". -/
theorem GrabAWSmetric_warns_for_EBSWriteBytes :
    ["DiskReadBytes", "DiskWriteBytes", "EBSReadBytes", "EBSWriteBytes", "CPUUtilization",
        "NetworkIn", "NetworkOut"].map (fun m =>
      (GrabAWSmetric (fun _ : Nat => "0.00") 1700000000000000000 (Except.ok [⟨[], []⟩])
        "sb.infra.tsdb-node-2.x" m "AWS/EC2" "InstanceId" "i-1" "Sum" []).map
          (fun o => o.log.length))
      = [some 0, some 0, some 0, some 1, some 1, some 1, some 1] ∧
    (GrabAWSmetric (fun _ : Nat => "0.00") 1700000000000000000 (Except.ok [⟨[], []⟩])
        "sb.infra.tsdb-node-2.ebs.write.bytes" "EBSWriteBytes" "AWS/EC2" "InstanceId" "i-1" "Sum"
        []).map (fun o => o.log)
      = some [LogEntry.warn
          "No data values retrieved from AWS for AWS/EC2 / EBSWriteBytes • InstanceId=i-1: Sum"] := by
  decide

/-- C26: for a session cookie with `Max-Age=9223372037`, login succeeds and
arms a timer whose delay, 9223372037 × 10⁹ ns wrapped to signed 64 bits, is
negative; and with `Max-Age=36028797018963968` (2⁵⁵) the delay is zero. -/
theorem login_large_maxage_wraps_to_non_positive_delay :
    (login "tdb" none (Except.ok ⟨200, ["grafana_session=abc123; Path=/; Max-Age=9223372037"],
        Except.ok ""⟩)).err = none ∧
    (login "tdb" none (Except.ok ⟨200, ["grafana_session=abc123; Path=/; Max-Age=9223372037"],
        Except.ok ""⟩)).timers = [-9223372036709551616] ∧
    (login "tdb" none (Except.ok ⟨200,
        ["grafana_session=abc123; Path=/; Max-Age=36028797018963968"], Except.ok ""⟩)).timers
      = [0] := by
  decide

theorem GrabAWSmetric_request {V : Type} (fmt2f : V → String) (now : Int)
    (resp : Except String (List (MetricDataResult V)))
    (resultMetricName awsMetricName metricNamespace dimensionName dimensionValue stat : String)
    (ch : List Result) (out : AwsOut)
    (h : GrabAWSmetric fmt2f now resp resultMetricName awsMetricName metricNamespace dimensionName
      dimensionValue stat ch = some out) :
    out.request = ⟨now + (-61) * timeSecond, now, "queryid", awsMetricName, metricNamespace,
      dimensionName, dimensionValue, 60, stat⟩ := by
  unfold GrabAWSmetric at h
  simp only [] at h
  split at h
  · cases h; rfl
  · cases h; rfl
  · split at h
    · split at h
      · cases h
      · cases h; rfl
    · split at h <;> (cases h; rfl)

/-- C22, refuted as stated: for a call made at time t = 1700000000 s, the
request window starts at t − 61 s but ends at t, not at t − 1 s, and is 61
seconds long. -/
theorem GrabAWSmetric_window_ends_now :
    (GrabAWSmetric (fun _ : Nat => "0.00") 1700000000000000000 (Except.ok [])
        "sb.infra.tsdb-asg-1.cpu.utilization.avg" "CPUUtilization" "AWS/EC2"
        "AutoScalingGroupName" "asg-a" "Average" []).map
          (fun o => (o.request.StartTime, o.request.EndTime))
      = some (1699999939000000000, 1700000000000000000) ∧
    (1700000000000000000 : Int) ≠ 1700000000000000000 - 1 * timeSecond ∧
    (1700000000000000000 : Int) - 1699999939000000000 = 61 * timeSecond := by
  decide

/-- C22, amended: for every call of `GrabAWSmetric` made at time t, the
metric-data request starts at t − 61 s and ends at t: its window is 61 seconds
long, queried with a period of 60 seconds. -/
theorem GrabAWSmetric_window_is_last_61_seconds {V : Type} (fmt2f : V → String) (now : Int)
    (resp : Except String (List (MetricDataResult V)))
    (resultMetricName awsMetricName metricNamespace dimensionName dimensionValue stat : String)
    (ch : List Result) (out : AwsOut)
    (h : GrabAWSmetric fmt2f now resp resultMetricName awsMetricName metricNamespace dimensionName
      dimensionValue stat ch = some out) :
    out.request.StartTime = now - 61 * 1000000000 ∧
    out.request.EndTime = now ∧
    out.request.EndTime - out.request.StartTime = 61 * 1000000000 ∧
    out.request.Period = 60 := by
  rw [GrabAWSmetric_request fmt2f now resp resultMetricName awsMetricName metricNamespace
    dimensionName dimensionValue stat ch out h]
  refine ⟨?_, rfl, ?_, rfl⟩ <;> (simp only [timeSecond]; omega)

/-- C22 amended, for a call made at t = 1700000000 s that gets one datapoint. -/
theorem GrabAWSmetric_window_is_last_61_seconds_witness :
    GrabAWSmetric (fun _ : Nat => "12.50") 1700000000000000000
        (Except.ok [⟨[7], [1699999940000000000]⟩])
        "sb.infra.tsdb-asg-1.cpu.utilization.avg" "CPUUtilization" "AWS/EC2"
        "AutoScalingGroupName" "asg-a" "Average" []
      = some ⟨⟨1699999939000000000, 1700000000000000000, "queryid", "CPUUtilization", "AWS/EC2",
          "AutoScalingGroupName", "asg-a", 60, "Average"⟩,
        [⟨1699999940, "sb.infra.tsdb-asg-1.cpu.utilization.avg", "12.50", ""⟩],
        [⟨1699999940, "sb.infra.tsdb-asg-1.cpu.utilization.avg", "12.50", ""⟩], []⟩ ∧
    (1700000000000000000 : Int) - 1699999939000000000 = 61 * 1000000000 :=
  ⟨by decide,
    (GrabAWSmetric_window_is_last_61_seconds (fun _ : Nat => "12.50")
      1700000000000000000 (Except.ok [⟨[7], [1699999940000000000]⟩])
      "sb.infra.tsdb-asg-1.cpu.utilization.avg" "CPUUtilization" "AWS/EC2"
      "AutoScalingGroupName" "asg-a" "Average" []
      ⟨⟨1699999939000000000, 1700000000000000000, "queryid", "CPUUtilization", "AWS/EC2",
          "AutoScalingGroupName", "asg-a", 60, "Average"⟩,
        [⟨1699999940, "sb.infra.tsdb-asg-1.cpu.utilization.avg", "12.50", ""⟩],
        [⟨1699999940, "sb.infra.tsdb-asg-1.cpu.utilization.avg", "12.50", ""⟩], []⟩
      (by decide)).2.2.1⟩

/-- C23, refuted as stated: a CAQL probe started at second 5 whose request
completes at second 30 emits its two Results with timestamp 5; and a
cloud-metric call made at second 1700000000 emits its Result with the
provider's datapoint time 1699999940. -/
theorem result_timestamps_are_not_emission_time :
    (SimpleCaqlQuery "sb" 5000000000 30000000000 (fun _ => "25000.00")
        (Except.ok ⟨200, [], Except.ok "\x7b\"data\":[[6000]]\x7d"⟩) "metrics-count"
        []).offered.map (fun r => r.Timestamp) = [5, 5] ∧
    unixSeconds 30000000000 = 30 ∧
    (GrabAWSmetric (fun _ : Nat => "12.50") 1700000000000000000
        (Except.ok [⟨[7], [1699999940000000000]⟩])
        "sb.infra.tsdb-asg-1.cpu.utilization.avg" "CPUUtilization" "AWS/EC2"
        "AutoScalingGroupName" "asg-a" "Average" []).map
          (fun o => o.offered.map (fun r => r.Timestamp))
      = some [1699999940] ∧
    unixSeconds 1700000000000000000 = 1700000000 := by
  decide

theorem GrabAWSmetric_offered_timestamp {V : Type} (fmt2f : V → String) (now : Int)
    (resp : Except String (List (MetricDataResult V)))
    (resultMetricName awsMetricName metricNamespace dimensionName dimensionValue stat : String)
    (ch : List Result) (out : AwsOut)
    (h : GrabAWSmetric fmt2f now resp resultMetricName awsMetricName metricNamespace dimensionName
      dimensionValue stat ch = some out) :
    ∀ r ∈ out.offered, ∃ (first : MetricDataResult V) (rest : List (MetricDataResult V))
      (t0 : Int) (ts : List Int),
      resp = Except.ok (first :: rest) ∧ first.Timestamps = t0 :: ts ∧
      r.Timestamp = unixSeconds t0 := by
  unfold GrabAWSmetric at h
  simp only [] at h
  split at h
  · cases h; simp
  · cases h; simp
  · rename_i first rest
    split at h
    · split at h
      · cases h
      · rename_i t0 ts hts
        cases h
        intro r hr
        simp at hr
        subst hr
        exact ⟨first, rest, t0, ts, rfl, hts, rfl⟩
    · split at h <;> (cases h; simp)

/-- C23, amended: every Result emitted by a proxied probe (CAQL or InfluxDB)
carries the Unix time in seconds at which the query started, read before the
request is sent; every Result emitted by the cloud-metric executor carries the
Unix time in seconds of the first timestamp of the first metric data result
returned by the provider. -/
theorem result_timestamps_are_query_start_or_datapoint_time {V : Type} (fmt2f : V → String)
    (now : Int) (resp : Except String (List (MetricDataResult V)))
    (resultMetricName awsMetricName metricNamespace dimensionName dimensionValue stat : String)
    (SandboxID : String) (queryStartTime endTime : Int) (fmtMillis : Int → String)
    (http : Except String Response) (p : String) (ch : List Result) :
    (∀ r ∈ (SimpleCaqlQuery SandboxID queryStartTime endTime fmtMillis http p ch).offered,
      r.Timestamp = unixSeconds queryStartTime) ∧
    (∀ r ∈ (SimpleInfluxDBQuery SandboxID queryStartTime endTime fmtMillis http p ch).offered,
      r.Timestamp = unixSeconds queryStartTime) ∧
    (∀ out : AwsOut,
      GrabAWSmetric fmt2f now resp resultMetricName awsMetricName metricNamespace dimensionName
        dimensionValue stat ch = some out →
      ∀ r ∈ out.offered, ∃ (first : MetricDataResult V) (rest : List (MetricDataResult V))
        (t0 : Int) (ts : List Int),
        resp = Except.ok (first :: rest) ∧ first.Timestamps = t0 :: ts ∧
        r.Timestamp = unixSeconds t0) := by
  refine ⟨?_, ?_, ?_⟩
  · rw [SimpleCaqlQuery_offered]
    intro r hr
    simp only [List.mem_cons, List.mem_singleton, List.mem_nil_iff, or_false] at hr
    rcases hr with rfl | rfl <;> rfl
  · rw [SimpleInfluxDBQuery_offered]
    intro r hr
    simp only [List.mem_cons, List.mem_singleton, List.mem_nil_iff, or_false] at hr
    rcases hr with rfl | rfl <;> rfl
  · intro out h
    exact GrabAWSmetric_offered_timestamp fmt2f now resp resultMetricName awsMetricName
      metricNamespace dimensionName dimensionValue stat ch out h

/-- C23 amended, on the CAQL probe started at second 5 and completed at second
30, whose `.value` Result carries 5, and on the cloud-metric call made at second
1700000000, whose Result carries the datapoint time 1699999940. -/
theorem result_timestamps_are_query_start_or_datapoint_time_witness :
    (⟨5, "sb.query.metrics-count.value", "6000", ""⟩ : Result)
      ∈ (SimpleCaqlQuery "sb" 5000000000 30000000000 (fun _ => "25000.00")
        (Except.ok ⟨200, [], Except.ok "\x7b\"data\":[[6000]]\x7d"⟩) "metrics-count" []).offered ∧
    (⟨5, "sb.query.metrics-count.value", "6000", ""⟩ : Result).Timestamp
      = unixSeconds 5000000000 ∧
    GrabAWSmetric (fun _ : Nat => "12.50") 1700000000000000000
        (Except.ok [⟨[7], [1699999940000000000]⟩])
        "sb.infra.tsdb-asg-1.cpu.utilization.avg" "CPUUtilization" "AWS/EC2"
        "AutoScalingGroupName" "asg-a" "Average" []
      = some ⟨⟨1699999939000000000, 1700000000000000000, "queryid", "CPUUtilization", "AWS/EC2",
          "AutoScalingGroupName", "asg-a", 60, "Average"⟩,
        [⟨1699999940, "sb.infra.tsdb-asg-1.cpu.utilization.avg", "12.50", ""⟩],
        [⟨1699999940, "sb.infra.tsdb-asg-1.cpu.utilization.avg", "12.50", ""⟩], []⟩ ∧
    (∃ (first : MetricDataResult Nat) (rest : List (MetricDataResult Nat)) (t0 : Int)
        (ts : List Int),
      (Except.ok [⟨[7], [1699999940000000000]⟩] : Except String (List (MetricDataResult Nat)))
        = Except.ok (first :: rest) ∧ first.Timestamps = t0 :: ts ∧
      (⟨1699999940, "sb.infra.tsdb-asg-1.cpu.utilization.avg", "12.50", ""⟩ : Result).Timestamp
        = unixSeconds t0) :=
  ⟨by decide,
    (result_timestamps_are_query_start_or_datapoint_time (fun _ : Nat => "12.50")
      1700000000000000000 (Except.ok [⟨[7], [1699999940000000000]⟩])
      "sb.infra.tsdb-asg-1.cpu.utilization.avg" "CPUUtilization" "AWS/EC2"
      "AutoScalingGroupName" "asg-a" "Average" "sb" 5000000000 30000000000
      (fun _ => "25000.00") (Except.ok ⟨200, [], Except.ok "\x7b\"data\":[[6000]]\x7d"⟩)
      "metrics-count" []).1 ⟨5, "sb.query.metrics-count.value", "6000", ""⟩ (by decide),
    by decide,
    (result_timestamps_are_query_start_or_datapoint_time (fun _ : Nat => "12.50")
      1700000000000000000 (Except.ok [⟨[7], [1699999940000000000]⟩])
      "sb.infra.tsdb-asg-1.cpu.utilization.avg" "CPUUtilization" "AWS/EC2"
      "AutoScalingGroupName" "asg-a" "Average" "sb" 5000000000 30000000000
      (fun _ => "25000.00") (Except.ok ⟨200, [], Except.ok "\x7b\"data\":[[6000]]\x7d"⟩)
      "metrics-count" []).2.2
      ⟨⟨1699999939000000000, 1700000000000000000, "queryid", "CPUUtilization", "AWS/EC2",
          "AutoScalingGroupName", "asg-a", 60, "Average"⟩,
        [⟨1699999940, "sb.infra.tsdb-asg-1.cpu.utilization.avg", "12.50", ""⟩],
        [⟨1699999940, "sb.infra.tsdb-asg-1.cpu.utilization.avg", "12.50", ""⟩], []⟩
      (by decide) ⟨1699999940, "sb.infra.tsdb-asg-1.cpu.utilization.avg", "12.50", ""⟩
      (by decide)⟩

/-! ### Sink request and configuration -/

theorem wrapInt64_of_range (x : Int) (h0 : -2 ^ 63 ≤ x) (h1 : x < 2 ^ 63) : wrapInt64 x = x := by
  unfold wrapInt64
  have : (x + 2 ^ 63) % 2 ^ 64 = x + 2 ^ 63 := Int.emod_eq_of_lt (by omega) (by omega)
  omega

/-- C21: for every call `PushDatapoint(timestamp, name, value, datatype)` that
gets its request built, the request sent is a POST whose body is exactly
`{"_ts": T, "<name>": "<value>", "_type": "<datatype>"}` with `T` the decimal
rendering of the `int64` product `timestamp*1000`, which is timestamp × 1000
whenever that fits 64 bits; and the request carries the configured API token
in the `X-Circonus-Auth-Token` header. -/
theorem PushDatapoint_body_is_millisecond_payload (httpAPIURL CirconusAPIToken : String)
    (doErr : Option String) (timestamp : Int) (name value datatype : String) :
    ∃ (req : PushRequest) (lg : List LogEntry),
      PushDatapoint httpAPIURL CirconusAPIToken true doErr timestamp name value datatype
        = some (req, lg) ∧
      req.Method = "POST" ∧
      req.Body = "\x7b\"_ts\": " ++ toString (wrapInt64 (timestamp * 1000)) ++ ", \"" ++ name
        ++ "\": \"" ++ value ++ "\", \"_type\": \"" ++ datatype ++ "\"\x7d" ∧
      (-2 ^ 63 ≤ timestamp * 1000 ∧ timestamp * 1000 < 2 ^ 63 →
        req.Body = "\x7b\"_ts\": " ++ toString (timestamp * 1000) ++ ", \"" ++ name
          ++ "\": \"" ++ value ++ "\", \"_type\": \"" ++ datatype ++ "\"\x7d") ∧
      req.Header.lookup "X-Circonus-Auth-Token" = some CirconusAPIToken := by
  cases doErr with
  | none =>
    refine ⟨_, _, rfl, rfl, rfl, ?_, ?_⟩
    · intro h
      simp only [wrapInt64_of_range _ h.1 h.2]
    · simp [List.lookup]
  | some e =>
    refine ⟨_, _, rfl, rfl, rfl, ?_, ?_⟩
    · intro h
      simp only [wrapInt64_of_range _ h.1 h.2]
    · simp [List.lookup]

/-- C21, for the Result of second 1700000000: the body carries 1700000000000. -/
theorem PushDatapoint_body_is_millisecond_payload_witness :
    (-2 ^ 63 ≤ (1700000000 : Int) * 1000 ∧ (1700000000 : Int) * 1000 < 2 ^ 63) ∧
    (PushDatapoint "https://trap.example/module/httptrap/1/mys3cr3t" "token" true none 1700000000
        "sb.query.metrics-count.value" "6000" "n").map (fun r => r.1.Body)
      = some "\x7b\"_ts\": 1700000000000, \"sb.query.metrics-count.value\": \"6000\", \"_type\": \"n\"\x7d" ∧
    (∃ (req : PushRequest) (lg : List LogEntry),
      PushDatapoint "https://trap.example/module/httptrap/1/mys3cr3t" "token" true none 1700000000
        "sb.query.metrics-count.value" "6000" "n" = some (req, lg) ∧
      req.Header.lookup "X-Circonus-Auth-Token" = some "token") :=
  ⟨by decide, by decide,
    (PushDatapoint_body_is_millisecond_payload "https://trap.example/module/httptrap/1/mys3cr3t"
      "token" none 1700000000 "sb.query.metrics-count.value" "6000" "n").elim
      (fun req h => h.elim (fun lg h => ⟨req, lg, h.1, h.2.2.2.2⟩))⟩

/-- C24: with every other setting valid, `ValidateConfig` accepts the selectors
"irondb" and "influxdb" but rejects "timescale" with the initialization error
"The value of tsdbSystem is invalid". -/
theorem ValidateConfig_rejects_timescale :
    ValidateConfig
        { Config.initial with
          SandboxID := "sb", GrafanaURL := "https://grafana.sb", GrafanaPassword := "pw",
          CirconusAPIToken := "tok", LogLevel := "info", TSDBSystem := "irondb" } none = none ∧
    ValidateConfig
        { Config.initial with
          SandboxID := "sb", GrafanaURL := "https://grafana.sb", GrafanaPassword := "pw",
          CirconusAPIToken := "tok", LogLevel := "info", TSDBSystem := "influxdb" } none = none ∧
    ValidateConfig
        { Config.initial with
          SandboxID := "sb", GrafanaURL := "https://grafana.sb", GrafanaPassword := "pw",
          CirconusAPIToken := "tok", LogLevel := "info", TSDBSystem := "timescale" } none
      = some ⟨"The value of tsdbSystem is invalid", none⟩ := by
  decide

/-- C25: with `CAQL_USE_TAGS=true` in the environment and the flag
`-irondbCaqlUseTags=false` on the command line, `InitConfigFromEnvVars`
followed by `parseCLIFlag` leaves `CAQLUseTags` true, while a string flag given
together with its environment variable does take the flag's value. -/
theorem parseCLIFlag_false_flag_does_not_override_env :
    (InitConfigFromEnvVars
        (fun k => if k = "CAQL_USE_TAGS" then "true" else if k = "SANDBOX_ID" then "env-sb" else "")
        Config.initial).toOption.map
      (fun c => parseCLIFlag
        { CLIFlags.none with irondbCaqlUseTags := some false, sandboxID := some "flag-sb" } c)
      = some { Config.initial with SandboxID := "flag-sb", CAQLUseTags := true } := by
  decide

theorem createMetric_status (name : String) (tags : List String) :
    (createMetric name tags).Status = "active" := rfl

end Tems
